import Mathlib

/-!
# SaiNeighborManager: a shallow embedding

Embedding of `fboss/agent/hw/sai/switch/SaiNeighborManager.cpp`.

The C++ member functions mutate the manager and may throw `FbossError`.
Here every operation is a function from the manager state to the state it
leaves behind, together with the error it threw (if any): the state reached
when an exception propagates is the state as mutated up to the `throw`.

The state carries a trace of the calls the manager makes into its
collaborators (the logger, the router-interface manager, the object event
publisher and the object store), most recent last, so that statements such as
"no lookup is made" or "nothing is subscribed" can be expressed.
-/

namespace Fboss

/-! ## Identifiers and addresses -/

abbrev InterfaceID := Nat
abbrev PortID := Nat
abbrev AggregatePortID := Nat
abbrev MacAddress := Nat
abbrev SwitchSaiId := Nat
abbrev RouterInterfaceSaiId := Nat
abbrev VlanSaiId := Nat

/-- IP address of either family (`folly::IPAddress`); the payload is the address
read as a big-endian integer (32 bits for v4, 128 bits for v6). -/
inductive IPAddress where
  | v4 (addr : Nat)
  | v6 (addr : Nat)
  deriving DecidableEq, Repr

/-- Address family number: `folly::IPAddress::version()`. -/
def IPAddress.version : IPAddress → Nat
  | .v4 _ => 4
  | .v6 _ => 6

/-- Link-local test of `folly::IPAddress::isLinkLocal()`: `169.254.0.0/16` for
IPv4 and `fe80::/10` for IPv6. -/
def IPAddress.isLinkLocal : IPAddress → Bool
  | .v4 a => (a / 2 ^ 16) % 2 ^ 16 == 0xA9FE
  | .v6 a => (a / 2 ^ 118) % 2 ^ 10 == 0x3FA

/-- Port descriptor of the software switch state: a physical port or an
aggregate port. -/
inductive PortDescriptor where
  | physical (phyPortID : PortID)
  | aggregate (aggPortID : AggregatePortID)
  deriving DecidableEq, Repr

/-- Port descriptor on the SAI side (`SaiPortDescriptor`). -/
inductive SaiPortDescriptor where
  | physical (phyPortID : PortID)
  | aggregate (aggPortID : AggregatePortID)
  deriving DecidableEq, Repr

def SaiPortDescriptor.isPhysicalPort : SaiPortDescriptor → Bool
  | .physical _ => true
  | .aggregate _ => false

/-! ## Software neighbor entries -/

/-- Modelled from the spec: the `NeighborState` of a software neighbor entry
(declared in `state/NeighborEntry.h`, not among the sources). The spec knows
a "resolved MAC address or pending marker". -/
inductive NeighborState where
  | pending
  | reachable
  deriving DecidableEq, Repr

/-- Modelled from the spec: the software neighbor entry (`ArpEntry` /
`NdpEntry`, the `NeighborEntryT` template argument), declared in
`state/NeighborEntry.h`, which is not among the sources. The fields are the
attributes the spec lists (interface ID, IP, MAC or pending marker, egress
port-or-aggregate descriptor, optional class tag) and are named after the
getters the manager calls. Equality of entries (`operator==`) is equality of
content, field by field. -/
structure NeighborEntryT where
  getIP : IPAddress
  getMac : MacAddress
  getPort : PortDescriptor
  getIntfID : InterfaceID
  state : NeighborState
  getClassID : Option Nat
  deriving DecidableEq, Repr

/-- Pending test of the entry: `swEntry->isPending()`. -/
def NeighborEntryT.isPending (e : NeighborEntryT) : Bool :=
  e.state == NeighborState.pending

/-! ## SAI objects -/

namespace SaiNeighborTraits

/-- Hardware key of a neighbor object: `SaiNeighborTraits::NeighborEntry`
(also its `AdapterHostKey`). -/
structure NeighborEntry where
  switchId : SwitchSaiId
  routerInterfaceId : RouterInterfaceSaiId
  ip : IPAddress
  deriving DecidableEq, Repr

/-- Create attributes of a neighbor object: destination MAC and optional
metadata. -/
structure CreateAttributes where
  dstMac : MacAddress
  metadata : Option Nat
  deriving DecidableEq, Repr

end SaiNeighborTraits

/-- Router-interface object: only its adapter key is read here. -/
structure SaiRouterInterface where
  adapterKey : RouterInterfaceSaiId
  deriving DecidableEq, Repr

/-- Handle the router-interface manager returns; `routerInterface` is the
object it points to. -/
structure SaiRouterInterfaceHandle where
  routerInterface : SaiRouterInterface
  deriving DecidableEq, Repr

/-- Adapter host key of an FDB entry. -/
structure FdbEntryKey where
  switchId : SwitchSaiId
  bridgeVlanId : VlanSaiId
  mac : MacAddress
  deriving DecidableEq, Repr

/-- FDB entry object: only its adapter host key is read here. -/
structure SaiFdbEntry where
  adapterHostKey : FdbEntryKey
  deriving DecidableEq, Repr

/-- Neighbor object as the store hands it out from `setObject(key, attributes,
notify)`. -/
structure SaiNeighbor where
  adapterHostKey : SaiNeighborTraits.NeighborEntry
  attributes : SaiNeighborTraits.CreateAttributes
  notify : Bool
  deriving DecidableEq, Repr

/-- Handle of a managed neighbor: the two cached pointers `neighbor` and
`fdbEntry` (null is `none`). -/
structure SaiNeighborHandle where
  neighbor : Option SaiNeighbor
  fdbEntry : Option SaiFdbEntry
  deriving DecidableEq, Repr

/-- Subscriber that realises one neighbor. The first five fields are the
constructor arguments passed by `addNeighbor` (port descriptor, interface ID,
IP, MAC, metadata); `handle_` is the handle it owns; `object` is the hardware
object it owns (`setObject` / `resetObject` / `getSaiObject`);
`routerInterface` and `fdbEntry` are the published objects it currently
refers to (the `PublisherObjects` tuple). -/
structure ManagedNeighbor where
  port_ : SaiPortDescriptor
  interfaceId : InterfaceID
  ip_ : IPAddress
  mac : MacAddress
  metadata_ : Option Nat
  handle_ : SaiNeighborHandle
  object : Option SaiNeighbor
  routerInterface : Option SaiRouterInterface
  fdbEntry : Option SaiFdbEntry
  deriving DecidableEq, Repr

/-- Constructor of `ManagedNeighbor` as called by `addNeighbor`: a fresh
handle with null pointers, no object, no published object seen yet. -/
def ManagedNeighbor.new (port : SaiPortDescriptor) (interfaceId : InterfaceID)
    (ip : IPAddress) (mac : MacAddress) (metadata : Option Nat) : ManagedNeighbor :=
  { port_ := port, interfaceId := interfaceId, ip_ := ip, mac := mac,
    metadata_ := metadata, handle_ := ⟨none, none⟩, object := none,
    routerInterface := none, fdbEntry := none }

/-- Accessor `subscriber->getHandle()`. -/
def ManagedNeighbor.getHandle (n : ManagedNeighbor) : SaiNeighborHandle :=
  n.handle_

/-! ## Errors and the call trace -/

/-- The three `FbossError`s thrown in this file, told apart by their message. -/
inductive FbossError where
  /-- Message "Failed to create sai_neighbor_entry from NeighborEntry. No
  SaiRouterInterface for InterfaceID: ". -/
  | noSaiRouterInterface (intf : InterfaceID)
  /-- Message "Attempted to add duplicate neighbor: ". -/
  | duplicateNeighbor (ip : IPAddress)
  /-- Message "Attempted to remove non-existent neighbor: ". -/
  | nonExistentNeighbor (ip : IPAddress)
  deriving DecidableEq, Repr

/-- The `XLOG(INFO)` lines of this file. -/
inductive LogLine where
  | skipAddingUnresolvedNeighbor (ip : IPAddress)
  | skipAddingLinkLocalNeighbor (ip : IPAddress)
  | addNeighbor (ip : IPAddress)
  | skipLinkLocalNeighbor (ip : IPAddress)
  | skipRemovingUnresolvedNeighbor (ip : IPAddress)
  | removeNeighbor (ip : IPAddress)
  deriving DecidableEq, Repr

/-- One call of the manager into a collaborator. -/
inductive Call where
  | xlog (line : LogLine)
  | getRouterInterfaceHandle (intf : InterfaceID)
  | subscribeRouterInterface (subscriber : ManagedNeighbor)
  | subscribeFdb (subscriber : ManagedNeighbor)
  | setObject (key : SaiNeighborTraits.NeighborEntry)
      (attributes : SaiNeighborTraits.CreateAttributes) (notify : Bool)
  deriving DecidableEq, Repr

/-! ## The manager state -/

/-- Operational status of a port (`sai_port_oper_status_t`). -/
inductive SaiPortOperStatus where
  | unknown
  | up
  | down
  | testing
  | notPresent
  deriving DecidableEq, Repr

/-- The parts of `managerTable_` (and of the port API behind it) this file
reads: the router-interface handles, the switch ID, the operational status of
each physical port and the LAG manager's minimum-link verdict for each
aggregate port. `isLinkUp` dereferences the port handle unconditionally, so the
port status is a total function. -/
structure SaiManagerTable where
  routerInterfaceHandles : List (InterfaceID × SaiRouterInterfaceHandle)
  switchSaiId : SwitchSaiId
  portOperStatus : PortID → SaiPortOperStatus
  isMinimumLinkMet : AggregatePortID → Bool

/-- Modelled from the spec: the object event publisher
(`SaiObjectEventPublisher`), which is not among the sources. It knows the
currently live router-interface and FDB objects, each under its publisher key,
in creation order. -/
structure SaiObjectEventPublisher where
  routerInterfaces : List (InterfaceID × SaiRouterInterface)
  fdbEntries : List ((InterfaceID × MacAddress) × SaiFdbEntry)

/-- State of the neighbor manager: its manager table, the publisher singleton,
the map `managedNeighbors_` (an association list with `find`, `emplace` and
`erase` below) and the trace of collaborator calls made so far. -/
structure SaiNeighborManager where
  managerTable_ : SaiManagerTable
  publisher : SaiObjectEventPublisher
  managedNeighbors_ : List (SaiNeighborTraits.NeighborEntry × ManagedNeighbor)
  trace : List Call

/-- Appends one call to the trace. -/
def SaiNeighborManager.record (m : SaiNeighborManager) (c : Call) : SaiNeighborManager :=
  { m with trace := m.trace ++ [c] }

/-- Result of a `void` member function: the error thrown, if any, and the
state left behind. -/
structure Outcome where
  error : Option FbossError
  state : SaiNeighborManager

/-- Normal return. -/
def Outcome.ok (m : SaiNeighborManager) : Outcome := ⟨none, m⟩

/-- Statement sequencing: the next statement runs only if no exception is
propagating. -/
def Outcome.andThen (r : Outcome) (f : SaiNeighborManager → Outcome) : Outcome :=
  match r.error with
  | some _ => r
  | none => f r.state

/-! ## The map `managedNeighbors_` -/

namespace ManagedNeighborMap

/-- Lookup `managedNeighbors_.find(key)`: `none` is `end()`. -/
def find (key : SaiNeighborTraits.NeighborEntry) :
    List (SaiNeighborTraits.NeighborEntry × ManagedNeighbor) → Option ManagedNeighbor
  | [] => none
  | (k, v) :: rest => if k = key then some v else find key rest

/-- Insertion `managedNeighbors_.emplace(key, value)`: inserts only when the
key is absent. -/
def emplace (key : SaiNeighborTraits.NeighborEntry) (value : ManagedNeighbor)
    (l : List (SaiNeighborTraits.NeighborEntry × ManagedNeighbor)) :
    List (SaiNeighborTraits.NeighborEntry × ManagedNeighbor) :=
  match find key l with
  | some _ => l
  | none => l ++ [(key, value)]

/-- Removal `managedNeighbors_.erase(key)`. -/
def erase (key : SaiNeighborTraits.NeighborEntry)
    (l : List (SaiNeighborTraits.NeighborEntry × ManagedNeighbor)) :
    List (SaiNeighborTraits.NeighborEntry × ManagedNeighbor) :=
  l.filter (fun kv => decide (kv.1 ≠ key))

end ManagedNeighborMap

/-! ## Link state, object creation and removal -/

/-- Link test `SaiNeighborManager::isLinkUp(port)`: for a physical port, whether
its operational status read through the port API is UP; for an aggregate port,
the LAG manager's `isMinimumLinkMet`. -/
def isLinkUp (m : SaiNeighborManager) (port : SaiPortDescriptor) : Bool :=
  match port with
  | .physical phyPortID =>
    let portOperStatus := m.managerTable_.portOperStatus phyPortID
    portOperStatus == SaiPortOperStatus.up
  | .aggregate aggPortID => m.managerTable_.isMinimumLinkMet aggPortID

/-- Store access `SaiNeighborManager::createSaiObject(key, attributes, notify)`:
forwards to the store's `setObject`, which hands back the object for that key
with those attributes. The hardware call behind it is taken to succeed. -/
def createSaiObject (m : SaiNeighborManager) (key : SaiNeighborTraits.NeighborEntry)
    (attributes : SaiNeighborTraits.CreateAttributes) (notify : Bool) :
    SaiNeighbor × SaiNeighborManager :=
  (⟨key, attributes, notify⟩, m.record (Call.setObject key attributes notify))

/-- Object creation `ManagedNeighbor::createObject(objects)`, applied to the
subscriber `self` with both published objects alive. -/
def createObject (m : SaiNeighborManager) (self : ManagedNeighbor)
    (interface : SaiRouterInterface) (fdbEntry : SaiFdbEntry) :
    SaiNeighborManager × ManagedNeighbor :=
  let adapterHostKey : SaiNeighborTraits.NeighborEntry :=
    ⟨fdbEntry.adapterHostKey.switchId, interface.adapterKey, self.ip_⟩
  let resolveNexthop := isLinkUp m self.port_
  let createAttributes : SaiNeighborTraits.CreateAttributes :=
    ⟨fdbEntry.adapterHostKey.mac, self.metadata_⟩
  let r := createSaiObject m adapterHostKey createAttributes resolveNexthop
  let self1 := { self with object := some r.1 }
  (r.2, { self1 with handle_ := ⟨self1.object, some fdbEntry⟩ })

/-- Object removal `ManagedNeighbor::removeObject(index, objects)`; both
arguments are ignored by the source. -/
def removeObject (self : ManagedNeighbor) (_index : Nat)
    (_objects : Option SaiRouterInterface × Option SaiFdbEntry) : ManagedNeighbor :=
  let self1 := { self with object := none }
  let self2 := { self1 with handle_ := { self1.handle_ with neighbor := none } }
  { self2 with handle_ := { self2.handle_ with fdbEntry := none } }

/-! ## Subscription -/

/-- Modelled from the spec: delivery of a router-interface "created" event to a
subscriber (`SaiObjectEventAggregateSubscriber`, not among the sources). The
subscriber keeps the object if it is the one of its own interface, and
realises its hardware object once all its dependencies are present. -/
def afterCreateRouterInterface (acc : SaiNeighborManager × ManagedNeighbor)
    (published : InterfaceID × SaiRouterInterface) : SaiNeighborManager × ManagedNeighbor :=
  if published.1 = acc.2.interfaceId then
    let self1 := { acc.2 with routerInterface := some published.2 }
    match self1.fdbEntry with
    | some fdbEntry => createObject acc.1 self1 published.2 fdbEntry
    | none => (acc.1, self1)
  else acc

/-- Modelled from the spec: delivery of an FDB "created" event to a subscriber
(`SaiObjectEventAggregateSubscriber`, not among the sources). The subscriber
keeps the object if it is the one of its own interface and MAC, and realises
its hardware object once all its dependencies are present. -/
def afterCreateFdb (acc : SaiNeighborManager × ManagedNeighbor)
    (published : (InterfaceID × MacAddress) × SaiFdbEntry) :
    SaiNeighborManager × ManagedNeighbor :=
  if published.1 = (acc.2.interfaceId, acc.2.mac) then
    let self1 := { acc.2 with fdbEntry := some published.2 }
    match self1.routerInterface with
    | some interface => createObject acc.1 self1 interface published.2
    | none => (acc.1, self1)
  else acc

/-- Modelled from the spec: `subscribe` on the router-interface publisher
(`SaiObjectEventPublisher`, not among the sources). It registers the subscriber
and immediately replays every live router interface to it as a "created"
event, in creation order, before returning. -/
def subscribeRouterInterface (m : SaiNeighborManager) (subscriber : ManagedNeighbor) :
    SaiNeighborManager × ManagedNeighbor :=
  m.publisher.routerInterfaces.foldl afterCreateRouterInterface
    (m.record (Call.subscribeRouterInterface subscriber), subscriber)

/-- Modelled from the spec: `subscribe` on the FDB publisher
(`SaiObjectEventPublisher`, not among the sources). It registers the subscriber
and immediately replays every live FDB entry to it as a "created" event, in
creation order, before returning. -/
def subscribeFdb (m : SaiNeighborManager) (subscriber : ManagedNeighbor) :
    SaiNeighborManager × ManagedNeighbor :=
  m.publisher.fdbEntries.foldl afterCreateFdb
    (m.record (Call.subscribeFdb subscriber), subscriber)

/-! ## The member functions of `SaiNeighborManager` -/

/-- Lookup `routerInterfaceManager().getRouterInterfaceHandle(intf)`: `none` is
the null pointer. -/
def getRouterInterfaceHandle (t : SaiManagerTable) (intf : InterfaceID) :
    Option SaiRouterInterfaceHandle :=
  (t.routerInterfaceHandles.find? (fun kv => decide (kv.1 = intf))).map (fun kv => kv.2)

/-- Key computation `SaiNeighborManager::saiEntryFromSwEntry(swEntry)`. -/
def saiEntryFromSwEntry (swEntry : NeighborEntryT) (m : SaiNeighborManager) :
    Except FbossError SaiNeighborTraits.NeighborEntry × SaiNeighborManager :=
  let ip := swEntry.getIP
  let m1 := m.record (Call.getRouterInterfaceHandle swEntry.getIntfID)
  match getRouterInterfaceHandle m.managerTable_ swEntry.getIntfID with
  | none => (Except.error (FbossError.noSaiRouterInterface swEntry.getIntfID), m1)
  | some routerInterfaceHandle =>
    let switchId := m.managerTable_.switchSaiId
    (Except.ok ⟨switchId, routerInterfaceHandle.routerInterface.adapterKey, ip⟩, m1)

/-- The test both `addNeighbor` and `removeNeighbor` make on the address:
`getIP().version() == 6 && getIP().isLinkLocal()`. -/
def isV6LinkLocal (ip : IPAddress) : Bool :=
  ip.version == 6 && ip.isLinkLocal

/-- Member function `SaiNeighborManager::addNeighbor(swEntry)`. -/
def addNeighbor (swEntry : NeighborEntryT) (m : SaiNeighborManager) : Outcome :=
  if swEntry.isPending then
    Outcome.ok (m.record (Call.xlog (LogLine.skipAddingUnresolvedNeighbor swEntry.getIP)))
  else if isV6LinkLocal swEntry.getIP then
    Outcome.ok (m.record (Call.xlog (LogLine.skipAddingLinkLocalNeighbor swEntry.getIP)))
  else
    let m1 := m.record (Call.xlog (LogLine.addNeighbor swEntry.getIP))
    let r := saiEntryFromSwEntry swEntry m1
    match r.1 with
    | Except.error err => ⟨some err, r.2⟩
    | Except.ok subscriberKey =>
      if (ManagedNeighborMap.find subscriberKey r.2.managedNeighbors_).isSome then
        ⟨some (FbossError.duplicateNeighbor swEntry.getIP), r.2⟩
      else
        let saiPortDesc : SaiPortDescriptor :=
          match swEntry.getPort with
          | PortDescriptor.physical phyPortID => SaiPortDescriptor.physical phyPortID
          | PortDescriptor.aggregate aggPortID => SaiPortDescriptor.aggregate aggPortID
        let metadata : Option Nat :=
          match swEntry.getClassID with
          | some classID => some (classID % 2 ^ 32)
          | none => none
        let subscriber :=
          ManagedNeighbor.new saiPortDesc swEntry.getIntfID swEntry.getIP swEntry.getMac metadata
        let s1 := subscribeRouterInterface r.2 subscriber
        let s2 := subscribeFdb s1.1 s1.2
        Outcome.ok { s2.1 with
          managedNeighbors_ := ManagedNeighborMap.emplace subscriberKey s2.2 s2.1.managedNeighbors_ }

/-- Member function `SaiNeighborManager::removeNeighbor(swEntry)`. Erasing the
map entry destroys the `ManagedNeighbor` and with it the hardware object it
owns. -/
def removeNeighbor (swEntry : NeighborEntryT) (m : SaiNeighborManager) : Outcome :=
  if isV6LinkLocal swEntry.getIP then
    Outcome.ok (m.record (Call.xlog (LogLine.skipLinkLocalNeighbor swEntry.getIP)))
  else if swEntry.isPending then
    Outcome.ok (m.record (Call.xlog (LogLine.skipRemovingUnresolvedNeighbor swEntry.getIP)))
  else
    let m1 := m.record (Call.xlog (LogLine.removeNeighbor swEntry.getIP))
    let r := saiEntryFromSwEntry swEntry m1
    match r.1 with
    | Except.error err => ⟨some err, r.2⟩
    | Except.ok subscriberKey =>
      if (ManagedNeighborMap.find subscriberKey r.2.managedNeighbors_).isNone then
        ⟨some (FbossError.nonExistentNeighbor swEntry.getIP), r.2⟩
      else
        Outcome.ok { r.2 with
          managedNeighbors_ := ManagedNeighborMap.erase subscriberKey r.2.managedNeighbors_ }

/-- Member function `SaiNeighborManager::changeNeighbor(oldSwEntry, newSwEntry)`:
four `if` statements in sequence. -/
def changeNeighbor (oldSwEntry newSwEntry : NeighborEntryT) (m : SaiNeighborManager) :
    Outcome :=
  let r1 : Outcome :=
    if oldSwEntry.isPending && newSwEntry.isPending then Outcome.ok m else Outcome.ok m
  let r2 := r1.andThen fun m =>
    if oldSwEntry.isPending && !newSwEntry.isPending then addNeighbor newSwEntry m
    else Outcome.ok m
  let r3 := r2.andThen fun m =>
    if !oldSwEntry.isPending && newSwEntry.isPending then removeNeighbor oldSwEntry m
    else Outcome.ok m
  r3.andThen fun m =>
    if !oldSwEntry.isPending && !newSwEntry.isPending then
      if oldSwEntry != newSwEntry then
        (removeNeighbor oldSwEntry m).andThen (addNeighbor newSwEntry)
      else Outcome.ok m
    else Outcome.ok m

/-- Member function `SaiNeighborManager::clear()`. -/
def clear (m : SaiNeighborManager) : SaiNeighborManager :=
  { m with managedNeighbors_ := [] }

/-- Member function `SaiNeighborManager::getNeighborHandleImpl(saiEntry)`: `none`
is the null pointer. -/
def getNeighborHandleImpl (m : SaiNeighborManager)
    (saiEntry : SaiNeighborTraits.NeighborEntry) : Option SaiNeighborHandle :=
  match ManagedNeighborMap.find saiEntry m.managedNeighbors_ with
  | none => none
  | some subscriber => some subscriber.getHandle

/-- Member function `SaiNeighborManager::getNeighborHandle(saiEntry)`. -/
def getNeighborHandle (m : SaiNeighborManager)
    (saiEntry : SaiNeighborTraits.NeighborEntry) : Option SaiNeighborHandle :=
  getNeighborHandleImpl m saiEntry

/-! ## Vocabulary for the statements -/

/-- Resolved entry: one that is not pending. -/
def NeighborEntryT.isResolved (e : NeighborEntryT) : Prop :=
  e.isPending = false

instance (e : NeighborEntryT) : Decidable e.isResolved :=
  inferInstanceAs (Decidable (e.isPending = false))

/-- The calls recorded between an earlier state and a later one. -/
def newCalls (before after : SaiNeighborManager) : List Call :=
  after.trace.drop before.trace.length

/-- Whether a call is a lookup in the router-interface manager. -/
def Call.isRouterInterfaceLookup : Call → Bool
  | Call.getRouterInterfaceHandle _ => true
  | _ => false

/-- Whether a call subscribes something to the publisher. -/
def Call.isSubscribe : Call → Bool
  | Call.subscribeRouterInterface _ => true
  | Call.subscribeFdb _ => true
  | _ => false

/-- Whether a call creates or updates a hardware object in the store. -/
def Call.isSetObject : Call → Bool
  | Call.setObject _ _ _ => true
  | _ => false

/-- Whether a call is a log line. -/
def Call.isLog : Call → Bool
  | Call.xlog _ => true
  | _ => false

/-- The `ManagedNeighbor` that `addNeighbor` constructs for `swEntry` and then
subscribes to the router-interface publisher and to the FDB publisher, in a
manager with the manager table and the publisher of `m`. -/
def subscribedNeighbor (swEntry : NeighborEntryT) (m : SaiNeighborManager) : ManagedNeighbor :=
  let saiPortDesc : SaiPortDescriptor :=
    match swEntry.getPort with
    | PortDescriptor.physical phyPortID => SaiPortDescriptor.physical phyPortID
    | PortDescriptor.aggregate aggPortID => SaiPortDescriptor.aggregate aggPortID
  let metadata : Option Nat :=
    match swEntry.getClassID with
    | some classID => some (classID % 2 ^ 32)
    | none => none
  let subscriber :=
    ManagedNeighbor.new saiPortDesc swEntry.getIntfID swEntry.getIP swEntry.getMac metadata
  let s1 := subscribeRouterInterface m subscriber
  (subscribeFdb s1.1 s1.2).2

/-- The neighbor IP a subscription or a `setObject` call is made for. -/
def Call.programmedIP : Call → Option IPAddress
  | Call.subscribeRouterInterface subscriber => some subscriber.ip_
  | Call.subscribeFdb subscriber => some subscriber.ip_
  | Call.setObject key _ _ => some key.ip
  | _ => none

/-- What delivering events to a subscriber may change, from `a` to `b`: in the
manager only the trace grows, and only by `setObject` calls for the
subscriber's own IP; the subscriber keeps its constructor arguments, and its
object, if any, is keyed by its own IP. -/
structure SubscribeFrame (a b : SaiNeighborManager × ManagedNeighbor) : Prop where
  table : b.1.managerTable_ = a.1.managerTable_
  publisher : b.1.publisher = a.1.publisher
  map : b.1.managedNeighbors_ = a.1.managedNeighbors_
  trace : ∃ t, b.1.trace = a.1.trace ++ t ∧
    ∀ c ∈ t, ∃ k attrs n, c = Call.setObject k attrs n ∧ k.ip = a.2.ip_
  port : b.2.port_ = a.2.port_
  intf : b.2.interfaceId = a.2.interfaceId
  ip : b.2.ip_ = a.2.ip_
  mac : b.2.mac = a.2.mac
  metadata : b.2.metadata_ = a.2.metadata_
  object : (∀ o, a.2.object = some o → o.adapterHostKey.ip = a.2.ip_) →
    ∀ o, b.2.object = some o → o.adapterHostKey.ip = b.2.ip_

/-- The guards of the four `if` statements of `changeNeighbor`, in source
order. -/
def changeNeighborGuards (oldSwEntry newSwEntry : NeighborEntryT) : List Bool :=
  [oldSwEntry.isPending && newSwEntry.isPending,
   oldSwEntry.isPending && !newSwEntry.isPending,
   !oldSwEntry.isPending && newSwEntry.isPending,
   !oldSwEntry.isPending && !newSwEntry.isPending]

/-- The four-way dispatch on `(old.isPending, new.isPending)` in the words of
the specification: pending to pending is a no-op; pending to resolved calls
`add(new)`; resolved to pending calls `remove(old)`; resolved to resolved with
unequal content calls `remove(old)` then `add(new)`. -/
def changeNeighborDispatch (old new : NeighborEntryT) (m : SaiNeighborManager) : Outcome :=
  match old.isPending, new.isPending with
  | true, true => Outcome.ok m
  | true, false => addNeighbor new m
  | false, true => removeNeighbor old m
  | false, false =>
    if old = new then Outcome.ok m
    else (removeNeighbor old m).andThen (addNeighbor new)

/-- A silent no-op from state `m`: no error, the manager table, the publisher
and the map are as before, and no router-interface lookup was made. -/
def SilentNoOp (m : SaiNeighborManager) (r : Outcome) : Prop :=
  r.error = none ∧ r.state.managerTable_ = m.managerTable_ ∧
    r.state.publisher = m.publisher ∧ r.state.managedNeighbors_ = m.managedNeighbors_ ∧
    ∀ c ∈ newCalls m r.state, c.isRouterInterfaceLookup = false

/-- One call on the manager. -/
inductive NeighborOp where
  | add (swEntry : NeighborEntryT)
  | remove (swEntry : NeighborEntryT)
  | change (oldSwEntry newSwEntry : NeighborEntryT)
  deriving DecidableEq, Repr

/-- Performs one call. -/
def NeighborOp.apply : NeighborOp → SaiNeighborManager → Outcome
  | NeighborOp.add swEntry, m => addNeighbor swEntry m
  | NeighborOp.remove swEntry, m => removeNeighbor swEntry m
  | NeighborOp.change oldSwEntry newSwEntry, m => changeNeighbor oldSwEntry newSwEntry m

/-- Performs a sequence of calls, each from the state the previous one left
behind, whether it returned normally or threw. -/
def runOps (ops : List NeighborOp) (m : SaiNeighborManager) : SaiNeighborManager :=
  ops.foldl (fun st op => (op.apply st).state) m

/-- No trace of an IPv6 link-local neighbor in the manager: no map entry is
keyed by, made from, or owns an object for such an address, and no
subscription or `setObject` call was made for one. -/
def NoLinkLocal (m : SaiNeighborManager) : Prop :=
  (∀ kv ∈ m.managedNeighbors_, isV6LinkLocal kv.1.ip = false ∧
      isV6LinkLocal kv.2.ip_ = false ∧
      ∀ o, kv.2.object = some o → isV6LinkLocal o.adapterHostKey.ip = false) ∧
    ∀ c ∈ m.trace, ∀ ip, c.programmedIP = some ip → isV6LinkLocal ip = false

/-- The sequence `addNeighbor(e); removeNeighbor(e); addNeighbor(e)`, each call
from the state the previous one left: the three outcomes in order. -/
def addRemoveAdd (e : NeighborEntryT) (m : SaiNeighborManager) : Outcome × Outcome × Outcome :=
  let r1 := addNeighbor e m
  let r2 := removeNeighbor e r1.state
  let r3 := addNeighbor e r2.state
  (r1, r2, r3)

/-! ## Example states and entries -/

/-- A manager table with one router interface (interface 10, adapter key 100),
switch ID 1, every port up and every aggregate's minimum-link count met. -/
def exampleTable : SaiManagerTable :=
  ⟨[(10, ⟨⟨100⟩⟩)], 1, fun _ => SaiPortOperStatus.up, fun _ => true⟩

/-- A publisher with that router interface and one FDB entry live. -/
def examplePublisher : SaiObjectEventPublisher :=
  ⟨[(10, ⟨100⟩)], [((10, 0xAABB), ⟨⟨1, 5, 0xAABB⟩⟩)]⟩

/-- A freshly constructed manager: empty map, empty trace. -/
def emptyManager : SaiNeighborManager :=
  ⟨exampleTable, examplePublisher, [], []⟩

/-- A resolved ARP entry for 10.0.0.5 on interface 10. -/
def arpEntry : NeighborEntryT :=
  ⟨IPAddress.v4 0x0A000005, 0xAABB, PortDescriptor.physical 1, 10, NeighborState.reachable, some 7⟩

/-- The same neighbor after it moved: other MAC, other port, no class tag. -/
def arpEntryMoved : NeighborEntryT :=
  ⟨IPAddress.v4 0x0A000005, 0xAACC, PortDescriptor.aggregate 2, 10, NeighborState.reachable, none⟩

/-- The same neighbor, pending. -/
def arpEntryPending : NeighborEntryT :=
  ⟨IPAddress.v4 0x0A000005, 0xFFFFFFFFFFFF, PortDescriptor.physical 0, 10,
    NeighborState.pending, none⟩

/-- A resolved ARP entry on interface 11, which has no router interface. -/
def arpEntryOtherInterface : NeighborEntryT :=
  ⟨IPAddress.v4 0x0A000105, 0xAABB, PortDescriptor.physical 1, 11, NeighborState.reachable, none⟩

/-- A resolved NDP entry for the link-local address fe80::1 on interface 10. -/
def ndpLinkLocalEntry : NeighborEntryT :=
  ⟨IPAddress.v6 0xfe800000000000000000000000000001, 0xAABB, PortDescriptor.physical 1, 10,
    NeighborState.reachable, none⟩

/-- The hardware key of `arpEntry` in the example table. -/
def arpKey : SaiNeighborTraits.NeighborEntry :=
  ⟨1, 100, IPAddress.v4 0x0A000005⟩

/-- The example manager after `arpEntry` was added. -/
def managerWithArp : SaiNeighborManager :=
  (addNeighbor arpEntry emptyManager).state

/-! ## Dependencies and publisher events -/

/-- Whether a router interface is live at the publisher under the key `intf`. -/
def SaiObjectEventPublisher.hasRouterInterface (p : SaiObjectEventPublisher)
    (intf : InterfaceID) : Bool :=
  p.routerInterfaces.any (fun kv => decide (kv.1 = intf))

/-- Whether an FDB entry is live at the publisher under the key `(intf, mac)`. -/
def SaiObjectEventPublisher.hasFdbEntry (p : SaiObjectEventPublisher)
    (intf : InterfaceID) (mac : MacAddress) : Bool :=
  p.fdbEntries.any (fun kv => decide (kv.1 = (intf, mac)))

/-- The subscriber owns a hardware object exactly when it refers to both of
its dependencies. -/
def ManagedNeighbor.ObjectIffDependencies (n : ManagedNeighbor) : Prop :=
  n.object.isSome = (n.routerInterface.isSome && n.fdbEntry.isSome)

/-- The subscriber is in step with the publisher `p`: it refers to a router
interface exactly when one is live under its interface, to an FDB entry
exactly when one is live under its interface and MAC, owns an object exactly
when it refers to both, and its handle caches that object. -/
def ManagedNeighbor.InStep (p : SaiObjectEventPublisher) (n : ManagedNeighbor) : Prop :=
  n.routerInterface.isSome = p.hasRouterInterface n.interfaceId ∧
    n.fdbEntry.isSome = p.hasFdbEntry n.interfaceId n.mac ∧
    n.ObjectIffDependencies ∧ n.handle_.neighbor = n.object

/-- Modelled from the spec: the replay a subscription performs on a publisher
of any object type (`SaiObjectEventPublisher`, not among the sources): every
currently live object is handed to the subscriber as a "created" event, in
creation order. The result is the subscriber after the deliveries, with the
list of the events delivered, in delivery order. -/
def replayLive {σ α : Type} (deliver : σ → α → σ) (live : List α) (subscriber : σ) :
    σ × List α :=
  live.foldl (fun acc object => (deliver acc.1 object, acc.2 ++ [object])) (subscriber, [])

/-- Modelled from the spec: delivery of a router-interface "removed" event to a
subscriber (`SaiObjectEventAggregateSubscriber`, not among the sources). A
subscriber that refers to the router interface of this key tears its object
down with `removeObject` (dependency index 0) and drops the reference. -/
def beforeRemoveRouterInterface (intf : InterfaceID)
    (acc : SaiNeighborManager × ManagedNeighbor) : SaiNeighborManager × ManagedNeighbor :=
  if intf = acc.2.interfaceId ∧ acc.2.routerInterface.isSome = true then
    let self1 := removeObject acc.2 0 (acc.2.routerInterface, acc.2.fdbEntry)
    (acc.1, { self1 with routerInterface := none })
  else acc

/-- Modelled from the spec: delivery of an FDB "removed" event to a subscriber
(`SaiObjectEventAggregateSubscriber`, not among the sources). A subscriber that
refers to the FDB entry of this key tears its object down with `removeObject`
(dependency index 1) and drops the reference. -/
def beforeRemoveFdb (key : InterfaceID × MacAddress)
    (acc : SaiNeighborManager × ManagedNeighbor) : SaiNeighborManager × ManagedNeighbor :=
  if key = (acc.2.interfaceId, acc.2.mac) ∧ acc.2.fdbEntry.isSome = true then
    let self1 := removeObject acc.2 1 (acc.2.routerInterface, acc.2.fdbEntry)
    (acc.1, { self1 with fdbEntry := none })
  else acc

/-- Modelled from the spec: the publisher hands one event to every subscriber
stored in `managedNeighbors_`, in map order (`SaiObjectEventPublisher`, not
among the sources); each callback may call back into the manager. -/
def deliverToAll
    (deliver : SaiNeighborManager × ManagedNeighbor → SaiNeighborManager × ManagedNeighbor)
    (m : SaiNeighborManager) : SaiNeighborManager :=
  let r := m.managedNeighbors_.foldl
    (fun (acc : SaiNeighborManager ×
        List (SaiNeighborTraits.NeighborEntry × ManagedNeighbor)) kv =>
      ((deliver (acc.1, kv.2)).1, acc.2 ++ [(kv.1, (deliver (acc.1, kv.2)).2)]))
    (m, [])
  { r.1 with managedNeighbors_ := r.2 }

/-- Modelled from the spec: a router interface is created under the key `intf`;
it becomes live at the publisher and every subscriber receives the "created"
event. -/
def routerInterfaceCreated (intf : InterfaceID) (object : SaiRouterInterface)
    (m : SaiNeighborManager) : SaiNeighborManager :=
  deliverToAll (fun acc => afterCreateRouterInterface acc (intf, object))
    { m with publisher :=
      { m.publisher with routerInterfaces := m.publisher.routerInterfaces ++ [(intf, object)] } }

/-- Modelled from the spec: an FDB entry is created under the key `key`; it
becomes live at the publisher and every subscriber receives the "created"
event. -/
def fdbEntryCreated (key : InterfaceID × MacAddress) (object : SaiFdbEntry)
    (m : SaiNeighborManager) : SaiNeighborManager :=
  deliverToAll (fun acc => afterCreateFdb acc (key, object))
    { m with publisher :=
      { m.publisher with fdbEntries := m.publisher.fdbEntries ++ [(key, object)] } }

/-- Modelled from the spec: the router interface under the key `intf` is
removed; every subscriber receives the "removed" event, then the object is no
longer live at the publisher. -/
def routerInterfaceRemoved (intf : InterfaceID) (m : SaiNeighborManager) :
    SaiNeighborManager :=
  let m1 := deliverToAll (beforeRemoveRouterInterface intf) m
  { m1 with publisher :=
    { m1.publisher with routerInterfaces :=
        m1.publisher.routerInterfaces.filter (fun kv => decide (kv.1 ≠ intf)) } }

/-- Modelled from the spec: the FDB entry under the key `key` is removed; every
subscriber receives the "removed" event, then the object is no longer live at
the publisher. -/
def fdbEntryRemoved (key : InterfaceID × MacAddress) (m : SaiNeighborManager) :
    SaiNeighborManager :=
  let m1 := deliverToAll (beforeRemoveFdb key) m
  { m1 with publisher :=
    { m1.publisher with fdbEntries :=
        m1.publisher.fdbEntries.filter (fun kv => decide (kv.1 ≠ key)) } }

/-- One step of the system around the manager: a call on the manager, a
lifecycle event of a dependency, or a change of what the manager table
answers (link state, router-interface handles, switch ID). -/
inductive ManagerStep where
  | call (op : NeighborOp)
  | routerInterfaceCreated (intf : InterfaceID) (object : SaiRouterInterface)
  | routerInterfaceRemoved (intf : InterfaceID)
  | fdbEntryCreated (key : InterfaceID × MacAddress) (object : SaiFdbEntry)
  | fdbEntryRemoved (key : InterfaceID × MacAddress)
  | tableChanged (table : SaiManagerTable)

/-- Performs one step; a call that throws leaves the state it reached. -/
def ManagerStep.apply : ManagerStep → SaiNeighborManager → SaiNeighborManager
  | ManagerStep.call op, m => (op.apply m).state
  | ManagerStep.routerInterfaceCreated intf object, m => Fboss.routerInterfaceCreated intf object m
  | ManagerStep.routerInterfaceRemoved intf, m => Fboss.routerInterfaceRemoved intf m
  | ManagerStep.fdbEntryCreated key object, m => Fboss.fdbEntryCreated key object m
  | ManagerStep.fdbEntryRemoved key, m => Fboss.fdbEntryRemoved key m
  | ManagerStep.tableChanged table, m => { m with managerTable_ := table }

/-- Performs a sequence of steps. -/
def runSteps (steps : List ManagerStep) (m : SaiNeighborManager) : SaiNeighborManager :=
  steps.foldl (fun st step => step.apply st) m

/-! ## More example states and entries -/

/-- The example manager table with every port down and no aggregate's
minimum-link count met. -/
def exampleTableDown : SaiManagerTable :=
  ⟨[(10, ⟨⟨100⟩⟩)], 1, fun _ => SaiPortOperStatus.down, fun _ => false⟩

/-- A freshly constructed manager whose ports are all down. -/
def emptyManagerDown : SaiNeighborManager :=
  ⟨exampleTableDown, examplePublisher, [], []⟩

/-- The neighbor 10.0.0.5 as a resolved entry on interface 11, which has no
router interface. -/
def arpEntryRehomed : NeighborEntryT :=
  ⟨IPAddress.v4 0x0A000005, 0xAABB, PortDescriptor.physical 1, 11, NeighborState.reachable, some 7⟩

/-- The live router interface of the example publisher. -/
def exampleRouterInterface : SaiRouterInterface := ⟨100⟩

/-- The live FDB entry of the example publisher. -/
def exampleFdbEntry : SaiFdbEntry := ⟨⟨1, 5, 0xAABB⟩⟩

/-- A subscriber as `addNeighbor` constructs it for `arpEntry`. -/
def exampleSubscriber : ManagedNeighbor :=
  ManagedNeighbor.new (SaiPortDescriptor.physical 1) 10 (IPAddress.v4 0x0A000005) 0xAABB (some 7)

/-- How a router-interface "created" event changes a subscriber, from `n` to
`n'`; `hit` tells whether the event is for the subscriber's own interface. -/
def RouterInterfaceArrived (hit : Bool) (n n' : ManagedNeighbor) : Prop :=
  n'.interfaceId = n.interfaceId ∧ n'.mac = n.mac ∧ n'.fdbEntry = n.fdbEntry ∧
    n'.routerInterface.isSome = (n.routerInterface.isSome || hit) ∧
    (n.ObjectIffDependencies → n'.ObjectIffDependencies) ∧
    (n.handle_.neighbor = n.object → n'.handle_.neighbor = n'.object)

/-- How an FDB "created" event changes a subscriber, from `n` to `n'`; `hit`
tells whether the event is for the subscriber's own interface and MAC. -/
def FdbArrived (hit : Bool) (n n' : ManagedNeighbor) : Prop :=
  n'.interfaceId = n.interfaceId ∧ n'.mac = n.mac ∧
    n'.routerInterface = n.routerInterface ∧
    n'.fdbEntry.isSome = (n.fdbEntry.isSome || hit) ∧
    (n.ObjectIffDependencies → n'.ObjectIffDependencies) ∧
    (n.handle_.neighbor = n.object → n'.handle_.neighbor = n'.object)

/-- How a router-interface "removed" event changes a subscriber, from `n` to
`n'`; `hit` tells whether the event is for the subscriber's own interface. -/
def RouterInterfaceLeft (hit : Bool) (n n' : ManagedNeighbor) : Prop :=
  n'.interfaceId = n.interfaceId ∧ n'.mac = n.mac ∧ n'.fdbEntry = n.fdbEntry ∧
    n'.routerInterface.isSome = (n.routerInterface.isSome && !hit) ∧
    (n.ObjectIffDependencies → n'.ObjectIffDependencies) ∧
    (n.handle_.neighbor = n.object → n'.handle_.neighbor = n'.object)

/-- How an FDB "removed" event changes a subscriber, from `n` to `n'`; `hit`
tells whether the event is for the subscriber's own interface and MAC. -/
def FdbLeft (hit : Bool) (n n' : ManagedNeighbor) : Prop :=
  n'.interfaceId = n.interfaceId ∧ n'.mac = n.mac ∧
    n'.routerInterface = n.routerInterface ∧
    n'.fdbEntry.isSome = (n.fdbEntry.isSome && !hit) ∧
    (n.ObjectIffDependencies → n'.ObjectIffDependencies) ∧
    (n.handle_.neighbor = n.object → n'.handle_.neighbor = n'.object)

/-- Every stored subscriber is in step with the publisher. -/
def AllInStep (m : SaiNeighborManager) : Prop :=
  ∀ kv ∈ m.managedNeighbors_, kv.2.InStep m.publisher

/-! ## Sequences of adds and removes -/

/-- The subscriber `addNeighbor` constructs for `swEntry`, before it is
subscribed. -/
def newSubscriber (swEntry : NeighborEntryT) : ManagedNeighbor :=
  ManagedNeighbor.new
    (match swEntry.getPort with
      | PortDescriptor.physical phyPortID => SaiPortDescriptor.physical phyPortID
      | PortDescriptor.aggregate aggPortID => SaiPortDescriptor.aggregate aggPortID)
    swEntry.getIntfID swEntry.getIP swEntry.getMac
    (match swEntry.getClassID with
      | some classID => some (classID % 2 ^ 32)
      | none => none)

/-- An `addNeighbor` or a `removeNeighbor` call. -/
inductive AddRemoveOp where
  | add (swEntry : NeighborEntryT)
  | remove (swEntry : NeighborEntryT)
  deriving DecidableEq, Repr

/-- The entry the call is made with. -/
def AddRemoveOp.entry : AddRemoveOp → NeighborEntryT
  | AddRemoveOp.add swEntry => swEntry
  | AddRemoveOp.remove swEntry => swEntry

/-- Whether the call is an add. -/
def AddRemoveOp.isAdd : AddRemoveOp → Bool
  | AddRemoveOp.add _ => true
  | AddRemoveOp.remove _ => false

/-- Performs the call. -/
def AddRemoveOp.apply : AddRemoveOp → SaiNeighborManager → Outcome
  | AddRemoveOp.add swEntry, m => addNeighbor swEntry m
  | AddRemoveOp.remove swEntry, m => removeNeighbor swEntry m

/-- Performs a sequence of adds and removes, each from the state the previous
one left. -/
def runAddRemove (ops : List AddRemoveOp) (m : SaiNeighborManager) : SaiNeighborManager :=
  ops.foldl (fun st op => (op.apply st).state) m

/-- Whether every call of the sequence returns normally. -/
def allSucceed : List AddRemoveOp → SaiNeighborManager → Bool
  | [], _ => true
  | op :: rest, m => (op.apply m).error.isNone && allSucceed rest (op.apply m).state

/-- Whether the entry was added and not removed: the last call of the sequence
made with this entry is an add. -/
def addedAndNotRemoved (ops : List AddRemoveOp) (e : NeighborEntryT) : Bool :=
  ops.foldl (fun live op => if op.entry = e then op.isAdd else live) false

/-- Non-pending and not IPv6 link-local: the entries the manager does not
skip. -/
def NeighborEntryT.isManageable (e : NeighborEntryT) : Bool :=
  !e.isPending && !isV6LinkLocal e.getIP

/-- The key `saiEntryFromSwEntry` computes for the entry, if it does not
throw. -/
def keyOf (e : NeighborEntryT) (m : SaiNeighborManager) :
    Option SaiNeighborTraits.NeighborEntry :=
  match (saiEntryFromSwEntry e m).1 with
  | Except.ok key => some key
  | Except.error _ => none

/-- The calls are on pairwise distinct keys: two entries the manager does not
skip that occur in the sequence and have the same key are the same entry. -/
def DistinctKeys (ops : List AddRemoveOp) (m : SaiNeighborManager) : Prop :=
  ∀ op1 ∈ ops, ∀ op2 ∈ ops, op1.entry.isManageable = true → op2.entry.isManageable = true →
    keyOf op1.entry m = keyOf op2.entry m → op1.entry = op2.entry

instance (ops : List AddRemoveOp) (m : SaiNeighborManager) : Decidable (DistinctKeys ops m) := by
  unfold DistinctKeys
  infer_instance

/-! ## ExternalPhyPort

Embedding of `fboss/agent/platforms/wedge/ExternalPhyPort.cpp`. The port
objects, the platform port and the platform are known here only through the
getters `portChanged` calls; each is a structure whose fields are named after
those getters. -/

/-- Port profile ID (`cfg::PortProfileID`): the default profile, or any other
profile. -/
inductive PortProfileID where
  | PROFILE_DEFAULT
  | profile (id : Nat)
  deriving DecidableEq, Repr

/-- PRBS state of one side of a port: the value of `getGbSystemPrbs()` and
`getGbLinePrbs()`, with the fields `portChanged` reads. -/
structure PrbsState where
  enabled : Bool
  polynominal : Int
  deriving DecidableEq, Repr

/-- Software port, through the getters `portChanged` calls. -/
structure Port where
  getName : String
  getID : Nat
  isEnabled : Bool
  getProfileID : PortProfileID
  getGbSystemPrbs : PrbsState
  getGbLinePrbs : PrbsState
  deriving DecidableEq, Repr

/-- Side of the external phy (`phy::Side`). -/
inductive Side where
  | SYSTEM
  | LINE
  deriving DecidableEq, Repr

/-- Entry of `supportedProfiles`: only its pins are read. -/
structure PlatformPortConfig where
  pins : Nat
  deriving DecidableEq, Repr

/-- Platform port entry: its supported profiles and the pins of its mapping. -/
structure PlatformPortEntry where
  supportedProfiles : List (PortProfileID × PlatformPortConfig)
  mappingPins : Nat
  deriving DecidableEq, Repr

/-- Phy port configuration built by `portChanged`: `config` and `profile`. -/
structure PhyPortConfig where
  config : Nat
  profile : Nat
  deriving DecidableEq, Repr

/-- The platform (`PlatformT`), through the calls `portChanged` makes on it and
on its external phy; `getLaneSpeed` is the answer of `xphy(phyID)`. -/
structure PhyPlatform where
  needExtendedSpecComplianceCode : Bool
  getPortProfileConfig : PortProfileID → Option Nat → Option Nat
  getDataPlanePhyChips : List Nat
  getLaneSpeed : Nat → PhyPortConfig → Side → Nat

/-- The platform port (`WedgePort`), through the calls `portChanged` makes on
it; `getTransceiverExtendedSpecCompliance` is the value its future yields. -/
structure WedgePort where
  getPlatformPortEntry : Option PlatformPortEntry
  getPlatform : PhyPlatform
  getTransceiverExtendedSpecCompliance : Option Nat

/-- The conversion functions `portChanged` calls, which are defined elsewhere:
`ExternalPhyConfig::fromConfigeratorTypes`, `getXphyLinePolaritySwapMap` and
`ExternalPhyProfileConfig::fromPortProfileConfig`. -/
structure PhyConversions where
  fromConfigeratorTypes : Nat → Nat → Nat
  getXphyLinePolaritySwapMap : Nat → List Nat → Nat
  fromPortProfileConfig : Nat → Nat

/-- The five `FbossError`s `portChanged` throws, told apart by their message. -/
inductive PortChangedError where
  /-- Message "Found default profile for port ". -/
  | foundDefaultProfile (name : String)
  /-- Message "No PlatformPortEntry found for ". -/
  | noPlatformPortEntry (name : String)
  /-- Message "No speed profile with id ... found in PlatformPortEntry for ". -/
  | noSpeedProfile (profileID : PortProfileID) (name : String)
  /-- Message "No port profile with id ... found in PlatformConfig for ". -/
  | noPortProfile (profileID : PortProfileID) (name : String)
  /-- Message "No DataPlanePhyChips found". -/
  | noDataPlanePhyChips
  deriving DecidableEq, Repr

/-- The log lines of `portChanged`. -/
inductive PhyLogLine where
  | skipReprogrammingDisabledPort (name : String)
  | noNeedToReprogram (name : String)
  | tryingToSetPortPrbs (id : Nat)
  deriving DecidableEq, Repr

/-- One call of `portChanged` into the logger, the external phy or the port
statistics. -/
inductive PhyCall where
  | xlog (line : PhyLogLine)
  | programOnePort (phyID : Nat) (config : PhyPortConfig)
  | setPortPrbs (phyID : Nat) (config : PhyPortConfig) (side : Side) (enable : Bool)
      (polynominal : Int)
  | getLaneSpeed (phyID : Nat) (config : PhyPortConfig) (side : Side)
  | setupPrbsCollection (config : PhyPortConfig) (side : Side) (laneSpeed : Nat)
  deriving DecidableEq, Repr

/-- Whether a call programs the external phy: `programOnePort` or
`setPortPrbs`. -/
def PhyCall.isProgramming : PhyCall → Bool
  | PhyCall.programOnePort _ _ => true
  | PhyCall.setPortPrbs _ _ _ _ _ => true
  | _ => false

/-- Port statistics object: the name it was created with and the PRBS
collections set up on it. -/
structure PhyPortStats where
  name : String
  prbsCollections : List (PhyPortConfig × Side × Nat)
  deriving DecidableEq, Repr

/-- State of an `ExternalPhyPort`: `phyID_`, `xphyConfig_`, `portStats_`, and the
trace of the calls made so far, most recent last. -/
structure ExternalPhyPort where
  phyID_ : Nat
  xphyConfig_ : Option PhyPortConfig
  portStats_ : Option PhyPortStats
  trace : List PhyCall
  deriving DecidableEq, Repr

/-- Appends one call to the trace. -/
def ExternalPhyPort.record (self : ExternalPhyPort) (c : PhyCall) : ExternalPhyPort :=
  { self with trace := self.trace ++ [c] }

/-- Result of `portChanged`: the error thrown, if any, and the state left
behind. -/
structure PhyOutcome where
  error : Option PortChangedError
  state : ExternalPhyPort
  deriving DecidableEq, Repr

/-- The lambda `setupPortPrbsAndCollection` of `portChanged`. -/
def ExternalPhyPort.setupPortPrbsAndCollection (self : ExternalPhyPort)
    (platform : PhyPlatform) (newPort : Port) (phyPortConfig : PhyPortConfig)
    (side : Side) (enable : Bool) (polynominal : Int) : ExternalPhyPort :=
  let s1 := self.record (PhyCall.setPortPrbs self.phyID_ phyPortConfig side enable polynominal)
  let laneSpeed := platform.getLaneSpeed self.phyID_ phyPortConfig side
  let s2 := s1.record (PhyCall.getLaneSpeed self.phyID_ phyPortConfig side)
  let lockedStats : PhyPortStats :=
    match s2.portStats_ with
    | some stats => stats
    | none => ⟨newPort.getName, []⟩
  let s3 := s2.record (PhyCall.setupPrbsCollection phyPortConfig side laneSpeed)
  { s3 with portStats_ := some { lockedStats with
      prbsCollections := lockedStats.prbsCollections ++ [(phyPortConfig, side, laneSpeed)] } }

/-- Member function `ExternalPhyPort::portChanged(oldPort, newPort, platPort)`;
`oldPort` may be null. The calls on the external phy are taken to succeed. -/
def ExternalPhyPort.portChanged (self : ExternalPhyPort) (conversions : PhyConversions)
    (oldPort : Option Port) (newPort : Port) (platPort : WedgePort) : PhyOutcome :=
  if !newPort.isEnabled then
    ⟨none, self.record (PhyCall.xlog (PhyLogLine.skipReprogrammingDisabledPort newPort.getName))⟩
  else
    let profileID := newPort.getProfileID
    if profileID = PortProfileID.PROFILE_DEFAULT then
      ⟨some (PortChangedError.foundDefaultProfile newPort.getName), self⟩
    else
      let enabling : Bool :=
        match oldPort with
        | none => true
        | some old => !old.isEnabled
      let changingSpeed : Bool :=
        match oldPort with
        | none => true
        | some old => decide (profileID ≠ old.getProfileID)
      let changingPrbsState : Bool :=
        match oldPort with
        | none => false
        | some old =>
          decide (old.getGbSystemPrbs ≠ newPort.getGbSystemPrbs) ||
            decide (old.getGbLinePrbs ≠ newPort.getGbLinePrbs)
      if !enabling && !changingSpeed && !changingPrbsState then
        ⟨none, self.record (PhyCall.xlog (PhyLogLine.noNeedToReprogram newPort.getName))⟩
      else
        match platPort.getPlatformPortEntry with
        | none => ⟨some (PortChangedError.noPlatformPortEntry newPort.getName), self⟩
        | some platformPortEntry =>
          match platformPortEntry.supportedProfiles.find? (fun kv => decide (kv.1 = profileID)) with
          | none => ⟨some (PortChangedError.noSpeedProfile profileID newPort.getName), self⟩
          | some platformPortConfig =>
            let platform := platPort.getPlatform
            let transceiverSpecComplianceCode : Option Nat :=
              if platform.needExtendedSpecComplianceCode then
                platPort.getTransceiverExtendedSpecCompliance
              else none
            match platform.getPortProfileConfig profileID transceiverSpecComplianceCode with
            | none => ⟨some (PortChangedError.noPortProfile profileID newPort.getName), self⟩
            | some portProfileConfig =>
              let chips := platform.getDataPlanePhyChips
              if chips.isEmpty then
                ⟨some PortChangedError.noDataPlanePhyChips, self⟩
              else
                let phyPortConfig : PhyPortConfig :=
                  { config := conversions.fromConfigeratorTypes platformPortConfig.2.pins
                      (conversions.getXphyLinePolaritySwapMap platformPortEntry.mappingPins chips),
                    profile := conversions.fromPortProfileConfig portProfileConfig }
                let s1 := self.record (PhyCall.programOnePort self.phyID_ phyPortConfig)
                let s4 :=
                  if changingPrbsState then
                    let s2 := s1.record (PhyCall.xlog (PhyLogLine.tryingToSetPortPrbs newPort.getID))
                    match oldPort with
                    | none => s2
                    | some old =>
                      let s3 :=
                        if old.getGbSystemPrbs ≠ newPort.getGbSystemPrbs then
                          s2.setupPortPrbsAndCollection platform newPort phyPortConfig Side.SYSTEM
                            newPort.getGbSystemPrbs.enabled newPort.getGbSystemPrbs.polynominal
                        else s2
                      if old.getGbLinePrbs ≠ newPort.getGbLinePrbs then
                        s3.setupPortPrbsAndCollection platform newPort phyPortConfig Side.LINE
                          newPort.getGbLinePrbs.enabled newPort.getGbLinePrbs.polynominal
                      else s3
                  else s1
                ⟨none, { s4 with xphyConfig_ := some phyPortConfig }⟩

/-- The calls recorded between an earlier state of the port and a later one. -/
def newPhyCalls (before after : ExternalPhyPort) : List PhyCall :=
  after.trace.drop before.trace.length

/-! ## Example ports -/

/-- An enabled port with a non-default profile and PRBS off on both sides. -/
def examplePort : Port :=
  ⟨"eth1/1/1", 1, true, PortProfileID.profile 23, ⟨false, 0⟩, ⟨false, 0⟩⟩

/-- A platform with one chip that knows profile 23. -/
def examplePhyPlatform : PhyPlatform :=
  ⟨false, fun profileID _ => if profileID = PortProfileID.profile 23 then some 5 else none, [1],
    fun _ _ _ => 25⟩

/-- A platform port whose entry supports profile 23. -/
def exampleWedgePort : WedgePort :=
  ⟨some ⟨[(PortProfileID.profile 23, ⟨7⟩)], 3⟩, examplePhyPlatform, none⟩

/-- Conversion functions for the examples. -/
def exampleConversions : PhyConversions :=
  ⟨fun pins swap => pins + swap, fun pins chips => pins + chips.length, fun config => config⟩

/-- An external phy port that has not been programmed yet. -/
def examplePhyPort : ExternalPhyPort := ⟨2, none, none, []⟩

/-! ## Lemmas on the map -/

theorem find_append_single (key k : SaiNeighborTraits.NeighborEntry) (v : ManagedNeighbor)
    (l : List (SaiNeighborTraits.NeighborEntry × ManagedNeighbor)) :
    ManagedNeighborMap.find key (l ++ [(k, v)]) =
      match ManagedNeighborMap.find key l with
      | some x => some x
      | none => if k = key then some v else none := by
  induction l with
  | nil => simp [ManagedNeighborMap.find]
  | cons hd tl ih =>
    obtain ⟨k0, v0⟩ := hd
    by_cases h : k0 = key
    · simp [ManagedNeighborMap.find, h]
    · simp [ManagedNeighborMap.find, h, ih]

theorem find_erase (key k : SaiNeighborTraits.NeighborEntry)
    (l : List (SaiNeighborTraits.NeighborEntry × ManagedNeighbor)) :
    ManagedNeighborMap.find key (ManagedNeighborMap.erase k l) =
      if key = k then none else ManagedNeighborMap.find key l := by
  induction l with
  | nil => simp [ManagedNeighborMap.find, ManagedNeighborMap.erase]
  | cons hd tl ih =>
    obtain ⟨k0, v0⟩ := hd
    unfold ManagedNeighborMap.erase at ih ⊢
    by_cases h0 : k0 = k
    · subst h0
      by_cases h1 : k0 = key
      · subst h1
        simpa [ManagedNeighborMap.find, List.filter] using ih
      · have h2 : ¬ key = k0 := fun h => h1 h.symm
        simpa [ManagedNeighborMap.find, List.filter, h1, h2] using ih
    · by_cases h1 : k0 = key
      · subst h1
        simp [ManagedNeighborMap.find, List.filter, h0]
      · simpa [ManagedNeighborMap.find, List.filter, h0, h1] using ih

theorem find_mem (key : SaiNeighborTraits.NeighborEntry) (v : ManagedNeighbor)
    (l : List (SaiNeighborTraits.NeighborEntry × ManagedNeighbor))
    (h : ManagedNeighborMap.find key l = some v) : (key, v) ∈ l := by
  induction l with
  | nil => simp [ManagedNeighborMap.find] at h
  | cons hd tl ih =>
    obtain ⟨k0, v0⟩ := hd
    by_cases h0 : k0 = key
    · subst h0
      simp [ManagedNeighborMap.find] at h
      simp [h]
    · simp [ManagedNeighborMap.find, h0] at h
      exact List.mem_cons_of_mem _ (ih h)

theorem emplace_of_find_none (key : SaiNeighborTraits.NeighborEntry) (v : ManagedNeighbor)
    (l : List (SaiNeighborTraits.NeighborEntry × ManagedNeighbor))
    (h : ManagedNeighborMap.find key l = none) :
    ManagedNeighborMap.emplace key v l = l ++ [(key, v)] := by
  simp [ManagedNeighborMap.emplace, h]

theorem mem_erase (kv : SaiNeighborTraits.NeighborEntry × ManagedNeighbor)
    (k : SaiNeighborTraits.NeighborEntry)
    (l : List (SaiNeighborTraits.NeighborEntry × ManagedNeighbor))
    (h : kv ∈ ManagedNeighborMap.erase k l) : kv ∈ l := by
  unfold ManagedNeighborMap.erase at h
  exact (List.mem_filter.mp h).1

/-! ## Lemmas on subscription -/

theorem subscribeFrame_refl (a : SaiNeighborManager × ManagedNeighbor) : SubscribeFrame a a :=
  ⟨rfl, rfl, rfl, ⟨[], by simp⟩, rfl, rfl, rfl, rfl, rfl, fun h => h⟩

theorem subscribeFrame_trans {a b c : SaiNeighborManager × ManagedNeighbor}
    (hab : SubscribeFrame a b) (hbc : SubscribeFrame b c) : SubscribeFrame a c := by
  obtain ⟨t1, ht1, hc1⟩ := hab.trace
  obtain ⟨t2, ht2, hc2⟩ := hbc.trace
  refine ⟨hbc.table.trans hab.table, hbc.publisher.trans hab.publisher,
    hbc.map.trans hab.map, ⟨t1 ++ t2, ?_, ?_⟩, hbc.port.trans hab.port,
    hbc.intf.trans hab.intf, hbc.ip.trans hab.ip, hbc.mac.trans hab.mac,
    hbc.metadata.trans hab.metadata, fun h => hbc.object (hab.object h)⟩
  · rw [ht2, ht1, List.append_assoc]
  · intro c hc
    rcases List.mem_append.mp hc with h | h
    · exact hc1 c h
    · obtain ⟨k, attrs, n, hk, hip⟩ := hc2 c h
      exact ⟨k, attrs, n, hk, hip.trans hab.ip⟩

theorem createObject_frame (m : SaiNeighborManager) (self : ManagedNeighbor)
    (interface : SaiRouterInterface) (fdbEntry : SaiFdbEntry) :
    SubscribeFrame (m, self) (createObject m self interface fdbEntry) := by
  refine ⟨rfl, rfl, rfl, ⟨[Call.setObject
      ⟨fdbEntry.adapterHostKey.switchId, interface.adapterKey, self.ip_⟩
      ⟨fdbEntry.adapterHostKey.mac, self.metadata_⟩ (isLinkUp m self.port_)], rfl, ?_⟩,
    rfl, rfl, rfl, rfl, rfl, ?_⟩
  · intro c hc
    simp only [List.mem_singleton] at hc
    exact ⟨_, _, _, hc, rfl⟩
  · intro _ o ho
    simp only [createObject, createSaiObject, Option.some.injEq] at ho
    subst ho
    rfl

theorem afterCreateRouterInterface_frame (acc : SaiNeighborManager × ManagedNeighbor)
    (published : InterfaceID × SaiRouterInterface) :
    SubscribeFrame acc (afterCreateRouterInterface acc published) := by
  unfold afterCreateRouterInterface
  split
  · cases hf : acc.2.fdbEntry with
    | none =>
      simp only [hf]
      exact ⟨rfl, rfl, rfl, ⟨[], by simp⟩, rfl, rfl, rfl, rfl, rfl, fun h => h⟩
    | some fdb =>
      simp only [hf]
      refine subscribeFrame_trans (b := (acc.1, _)) ?_ (createObject_frame _ _ _ _)
      exact ⟨rfl, rfl, rfl, ⟨[], by simp⟩, rfl, rfl, rfl, rfl, rfl, fun h => h⟩
  · exact subscribeFrame_refl acc

theorem afterCreateFdb_frame (acc : SaiNeighborManager × ManagedNeighbor)
    (published : (InterfaceID × MacAddress) × SaiFdbEntry) :
    SubscribeFrame acc (afterCreateFdb acc published) := by
  unfold afterCreateFdb
  split
  · cases hf : acc.2.routerInterface with
    | none =>
      simp only [hf]
      exact ⟨rfl, rfl, rfl, ⟨[], by simp⟩, rfl, rfl, rfl, rfl, rfl, fun h => h⟩
    | some rif =>
      simp only [hf]
      refine subscribeFrame_trans (b := (acc.1, _)) ?_ (createObject_frame _ _ _ _)
      exact ⟨rfl, rfl, rfl, ⟨[], by simp⟩, rfl, rfl, rfl, rfl, rfl, fun h => h⟩
  · exact subscribeFrame_refl acc

theorem foldl_frame {α : Type}
    (step : SaiNeighborManager × ManagedNeighbor → α → SaiNeighborManager × ManagedNeighbor)
    (hstep : ∀ acc x, SubscribeFrame acc (step acc x)) (l : List α)
    (acc : SaiNeighborManager × ManagedNeighbor) :
    SubscribeFrame acc (l.foldl step acc) := by
  induction l generalizing acc with
  | nil => exact subscribeFrame_refl acc
  | cons x xs ih => exact subscribeFrame_trans (hstep acc x) (ih (step acc x))

theorem subscribeRouterInterface_frame (m : SaiNeighborManager) (s : ManagedNeighbor) :
    SubscribeFrame (m.record (Call.subscribeRouterInterface s), s)
      (subscribeRouterInterface m s) :=
  foldl_frame _ afterCreateRouterInterface_frame _ _

theorem subscribeFdb_frame (m : SaiNeighborManager) (s : ManagedNeighbor) :
    SubscribeFrame (m.record (Call.subscribeFdb s), s) (subscribeFdb m s) :=
  foldl_frame _ afterCreateFdb_frame _ _

theorem createObject_agree (m1 m2 : SaiNeighborManager) (self : ManagedNeighbor)
    (interface : SaiRouterInterface) (fdbEntry : SaiFdbEntry)
    (h : m1.managerTable_ = m2.managerTable_) :
    (createObject m1 self interface fdbEntry).1.managerTable_ =
        (createObject m2 self interface fdbEntry).1.managerTable_ ∧
      (createObject m1 self interface fdbEntry).2 =
        (createObject m2 self interface fdbEntry).2 := by
  refine ⟨h, ?_⟩
  have hl : isLinkUp m1 self.port_ = isLinkUp m2 self.port_ := by
    unfold isLinkUp
    rw [h]
  simp only [createObject, createSaiObject, hl]

theorem afterCreateRouterInterface_agree (a b : SaiNeighborManager × ManagedNeighbor)
    (published : InterfaceID × SaiRouterInterface)
    (h : a.1.managerTable_ = b.1.managerTable_ ∧ a.2 = b.2) :
    (afterCreateRouterInterface a published).1.managerTable_ =
        (afterCreateRouterInterface b published).1.managerTable_ ∧
      (afterCreateRouterInterface a published).2 =
        (afterCreateRouterInterface b published).2 := by
  obtain ⟨m1, s1⟩ := a
  obtain ⟨m2, s2⟩ := b
  obtain ⟨ht, hs⟩ := h
  simp only at ht hs
  subst hs
  unfold afterCreateRouterInterface
  by_cases hk : published.1 = s1.interfaceId
  · cases hf : s1.fdbEntry with
    | none => simp [hk, hf, ht]
    | some fdb =>
      simp only [hk, hf, if_true]
      exact createObject_agree m1 m2 _ _ _ ht
  · simp [hk, ht]

theorem afterCreateFdb_agree (a b : SaiNeighborManager × ManagedNeighbor)
    (published : (InterfaceID × MacAddress) × SaiFdbEntry)
    (h : a.1.managerTable_ = b.1.managerTable_ ∧ a.2 = b.2) :
    (afterCreateFdb a published).1.managerTable_ =
        (afterCreateFdb b published).1.managerTable_ ∧
      (afterCreateFdb a published).2 = (afterCreateFdb b published).2 := by
  obtain ⟨m1, s1⟩ := a
  obtain ⟨m2, s2⟩ := b
  obtain ⟨ht, hs⟩ := h
  simp only at ht hs
  subst hs
  unfold afterCreateFdb
  by_cases hk : published.1 = (s1.interfaceId, s1.mac)
  · cases hf : s1.routerInterface with
    | none => simp [hk, hf, ht]
    | some rif =>
      simp only [hk, hf, if_true]
      exact createObject_agree m1 m2 _ _ _ ht
  · simp [hk, ht]

theorem foldl_agree {α : Type}
    (step : SaiNeighborManager × ManagedNeighbor → α → SaiNeighborManager × ManagedNeighbor)
    (hstep : ∀ a b x, (a.1.managerTable_ = b.1.managerTable_ ∧ a.2 = b.2) →
      (step a x).1.managerTable_ = (step b x).1.managerTable_ ∧ (step a x).2 = (step b x).2)
    (l : List α) (a b : SaiNeighborManager × ManagedNeighbor)
    (h : a.1.managerTable_ = b.1.managerTable_ ∧ a.2 = b.2) :
    (l.foldl step a).1.managerTable_ = (l.foldl step b).1.managerTable_ ∧
      (l.foldl step a).2 = (l.foldl step b).2 := by
  induction l generalizing a b with
  | nil => exact h
  | cons x xs ih => exact ih _ _ (hstep a b x h)

theorem subscribedNeighbor_congr (e : NeighborEntryT) (m1 m2 : SaiNeighborManager)
    (ht : m1.managerTable_ = m2.managerTable_) (hp : m1.publisher = m2.publisher) :
    subscribedNeighbor e m1 = subscribedNeighbor e m2 := by
  unfold subscribedNeighbor
  simp only
  generalize ManagedNeighbor.new _ _ _ _ _ = s0
  have h1 := foldl_agree afterCreateRouterInterface afterCreateRouterInterface_agree
    m1.publisher.routerInterfaces
    (m1.record (Call.subscribeRouterInterface s0), s0)
    (m2.record (Call.subscribeRouterInterface s0), s0) ⟨ht, rfl⟩
  have hp1 : (subscribeRouterInterface m1 s0).1.publisher = m1.publisher :=
    (subscribeRouterInterface_frame m1 s0).publisher
  have hp2 : (subscribeRouterInterface m2 s0).1.publisher = m2.publisher :=
    (subscribeRouterInterface_frame m2 s0).publisher
  have e1 : (subscribeRouterInterface m1 s0).1.managerTable_ =
      (subscribeRouterInterface m2 s0).1.managerTable_ := by
    unfold subscribeRouterInterface
    rw [← hp]
    exact h1.1
  have e2 : (subscribeRouterInterface m1 s0).2 = (subscribeRouterInterface m2 s0).2 := by
    unfold subscribeRouterInterface
    rw [← hp]
    exact h1.2
  have h2 := foldl_agree afterCreateFdb afterCreateFdb_agree m1.publisher.fdbEntries
    ((subscribeRouterInterface m1 s0).1.record
      (Call.subscribeFdb (subscribeRouterInterface m1 s0).2), (subscribeRouterInterface m1 s0).2)
    ((subscribeRouterInterface m2 s0).1.record
      (Call.subscribeFdb (subscribeRouterInterface m2 s0).2), (subscribeRouterInterface m2 s0).2)
    ⟨e1, e2⟩
  unfold subscribeFdb
  rw [hp1, hp2, ← hp]
  exact h2.2

/-! ## Lemmas on the member functions -/

theorem manager_ext (a b : SaiNeighborManager) (h1 : a.managerTable_ = b.managerTable_)
    (h2 : a.publisher = b.publisher) (h3 : a.managedNeighbors_ = b.managedNeighbors_)
    (h4 : a.trace = b.trace) : a = b := by
  cases a
  cases b
  simp_all

@[simp] theorem record_managerTable (m : SaiNeighborManager) (c : Call) :
    (m.record c).managerTable_ = m.managerTable_ := rfl

@[simp] theorem record_publisher (m : SaiNeighborManager) (c : Call) :
    (m.record c).publisher = m.publisher := rfl

@[simp] theorem record_managedNeighbors (m : SaiNeighborManager) (c : Call) :
    (m.record c).managedNeighbors_ = m.managedNeighbors_ := rfl

@[simp] theorem record_trace (m : SaiNeighborManager) (c : Call) :
    (m.record c).trace = m.trace ++ [c] := rfl

theorem saiEntryFromSwEntry_snd (e : NeighborEntryT) (m : SaiNeighborManager) :
    (saiEntryFromSwEntry e m).2 = m.record (Call.getRouterInterfaceHandle e.getIntfID) := by
  unfold saiEntryFromSwEntry
  cases getRouterInterfaceHandle m.managerTable_ e.getIntfID <;> rfl

theorem saiEntryFromSwEntry_fst_congr (e1 e2 : NeighborEntryT) (m1 m2 : SaiNeighborManager)
    (ht : m1.managerTable_ = m2.managerTable_) (hi : e1.getIntfID = e2.getIntfID)
    (hip : e1.getIP = e2.getIP) :
    (saiEntryFromSwEntry e1 m1).1 = (saiEntryFromSwEntry e2 m2).1 := by
  unfold saiEntryFromSwEntry
  rw [ht, hi, hip]
  cases getRouterInterfaceHandle m2.managerTable_ e2.getIntfID <;> rfl

theorem saiEntryFromSwEntry_ip (e : NeighborEntryT) (m : SaiNeighborManager)
    (key : SaiNeighborTraits.NeighborEntry) (h : (saiEntryFromSwEntry e m).1 = Except.ok key) :
    key.ip = e.getIP := by
  unfold saiEntryFromSwEntry at h
  cases hh : getRouterInterfaceHandle m.managerTable_ e.getIntfID with
  | none => simp [hh] at h
  | some handle =>
    simp only [hh, Except.ok.injEq] at h
    rw [← h]

theorem saiEntryFromSwEntry_error (e : NeighborEntryT) (m : SaiNeighborManager)
    (err : FbossError) (h : (saiEntryFromSwEntry e m).1 = Except.error err) :
    err = FbossError.noSaiRouterInterface e.getIntfID ∧
      getRouterInterfaceHandle m.managerTable_ e.getIntfID = none := by
  unfold saiEntryFromSwEntry at h
  cases hh : getRouterInterfaceHandle m.managerTable_ e.getIntfID with
  | none =>
    simp only [hh, Except.error.injEq] at h
    exact ⟨h.symm, rfl⟩
  | some handle => simp [hh] at h

theorem subscribe_chain (m : SaiNeighborManager) (s : ManagedNeighbor) :
    ∃ t, (subscribeFdb (subscribeRouterInterface m s).1 (subscribeRouterInterface m s).2).1 =
        { m with trace := m.trace ++ t } ∧
      ∀ c ∈ t, ∀ ip, c.programmedIP = some ip → ip = s.ip_ := by
  have f1 := subscribeRouterInterface_frame m s
  have f2 := subscribeFdb_frame (subscribeRouterInterface m s).1 (subscribeRouterInterface m s).2
  obtain ⟨t1, ht1, hc1⟩ := f1.trace
  obtain ⟨t2, ht2, hc2⟩ := f2.trace
  simp only [record_trace, record_managerTable, record_publisher, record_managedNeighbors]
    at ht1 ht2 hc1 hc2
  refine ⟨Call.subscribeRouterInterface s :: t1 ++
    Call.subscribeFdb (subscribeRouterInterface m s).2 :: t2, ?_, ?_⟩
  · apply manager_ext
    · exact f2.table.trans f1.table
    · exact f2.publisher.trans f1.publisher
    · exact f2.map.trans f1.map
    · rw [ht2, ht1]
      simp
  · intro c hc ip hip
    have hs1 : (subscribeRouterInterface m s).2.ip_ = s.ip_ := f1.ip
    simp only [List.cons_append, List.mem_cons, List.mem_append] at hc
    rcases hc with h | h | h | h
    · subst h
      simp only [Call.programmedIP, Option.some.injEq] at hip
      exact hip.symm
    · obtain ⟨k, attrs, n, hk, hkip⟩ := hc1 c h
      subst hk
      simp only [Call.programmedIP, Option.some.injEq] at hip
      exact hip.symm.trans hkip
    · subst h
      simp only [Call.programmedIP, Option.some.injEq] at hip
      exact hip.symm.trans hs1
    · obtain ⟨k, attrs, n, hk, hkip⟩ := hc2 c h
      subst hk
      simp only [Call.programmedIP, Option.some.injEq] at hip
      exact hip.symm.trans (hkip.trans hs1)

theorem addNeighbor_fresh (e : NeighborEntryT) (m : SaiNeighborManager)
    (key : SaiNeighborTraits.NeighborEntry)
    (hres : e.isPending = false) (hll : isV6LinkLocal e.getIP = false)
    (hkey : (saiEntryFromSwEntry e m).1 = Except.ok key)
    (hnone : ManagedNeighborMap.find key m.managedNeighbors_ = none) :
    ∃ t, addNeighbor e m = Outcome.ok { m with
        managedNeighbors_ := m.managedNeighbors_ ++ [(key, subscribedNeighbor e m)],
        trace := m.trace ++ (Call.xlog (LogLine.addNeighbor e.getIP) ::
          Call.getRouterInterfaceHandle e.getIntfID :: t) } ∧
      ∀ c ∈ t, ∀ ip, c.programmedIP = some ip → ip = e.getIP := by
  have hk1 : (saiEntryFromSwEntry e (m.record (Call.xlog (LogLine.addNeighbor e.getIP)))).1
      = Except.ok key :=
    (saiEntryFromSwEntry_fst_congr e e (m.record _) m rfl rfl rfl).trans hkey
  simp only [addNeighbor, hres, hll, hk1, saiEntryFromSwEntry_snd, record_managedNeighbors,
    hnone, Option.isSome_none, Bool.false_eq_true, if_false]
  have hs : ∀ m2 : SaiNeighborManager,
      (subscribeFdb (subscribeRouterInterface m2 _).1 (subscribeRouterInterface m2 _).2).2 =
        subscribedNeighbor e m2 := fun m2 => rfl
  rw [hs]
  generalize hs0 : ManagedNeighbor.new _ e.getIntfID e.getIP e.getMac _ = sub0
  have hip0 : sub0.ip_ = e.getIP := by
    rw [← hs0]
    rfl
  obtain ⟨t, ht, hc⟩ := subscribe_chain
    ((m.record (Call.xlog (LogLine.addNeighbor e.getIP))).record
      (Call.getRouterInterfaceHandle e.getIntfID)) sub0
  refine ⟨t, ?_, fun c hcm ip hcip => (hc c hcm ip hcip).trans hip0⟩
  rw [ht]
  simp only [record_managedNeighbors, record_trace, record_managerTable, record_publisher,
    emplace_of_find_none _ _ _ hnone, List.append_assoc, List.singleton_append]
  rw [subscribedNeighbor_congr e ((m.record (Call.xlog (LogLine.addNeighbor e.getIP))).record
    (Call.getRouterInterfaceHandle e.getIntfID)) m rfl rfl]
  rfl

theorem addNeighbor_present (e : NeighborEntryT) (m : SaiNeighborManager)
    (key : SaiNeighborTraits.NeighborEntry) (managed : ManagedNeighbor)
    (hres : e.isPending = false) (hll : isV6LinkLocal e.getIP = false)
    (hkey : (saiEntryFromSwEntry e m).1 = Except.ok key)
    (hsome : ManagedNeighborMap.find key m.managedNeighbors_ = some managed) :
    addNeighbor e m = ⟨some (FbossError.duplicateNeighbor e.getIP),
      { m with trace := m.trace ++ [Call.xlog (LogLine.addNeighbor e.getIP),
          Call.getRouterInterfaceHandle e.getIntfID] }⟩ := by
  have hk1 : (saiEntryFromSwEntry e (m.record (Call.xlog (LogLine.addNeighbor e.getIP)))).1
      = Except.ok key :=
    (saiEntryFromSwEntry_fst_congr e e (m.record _) m rfl rfl rfl).trans hkey
  simp only [addNeighbor, hres, hll, hk1, saiEntryFromSwEntry_snd, record_managedNeighbors,
    hsome, Option.isSome_some, Bool.false_eq_true, if_false, if_true]
  simp [SaiNeighborManager.record]

theorem addNeighbor_noRouterInterface (e : NeighborEntryT) (m : SaiNeighborManager)
    (err : FbossError)
    (hres : e.isPending = false) (hll : isV6LinkLocal e.getIP = false)
    (hkey : (saiEntryFromSwEntry e m).1 = Except.error err) :
    addNeighbor e m = ⟨some (FbossError.noSaiRouterInterface e.getIntfID),
      { m with trace := m.trace ++ [Call.xlog (LogLine.addNeighbor e.getIP),
          Call.getRouterInterfaceHandle e.getIntfID] }⟩ := by
  have hk1 : (saiEntryFromSwEntry e (m.record (Call.xlog (LogLine.addNeighbor e.getIP)))).1
      = Except.error err :=
    (saiEntryFromSwEntry_fst_congr e e (m.record _) m rfl rfl rfl).trans hkey
  have herr := (saiEntryFromSwEntry_error e m err hkey).1
  simp only [addNeighbor, hres, hll, hk1, saiEntryFromSwEntry_snd,
    Bool.false_eq_true, if_false, herr]
  simp [SaiNeighborManager.record]

theorem addNeighbor_pending (e : NeighborEntryT) (m : SaiNeighborManager)
    (hpen : e.isPending = true) :
    addNeighbor e m =
      Outcome.ok (m.record (Call.xlog (LogLine.skipAddingUnresolvedNeighbor e.getIP))) := by
  simp only [addNeighbor, hpen, if_true]

theorem addNeighbor_linkLocal (e : NeighborEntryT) (m : SaiNeighborManager)
    (hres : e.isPending = false) (hll : isV6LinkLocal e.getIP = true) :
    addNeighbor e m =
      Outcome.ok (m.record (Call.xlog (LogLine.skipAddingLinkLocalNeighbor e.getIP))) := by
  simp only [addNeighbor, hres, hll, Bool.false_eq_true, if_false, if_true]

theorem removeNeighbor_linkLocal (e : NeighborEntryT) (m : SaiNeighborManager)
    (hll : isV6LinkLocal e.getIP = true) :
    removeNeighbor e m =
      Outcome.ok (m.record (Call.xlog (LogLine.skipLinkLocalNeighbor e.getIP))) := by
  simp only [removeNeighbor, hll, if_true]

theorem removeNeighbor_pending (e : NeighborEntryT) (m : SaiNeighborManager)
    (hll : isV6LinkLocal e.getIP = false) (hpen : e.isPending = true) :
    removeNeighbor e m =
      Outcome.ok (m.record (Call.xlog (LogLine.skipRemovingUnresolvedNeighbor e.getIP))) := by
  simp only [removeNeighbor, hpen, hll, Bool.false_eq_true, if_false, if_true]

theorem removeNeighbor_present (e : NeighborEntryT) (m : SaiNeighborManager)
    (key : SaiNeighborTraits.NeighborEntry) (managed : ManagedNeighbor)
    (hres : e.isPending = false) (hll : isV6LinkLocal e.getIP = false)
    (hkey : (saiEntryFromSwEntry e m).1 = Except.ok key)
    (hsome : ManagedNeighborMap.find key m.managedNeighbors_ = some managed) :
    removeNeighbor e m = Outcome.ok { m with
      managedNeighbors_ := ManagedNeighborMap.erase key m.managedNeighbors_,
      trace := m.trace ++ [Call.xlog (LogLine.removeNeighbor e.getIP),
          Call.getRouterInterfaceHandle e.getIntfID] } := by
  have hk1 : (saiEntryFromSwEntry e (m.record (Call.xlog (LogLine.removeNeighbor e.getIP)))).1
      = Except.ok key :=
    (saiEntryFromSwEntry_fst_congr e e (m.record _) m rfl rfl rfl).trans hkey
  simp only [removeNeighbor, hres, hll, hk1, saiEntryFromSwEntry_snd, record_managedNeighbors,
    hsome, Option.isNone_some, Bool.false_eq_true, if_false]
  simp [SaiNeighborManager.record]

theorem removeNeighbor_absent (e : NeighborEntryT) (m : SaiNeighborManager)
    (key : SaiNeighborTraits.NeighborEntry)
    (hres : e.isPending = false) (hll : isV6LinkLocal e.getIP = false)
    (hkey : (saiEntryFromSwEntry e m).1 = Except.ok key)
    (hnone : ManagedNeighborMap.find key m.managedNeighbors_ = none) :
    removeNeighbor e m = ⟨some (FbossError.nonExistentNeighbor e.getIP),
      { m with trace := m.trace ++ [Call.xlog (LogLine.removeNeighbor e.getIP),
          Call.getRouterInterfaceHandle e.getIntfID] }⟩ := by
  have hk1 : (saiEntryFromSwEntry e (m.record (Call.xlog (LogLine.removeNeighbor e.getIP)))).1
      = Except.ok key :=
    (saiEntryFromSwEntry_fst_congr e e (m.record _) m rfl rfl rfl).trans hkey
  simp only [removeNeighbor, hres, hll, hk1, saiEntryFromSwEntry_snd, record_managedNeighbors,
    hnone, Option.isNone_none, Bool.false_eq_true, if_false, if_true]
  simp [SaiNeighborManager.record]

theorem removeNeighbor_noRouterInterface (e : NeighborEntryT) (m : SaiNeighborManager)
    (err : FbossError)
    (hres : e.isPending = false) (hll : isV6LinkLocal e.getIP = false)
    (hkey : (saiEntryFromSwEntry e m).1 = Except.error err) :
    removeNeighbor e m = ⟨some (FbossError.noSaiRouterInterface e.getIntfID),
      { m with trace := m.trace ++ [Call.xlog (LogLine.removeNeighbor e.getIP),
          Call.getRouterInterfaceHandle e.getIntfID] }⟩ := by
  have hk1 : (saiEntryFromSwEntry e (m.record (Call.xlog (LogLine.removeNeighbor e.getIP)))).1
      = Except.error err :=
    (saiEntryFromSwEntry_fst_congr e e (m.record _) m rfl rfl rfl).trans hkey
  have herr := (saiEntryFromSwEntry_error e m err hkey).1
  simp only [removeNeighbor, hres, hll, hk1, saiEntryFromSwEntry_snd,
    Bool.false_eq_true, if_false, herr]
  simp [SaiNeighborManager.record]

theorem subscribedNeighbor_fields (e : NeighborEntryT) (m : SaiNeighborManager) :
    (subscribedNeighbor e m).port_ =
        (match e.getPort with
          | PortDescriptor.physical phyPortID => SaiPortDescriptor.physical phyPortID
          | PortDescriptor.aggregate aggPortID => SaiPortDescriptor.aggregate aggPortID) ∧
      (subscribedNeighbor e m).interfaceId = e.getIntfID ∧
      (subscribedNeighbor e m).ip_ = e.getIP ∧
      (subscribedNeighbor e m).mac = e.getMac ∧
      (subscribedNeighbor e m).metadata_ =
        (match e.getClassID with
          | some classID => some (classID % 2 ^ 32)
          | none => none) ∧
      ∀ o, (subscribedNeighbor e m).object = some o → o.adapterHostKey.ip = e.getIP := by
  unfold subscribedNeighbor
  simp only
  generalize hs0 : ManagedNeighbor.new _ e.getIntfID e.getIP e.getMac _ = sub0
  have f1 := subscribeRouterInterface_frame m sub0
  have f2 := subscribeFdb_frame (subscribeRouterInterface m sub0).1
    (subscribeRouterInterface m sub0).2
  have hobj0 : ∀ o, sub0.object = some o → o.adapterHostKey.ip = sub0.ip_ := by
    intro o ho
    rw [← hs0] at ho
    simp [ManagedNeighbor.new] at ho
  have hip : (subscribeFdb (subscribeRouterInterface m sub0).1
      (subscribeRouterInterface m sub0).2).2.ip_ = sub0.ip_ := f2.ip.trans f1.ip
  refine ⟨(f2.port.trans f1.port).trans ?_, (f2.intf.trans f1.intf).trans ?_, hip.trans ?_,
    (f2.mac.trans f1.mac).trans ?_, (f2.metadata.trans f1.metadata).trans ?_, ?_⟩
  · rw [← hs0]; rfl
  · rw [← hs0]; rfl
  · rw [← hs0]; rfl
  · rw [← hs0]; rfl
  · rw [← hs0]; rfl
  · intro o ho
    have h1 := f2.object (f1.object hobj0) o ho
    rw [h1]
    refine hip.trans ?_
    rw [← hs0]; rfl

theorem andThen_ok (r : Outcome) : r.andThen Outcome.ok = r := by
  unfold Outcome.andThen
  cases h : r.error with
  | none =>
    obtain ⟨err, st⟩ := r
    simp only at h
    subst h
    rfl
  | some err => rfl

theorem ok_andThen (m : SaiNeighborManager) (f : SaiNeighborManager → Outcome) :
    (Outcome.ok m).andThen f = f m := rfl

theorem changeNeighbor_eq_dispatch (old new : NeighborEntryT) (m : SaiNeighborManager) :
    changeNeighbor old new m = changeNeighborDispatch old new m := by
  unfold changeNeighbor changeNeighborDispatch
  cases ho : old.isPending <;> cases hn : new.isPending
  · by_cases heq : old = new
    · simp [ok_andThen, heq]
    · simp [ok_andThen, heq]
  · simp only [Bool.false_and, Bool.and_false, Bool.false_eq_true, if_false, Bool.not_false,
      Bool.not_true, Bool.and_true, Bool.true_and, if_true, ok_andThen]
    exact andThen_ok _
  · simp only [Bool.false_and, Bool.and_false, Bool.false_eq_true, if_false, Bool.not_false,
      Bool.not_true, Bool.and_true, Bool.true_and, if_true, ok_andThen]
    rw [andThen_ok]
    exact andThen_ok _
  · simp [ok_andThen]

theorem newCalls_append (m : SaiNeighborManager) (st : SaiNeighborManager) (t : List Call)
    (h : st.trace = m.trace ++ t) : newCalls m st = t := by
  unfold newCalls
  rw [h]
  exact List.drop_left _ _

theorem addNeighbor_ok_find (e : NeighborEntryT) (m : SaiNeighborManager)
    (hres : e.isPending = false) (hll : isV6LinkLocal e.getIP = false)
    (hok : (addNeighbor e m).error = none) :
    ∃ key, (saiEntryFromSwEntry e m).1 = Except.ok key ∧
      ManagedNeighborMap.find key m.managedNeighbors_ = none ∧
      (addNeighbor e m).state.managerTable_ = m.managerTable_ ∧
      (addNeighbor e m).state.publisher = m.publisher ∧
      (addNeighbor e m).state.managedNeighbors_ =
        m.managedNeighbors_ ++ [(key, subscribedNeighbor e m)] := by
  cases hk : (saiEntryFromSwEntry e m).1 with
  | error err =>
    rw [addNeighbor_noRouterInterface e m err hres hll hk] at hok
    simp at hok
  | ok key =>
    cases hf : ManagedNeighborMap.find key m.managedNeighbors_ with
    | some managed =>
      rw [addNeighbor_present e m key managed hres hll hk hf] at hok
      simp at hok
    | none =>
      obtain ⟨t, ht, _⟩ := addNeighbor_fresh e m key hres hll hk hf
      refine ⟨key, rfl, hf, ?_, ?_, ?_⟩ <;> rw [ht] <;> rfl

theorem noLinkLocal_step (m st : SaiNeighborManager) (t : List Call) (hN : NoLinkLocal m)
    (hmap : ∀ kv ∈ st.managedNeighbors_, kv ∈ m.managedNeighbors_ ∨
      (isV6LinkLocal kv.1.ip = false ∧ isV6LinkLocal kv.2.ip_ = false ∧
        ∀ o, kv.2.object = some o → isV6LinkLocal o.adapterHostKey.ip = false))
    (htrace : st.trace = m.trace ++ t)
    (hcalls : ∀ c ∈ t, ∀ ip, c.programmedIP = some ip → isV6LinkLocal ip = false) :
    NoLinkLocal st := by
  refine ⟨?_, ?_⟩
  · intro kv hkv
    rcases hmap kv hkv with h | h
    · exact hN.1 kv h
    · exact h
  · intro c hc ip hip
    rw [htrace] at hc
    rcases List.mem_append.mp hc with h | h
    · exact hN.2 c h ip hip
    · exact hcalls c h ip hip

theorem noLinkLocal_record (m : SaiNeighborManager) (c : Call) (hc : c.programmedIP = none)
    (hN : NoLinkLocal m) : NoLinkLocal (m.record c) := by
  refine noLinkLocal_step m _ [c] hN (fun kv hkv => Or.inl hkv) rfl ?_
  intro c1 hc1 ip hip
  rw [List.mem_singleton] at hc1
  subst hc1
  rw [hc] at hip
  simp at hip

theorem addNeighbor_noLinkLocal (e : NeighborEntryT) (m : SaiNeighborManager)
    (hN : NoLinkLocal m) : NoLinkLocal (addNeighbor e m).state := by
  cases hpen : e.isPending with
  | true =>
    rw [addNeighbor_pending e m hpen]
    exact noLinkLocal_record m _ rfl hN
  | false =>
    cases hll : isV6LinkLocal e.getIP with
    | true =>
      rw [addNeighbor_linkLocal e m hpen hll]
      exact noLinkLocal_record m _ rfl hN
    | false =>
      have hlog : ∀ c ∈ [Call.xlog (LogLine.addNeighbor e.getIP),
          Call.getRouterInterfaceHandle e.getIntfID],
          ∀ ip, c.programmedIP = some ip → isV6LinkLocal ip = false := by
        intro c hc ip hip
        simp only [List.mem_cons, List.mem_singleton, List.not_mem_nil, or_false] at hc
        rcases hc with h | h <;> subst h <;> simp [Call.programmedIP] at hip
      cases hk : (saiEntryFromSwEntry e m).1 with
      | error err =>
        rw [addNeighbor_noRouterInterface e m err hpen hll hk]
        exact noLinkLocal_step m _ _ hN (fun kv hkv => Or.inl hkv) rfl hlog
      | ok key =>
        cases hf : ManagedNeighborMap.find key m.managedNeighbors_ with
        | some managed =>
          rw [addNeighbor_present e m key managed hpen hll hk hf]
          exact noLinkLocal_step m _ _ hN (fun kv hkv => Or.inl hkv) rfl hlog
        | none =>
          obtain ⟨t, ht, hc⟩ := addNeighbor_fresh e m key hpen hll hk hf
          rw [ht]
          have hfields := subscribedNeighbor_fields e m
          have hkip := saiEntryFromSwEntry_ip e m key hk
          refine noLinkLocal_step m _ _ hN ?_ rfl ?_
          · intro kv hkv
            simp only [Outcome.ok, List.mem_append, List.mem_singleton] at hkv
            rcases hkv with h | h
            · exact Or.inl h
            · subst h
              refine Or.inr ⟨?_, ?_, ?_⟩
              · simp only [hkip, hll]
              · simp only [hfields.2.2.1, hll]
              · intro o ho
                rw [hfields.2.2.2.2.2 o ho]
                exact hll
          · intro c hcm ip hip
            simp only [List.mem_cons] at hcm
            rcases hcm with h | h | h
            · subst h
              simp [Call.programmedIP] at hip
            · subst h
              simp [Call.programmedIP] at hip
            · rw [hc c h ip hip]
              exact hll

theorem removeNeighbor_noLinkLocal (e : NeighborEntryT) (m : SaiNeighborManager)
    (hN : NoLinkLocal m) : NoLinkLocal (removeNeighbor e m).state := by
  cases hll : isV6LinkLocal e.getIP with
  | true =>
    rw [removeNeighbor_linkLocal e m hll]
    exact noLinkLocal_record m _ rfl hN
  | false =>
    cases hpen : e.isPending with
    | true =>
      rw [removeNeighbor_pending e m hll hpen]
      exact noLinkLocal_record m _ rfl hN
    | false =>
      have hlog : ∀ c ∈ [Call.xlog (LogLine.removeNeighbor e.getIP),
          Call.getRouterInterfaceHandle e.getIntfID],
          ∀ ip, c.programmedIP = some ip → isV6LinkLocal ip = false := by
        intro c hc ip hip
        simp only [List.mem_cons, List.mem_singleton, List.not_mem_nil, or_false] at hc
        rcases hc with h | h <;> subst h <;> simp [Call.programmedIP] at hip
      cases hk : (saiEntryFromSwEntry e m).1 with
      | error err =>
        rw [removeNeighbor_noRouterInterface e m err hpen hll hk]
        exact noLinkLocal_step m _ _ hN (fun kv hkv => Or.inl hkv) rfl hlog
      | ok key =>
        cases hf : ManagedNeighborMap.find key m.managedNeighbors_ with
        | some managed =>
          rw [removeNeighbor_present e m key managed hpen hll hk hf]
          exact noLinkLocal_step m _ _ hN (fun kv hkv => Or.inl (mem_erase kv key _ hkv))
            rfl hlog
        | none =>
          rw [removeNeighbor_absent e m key hpen hll hk hf]
          exact noLinkLocal_step m _ _ hN (fun kv hkv => Or.inl hkv) rfl hlog

theorem andThen_noLinkLocal (r : Outcome) (f : SaiNeighborManager → Outcome)
    (hr : NoLinkLocal r.state) (hf : ∀ st, NoLinkLocal st → NoLinkLocal (f st).state) :
    NoLinkLocal (r.andThen f).state := by
  unfold Outcome.andThen
  cases r.error with
  | none => exact hf _ hr
  | some err => exact hr

theorem changeNeighbor_noLinkLocal (old new : NeighborEntryT) (m : SaiNeighborManager)
    (hN : NoLinkLocal m) : NoLinkLocal (changeNeighbor old new m).state := by
  rw [changeNeighbor_eq_dispatch]
  unfold changeNeighborDispatch
  cases old.isPending <;> cases new.isPending
  · by_cases h : old = new
    · simp only [h, if_true]
      exact hN
    · simp only [h, if_false]
      exact andThen_noLinkLocal _ _ (removeNeighbor_noLinkLocal old m hN)
        (fun st hst => addNeighbor_noLinkLocal new st hst)
  · exact removeNeighbor_noLinkLocal old m hN
  · exact addNeighbor_noLinkLocal new m hN
  · exact hN

theorem runOps_noLinkLocal (ops : List NeighborOp) (m : SaiNeighborManager)
    (hN : NoLinkLocal m) : NoLinkLocal (runOps ops m) := by
  unfold runOps
  induction ops generalizing m with
  | nil => exact hN
  | cons op rest ih =>
    simp only [List.foldl_cons]
    apply ih
    cases op with
    | add e => exact addNeighbor_noLinkLocal e m hN
    | remove e => exact removeNeighbor_noLinkLocal e m hN
    | change old new => exact changeNeighbor_noLinkLocal old new m hN

theorem addNeighbor_lookup (e : NeighborEntryT) (m : SaiNeighborManager)
    (hres : e.isPending = false) (hll : isV6LinkLocal e.getIP = false) :
    Call.getRouterInterfaceHandle e.getIntfID ∈ newCalls m (addNeighbor e m).state := by
  cases hk : (saiEntryFromSwEntry e m).1 with
  | error err =>
    rw [addNeighbor_noRouterInterface e m err hres hll hk, newCalls_append m _ _ rfl]
    simp
  | ok key =>
    cases hf : ManagedNeighborMap.find key m.managedNeighbors_ with
    | some managed =>
      rw [addNeighbor_present e m key managed hres hll hk hf, newCalls_append m _ _ rfl]
      simp
    | none =>
      obtain ⟨t, ht, _⟩ := addNeighbor_fresh e m key hres hll hk hf
      rw [ht, newCalls_append m _ _ rfl]
      simp

theorem removeNeighbor_lookup (e : NeighborEntryT) (m : SaiNeighborManager)
    (hres : e.isPending = false) (hll : isV6LinkLocal e.getIP = false) :
    Call.getRouterInterfaceHandle e.getIntfID ∈ newCalls m (removeNeighbor e m).state := by
  cases hk : (saiEntryFromSwEntry e m).1 with
  | error err =>
    rw [removeNeighbor_noRouterInterface e m err hres hll hk, newCalls_append m _ _ rfl]
    simp
  | ok key =>
    cases hf : ManagedNeighborMap.find key m.managedNeighbors_ with
    | some managed =>
      rw [removeNeighbor_present e m key managed hres hll hk hf, newCalls_append m _ _ rfl]
      simp
    | none =>
      rw [removeNeighbor_absent e m key hres hll hk hf, newCalls_append m _ _ rfl]
      simp

theorem silentNoOp_log (m : SaiNeighborManager) (line : LogLine) :
    SilentNoOp m (Outcome.ok (m.record (Call.xlog line))) := by
  refine ⟨rfl, rfl, rfl, rfl, ?_⟩
  intro c hc
  have h : newCalls m (Outcome.ok (m.record (Call.xlog line))).state = [Call.xlog line] :=
    newCalls_append m _ _ rfl
  rw [h, List.mem_singleton] at hc
  subst hc
  rfl

theorem addNeighbor_logs (e : NeighborEntryT) (m : SaiNeighborManager) :
    ∃ line t, newCalls m (addNeighbor e m).state = Call.xlog line :: t := by
  cases hpen : e.isPending with
  | true =>
    rw [addNeighbor_pending e m hpen]
    exact ⟨_, [], newCalls_append m _ _ rfl⟩
  | false =>
    cases hll : isV6LinkLocal e.getIP with
    | true =>
      rw [addNeighbor_linkLocal e m hpen hll]
      exact ⟨_, [], newCalls_append m _ _ rfl⟩
    | false =>
      cases hk : (saiEntryFromSwEntry e m).1 with
      | error err =>
        rw [addNeighbor_noRouterInterface e m err hpen hll hk]
        exact ⟨_, _, newCalls_append m _ _ rfl⟩
      | ok key =>
        cases hf : ManagedNeighborMap.find key m.managedNeighbors_ with
        | some managed =>
          rw [addNeighbor_present e m key managed hpen hll hk hf]
          exact ⟨_, _, newCalls_append m _ _ rfl⟩
        | none =>
          obtain ⟨t, ht, _⟩ := addNeighbor_fresh e m key hpen hll hk hf
          rw [ht]
          exact ⟨_, _, newCalls_append m _ _ rfl⟩

theorem removeNeighbor_logs (e : NeighborEntryT) (m : SaiNeighborManager) :
    ∃ line t, newCalls m (removeNeighbor e m).state = Call.xlog line :: t := by
  cases hll : isV6LinkLocal e.getIP with
  | true =>
    rw [removeNeighbor_linkLocal e m hll]
    exact ⟨_, [], newCalls_append m _ _ rfl⟩
  | false =>
    cases hpen : e.isPending with
    | true =>
      rw [removeNeighbor_pending e m hll hpen]
      exact ⟨_, [], newCalls_append m _ _ rfl⟩
    | false =>
      cases hk : (saiEntryFromSwEntry e m).1 with
      | error err =>
        rw [removeNeighbor_noRouterInterface e m err hpen hll hk]
        exact ⟨_, _, newCalls_append m _ _ rfl⟩
      | ok key =>
        cases hf : ManagedNeighborMap.find key m.managedNeighbors_ with
        | some managed =>
          rw [removeNeighbor_present e m key managed hpen hll hk hf]
          exact ⟨_, _, newCalls_append m _ _ rfl⟩
        | none =>
          rw [removeNeighbor_absent e m key hpen hll hk hf]
          exact ⟨_, _, newCalls_append m _ _ rfl⟩

theorem erase_ne_of_find (key : SaiNeighborTraits.NeighborEntry) (v : ManagedNeighbor)
    (l : List (SaiNeighborTraits.NeighborEntry × ManagedNeighbor))
    (h : ManagedNeighborMap.find key l = some v) : ManagedNeighborMap.erase key l ≠ l := by
  intro heq
  have hmem : (key, v) ∈ ManagedNeighborMap.erase key l := by
    rw [heq]
    exact find_mem key v l h
  unfold ManagedNeighborMap.erase at hmem
  have := (List.mem_filter.mp hmem).2
  simp at this

theorem append_single_ne {α : Type} (l : List α) (x : α) : l ++ [x] ≠ l := by
  intro h
  have := congrArg List.length h
  simp at this

theorem addNeighbor_unchanged_skips (e : NeighborEntryT) (m : SaiNeighborManager)
    (herr : (addNeighbor e m).error = none)
    (hmap : (addNeighbor e m).state.managedNeighbors_ = m.managedNeighbors_) :
    e.isPending = true ∨ isV6LinkLocal e.getIP = true := by
  by_contra hn
  simp only [not_or, Bool.not_eq_true] at hn
  obtain ⟨key, _, _, _, _, hgrow⟩ := addNeighbor_ok_find e m hn.1 hn.2 herr
  rw [hgrow] at hmap
  exact append_single_ne _ _ hmap

theorem removeNeighbor_unchanged_skips (e : NeighborEntryT) (m : SaiNeighborManager)
    (herr : (removeNeighbor e m).error = none)
    (hmap : (removeNeighbor e m).state.managedNeighbors_ = m.managedNeighbors_) :
    e.isPending = true ∨ isV6LinkLocal e.getIP = true := by
  by_contra hn
  simp only [not_or, Bool.not_eq_true] at hn
  cases hk : (saiEntryFromSwEntry e m).1 with
  | error err =>
    rw [removeNeighbor_noRouterInterface e m err hn.1 hn.2 hk] at herr
    simp at herr
  | ok key =>
    cases hf : ManagedNeighborMap.find key m.managedNeighbors_ with
    | some managed =>
      rw [removeNeighbor_present e m key managed hn.1 hn.2 hk hf] at hmap
      exact erase_ne_of_find key managed _ hf hmap
    | none =>
      rw [removeNeighbor_absent e m key hn.1 hn.2 hk hf] at herr
      simp at herr

theorem addNeighbor_error_map (e : NeighborEntryT) (m : SaiNeighborManager)
    (herr : (addNeighbor e m).error ≠ none) :
    (addNeighbor e m).state.managedNeighbors_ = m.managedNeighbors_ ∧
      ((addNeighbor e m).error = some (FbossError.duplicateNeighbor e.getIP) ∨
        (addNeighbor e m).error = some (FbossError.noSaiRouterInterface e.getIntfID)) := by
  cases hpen : e.isPending with
  | true =>
    rw [addNeighbor_pending e m hpen] at herr
    exact absurd rfl herr
  | false =>
    cases hll : isV6LinkLocal e.getIP with
    | true =>
      rw [addNeighbor_linkLocal e m hpen hll] at herr
      exact absurd rfl herr
    | false =>
      cases hk : (saiEntryFromSwEntry e m).1 with
      | error err =>
        rw [addNeighbor_noRouterInterface e m err hpen hll hk]
        exact ⟨rfl, Or.inr rfl⟩
      | ok key =>
        cases hf : ManagedNeighborMap.find key m.managedNeighbors_ with
        | some managed =>
          rw [addNeighbor_present e m key managed hpen hll hk hf]
          exact ⟨rfl, Or.inl rfl⟩
        | none =>
          obtain ⟨t, ht, _⟩ := addNeighbor_fresh e m key hpen hll hk hf
          rw [ht] at herr
          exact absurd rfl herr

theorem removeNeighbor_error_map (e : NeighborEntryT) (m : SaiNeighborManager)
    (herr : (removeNeighbor e m).error ≠ none) :
    (removeNeighbor e m).state.managedNeighbors_ = m.managedNeighbors_ ∧
      ((removeNeighbor e m).error = some (FbossError.nonExistentNeighbor e.getIP) ∨
        (removeNeighbor e m).error = some (FbossError.noSaiRouterInterface e.getIntfID)) := by
  cases hll : isV6LinkLocal e.getIP with
  | true =>
    rw [removeNeighbor_linkLocal e m hll] at herr
    exact absurd rfl herr
  | false =>
    cases hpen : e.isPending with
    | true =>
      rw [removeNeighbor_pending e m hll hpen] at herr
      exact absurd rfl herr
    | false =>
      cases hk : (saiEntryFromSwEntry e m).1 with
      | error err =>
        rw [removeNeighbor_noRouterInterface e m err hpen hll hk]
        exact ⟨rfl, Or.inr rfl⟩
      | ok key =>
        cases hf : ManagedNeighborMap.find key m.managedNeighbors_ with
        | some managed =>
          rw [removeNeighbor_present e m key managed hpen hll hk hf] at herr
          exact absurd rfl herr
        | none =>
          rw [removeNeighbor_absent e m key hpen hll hk hf]
          exact ⟨rfl, Or.inl rfl⟩

theorem saiEntryFromSwEntry_of_handle (e : NeighborEntryT) (m : SaiNeighborManager)
    (handle : SaiRouterInterfaceHandle)
    (h : getRouterInterfaceHandle m.managerTable_ e.getIntfID = some handle) :
    (saiEntryFromSwEntry e m).1 =
      Except.ok ⟨m.managerTable_.switchSaiId, handle.routerInterface.adapterKey, e.getIP⟩ := by
  unfold saiEntryFromSwEntry
  simp only [h]

theorem saiEntryFromSwEntry_of_none (e : NeighborEntryT) (m : SaiNeighborManager)
    (h : getRouterInterfaceHandle m.managerTable_ e.getIntfID = none) :
    (saiEntryFromSwEntry e m).1 =
      Except.error (FbossError.noSaiRouterInterface e.getIntfID) := by
  unfold saiEntryFromSwEntry
  simp only [h]

/-! ## Lemmas on dependencies and events -/

theorem afterCreateRouterInterface_arrived (acc : SaiNeighborManager × ManagedNeighbor)
    (published : InterfaceID × SaiRouterInterface) :
    RouterInterfaceArrived (decide (published.1 = acc.2.interfaceId)) acc.2
      (afterCreateRouterInterface acc published).2 := by
  unfold afterCreateRouterInterface RouterInterfaceArrived ManagedNeighbor.ObjectIffDependencies
  by_cases hk : published.1 = acc.2.interfaceId
  · cases hf : acc.2.fdbEntry with
    | none => simp [hk, hf]
    | some fdb => simp [hk, hf, createObject, createSaiObject]
  · simp [hk]

theorem afterCreateFdb_arrived (acc : SaiNeighborManager × ManagedNeighbor)
    (published : (InterfaceID × MacAddress) × SaiFdbEntry) :
    FdbArrived (decide (published.1 = (acc.2.interfaceId, acc.2.mac))) acc.2
      (afterCreateFdb acc published).2 := by
  unfold afterCreateFdb FdbArrived ManagedNeighbor.ObjectIffDependencies
  by_cases hk : published.1 = (acc.2.interfaceId, acc.2.mac)
  · cases hf : acc.2.routerInterface with
    | none => simp [hk, hf]
    | some rif => simp [hk, hf, createObject, createSaiObject]
  · simp [hk]

theorem beforeRemoveRouterInterface_left (intf : InterfaceID)
    (acc : SaiNeighborManager × ManagedNeighbor) :
    RouterInterfaceLeft (decide (intf = acc.2.interfaceId)) acc.2
      (beforeRemoveRouterInterface intf acc).2 := by
  unfold beforeRemoveRouterInterface RouterInterfaceLeft ManagedNeighbor.ObjectIffDependencies
  by_cases hk : intf = acc.2.interfaceId
  · cases hf : acc.2.routerInterface with
    | none => simp [hk, hf]
    | some rif => simp [hk, hf, removeObject]
  · simp [hk]

theorem beforeRemoveFdb_left (key : InterfaceID × MacAddress)
    (acc : SaiNeighborManager × ManagedNeighbor) :
    FdbLeft (decide (key = (acc.2.interfaceId, acc.2.mac))) acc.2
      (beforeRemoveFdb key acc).2 := by
  unfold beforeRemoveFdb FdbLeft ManagedNeighbor.ObjectIffDependencies
  by_cases hk : key = (acc.2.interfaceId, acc.2.mac)
  · cases hf : acc.2.fdbEntry with
    | none => simp [hk, hf]
    | some fdb => simp [hk, hf, removeObject]
  · simp [hk]

theorem routerInterfaceArrived_trans {b1 b2 : Bool} {n n1 n2 : ManagedNeighbor}
    (h1 : RouterInterfaceArrived b1 n n1) (h2 : RouterInterfaceArrived b2 n1 n2) :
    RouterInterfaceArrived (b1 || b2) n n2 := by
  obtain ⟨a1, a2, a3, a4, a5, a6⟩ := h1
  obtain ⟨c1, c2, c3, c4, c5, c6⟩ := h2
  refine ⟨c1.trans a1, c2.trans a2, c3.trans a3, ?_, fun h => c5 (a5 h), fun h => c6 (a6 h)⟩
  rw [c4, a4, Bool.or_assoc]

theorem fdbArrived_trans {b1 b2 : Bool} {n n1 n2 : ManagedNeighbor}
    (h1 : FdbArrived b1 n n1) (h2 : FdbArrived b2 n1 n2) :
    FdbArrived (b1 || b2) n n2 := by
  obtain ⟨a1, a2, a3, a4, a5, a6⟩ := h1
  obtain ⟨c1, c2, c3, c4, c5, c6⟩ := h2
  refine ⟨c1.trans a1, c2.trans a2, c3.trans a3, ?_, fun h => c5 (a5 h), fun h => c6 (a6 h)⟩
  rw [c4, a4, Bool.or_assoc]

theorem foldl_routerInterface_arrived (l : List (InterfaceID × SaiRouterInterface))
    (acc : SaiNeighborManager × ManagedNeighbor) :
    RouterInterfaceArrived (l.any (fun kv => decide (kv.1 = acc.2.interfaceId))) acc.2
      (l.foldl afterCreateRouterInterface acc).2 := by
  induction l generalizing acc with
  | nil =>
    simp only [List.any_nil, List.foldl_nil]
    exact ⟨rfl, rfl, rfl, by simp, fun h => h, fun h => h⟩
  | cons x xs ih =>
    have h1 := afterCreateRouterInterface_arrived acc x
    have h2 := ih (afterCreateRouterInterface acc x)
    rw [h1.1] at h2
    simp only [List.any_cons, List.foldl_cons]
    exact routerInterfaceArrived_trans h1 h2

theorem foldl_fdb_arrived (l : List ((InterfaceID × MacAddress) × SaiFdbEntry))
    (acc : SaiNeighborManager × ManagedNeighbor) :
    FdbArrived (l.any (fun kv => decide (kv.1 = (acc.2.interfaceId, acc.2.mac)))) acc.2
      (l.foldl afterCreateFdb acc).2 := by
  induction l generalizing acc with
  | nil =>
    simp only [List.any_nil, List.foldl_nil]
    exact ⟨rfl, rfl, rfl, by simp, fun h => h, fun h => h⟩
  | cons x xs ih =>
    have h1 := afterCreateFdb_arrived acc x
    have h2 := ih (afterCreateFdb acc x)
    rw [h1.1, h1.2.1] at h2
    simp only [List.any_cons, List.foldl_cons]
    exact fdbArrived_trans h1 h2

theorem subscribed_inStep (m : SaiNeighborManager) (s : ManagedNeighbor)
    (hr : s.routerInterface = none) (hf : s.fdbEntry = none) (ho : s.object = none)
    (hh : s.handle_.neighbor = none) :
    (subscribeFdb (subscribeRouterInterface m s).1 (subscribeRouterInterface m s).2).2.InStep
      m.publisher := by
  have f1 := subscribeRouterInterface_frame m s
  have a1 : RouterInterfaceArrived (m.publisher.hasRouterInterface s.interfaceId) s
      (subscribeRouterInterface m s).2 :=
    foldl_routerInterface_arrived m.publisher.routerInterfaces
      (m.record (Call.subscribeRouterInterface s), s)
  have a2 : FdbArrived (m.publisher.hasFdbEntry (subscribeRouterInterface m s).2.interfaceId
        (subscribeRouterInterface m s).2.mac) (subscribeRouterInterface m s).2
      (subscribeFdb (subscribeRouterInterface m s).1 (subscribeRouterInterface m s).2).2 := by
    have := foldl_fdb_arrived (subscribeRouterInterface m s).1.publisher.fdbEntries
      ((subscribeRouterInterface m s).1.record
        (Call.subscribeFdb (subscribeRouterInterface m s).2), (subscribeRouterInterface m s).2)
    have hp : (subscribeRouterInterface m s).1.publisher = m.publisher := f1.publisher
    unfold SaiObjectEventPublisher.hasFdbEntry subscribeFdb
    rw [← hp]
    exact this
  obtain ⟨b1, b2, b3, b4, b5, b6⟩ := a1
  obtain ⟨c1, c2, c3, c4, c5, c6⟩ := a2
  have hobj0 : s.ObjectIffDependencies := by
    unfold ManagedNeighbor.ObjectIffDependencies
    rw [ho, hr, hf]
    rfl
  refine ⟨?_, ?_, c5 (b5 hobj0), c6 (b6 (hh.trans ho.symm))⟩
  · rw [c3, b4, hr, c1, b1]
    simp
  · rw [c4, b3, hf, c1, c2]
    simp

theorem subscribedNeighbor_inStep (e : NeighborEntryT) (m : SaiNeighborManager) :
    (subscribedNeighbor e m).InStep m.publisher := by
  unfold subscribedNeighbor
  exact subscribed_inStep m _ rfl rfl rfl rfl

theorem deliver_foldl
    (deliver : SaiNeighborManager × ManagedNeighbor → SaiNeighborManager × ManagedNeighbor)
    (hframe : ∀ acc, (deliver acc).1.managerTable_ = acc.1.managerTable_ ∧
      (deliver acc).1.publisher = acc.1.publisher)
    (table : SaiManagerTable) (publisher : SaiObjectEventPublisher)
    (l : List (SaiNeighborTraits.NeighborEntry × ManagedNeighbor))
    (a : SaiNeighborManager) (pre : List (SaiNeighborTraits.NeighborEntry × ManagedNeighbor))
    (ht : a.managerTable_ = table) (hp : a.publisher = publisher) :
    (l.foldl (fun (acc : SaiNeighborManager ×
          List (SaiNeighborTraits.NeighborEntry × ManagedNeighbor)) kv =>
        ((deliver (acc.1, kv.2)).1, acc.2 ++ [(kv.1, (deliver (acc.1, kv.2)).2)]))
        (a, pre)).1.managerTable_ = table ∧
      (l.foldl (fun (acc : SaiNeighborManager ×
          List (SaiNeighborTraits.NeighborEntry × ManagedNeighbor)) kv =>
        ((deliver (acc.1, kv.2)).1, acc.2 ++ [(kv.1, (deliver (acc.1, kv.2)).2)]))
        (a, pre)).1.publisher = publisher ∧
      ∃ l', (l.foldl (fun (acc : SaiNeighborManager ×
          List (SaiNeighborTraits.NeighborEntry × ManagedNeighbor)) kv =>
        ((deliver (acc.1, kv.2)).1, acc.2 ++ [(kv.1, (deliver (acc.1, kv.2)).2)]))
        (a, pre)).2 = pre ++ l' ∧
        List.Forall₂ (fun kv kv' => kv'.1 = kv.1 ∧
          ∃ b : SaiNeighborManager, b.managerTable_ = table ∧ b.publisher = publisher ∧
            kv'.2 = (deliver (b, kv.2)).2) l l' := by
  induction l generalizing a pre with
  | nil => exact ⟨ht, hp, [], by simp, List.Forall₂.nil⟩
  | cons x xs ih =>
    simp only [List.foldl_cons]
    have hf := hframe (a, x.2)
    obtain ⟨h1, h2, l', hl', hall⟩ := ih (deliver (a, x.2)).1
      (pre ++ [(x.1, (deliver (a, x.2)).2)]) (hf.1.trans ht) (hf.2.trans hp)
    refine ⟨h1, h2, (x.1, (deliver (a, x.2)).2) :: l', ?_, ?_⟩
    · rw [hl']
      simp
    · exact List.Forall₂.cons ⟨rfl, a, ht, hp, rfl⟩ hall

theorem deliverToAll_forall2
    (deliver : SaiNeighborManager × ManagedNeighbor → SaiNeighborManager × ManagedNeighbor)
    (hframe : ∀ acc, (deliver acc).1.managerTable_ = acc.1.managerTable_ ∧
      (deliver acc).1.publisher = acc.1.publisher)
    (m : SaiNeighborManager) :
    (deliverToAll deliver m).managerTable_ = m.managerTable_ ∧
      (deliverToAll deliver m).publisher = m.publisher ∧
      List.Forall₂ (fun kv kv' => kv'.1 = kv.1 ∧
          ∃ b : SaiNeighborManager, b.managerTable_ = m.managerTable_ ∧
            b.publisher = m.publisher ∧ kv'.2 = (deliver (b, kv.2)).2)
        m.managedNeighbors_ (deliverToAll deliver m).managedNeighbors_ := by
  obtain ⟨h1, h2, l', hl', hall⟩ :=
    deliver_foldl deliver hframe m.managerTable_ m.publisher m.managedNeighbors_ m [] rfl rfl
  unfold deliverToAll
  refine ⟨h1, h2, ?_⟩
  simp only [List.nil_append] at hl'
  simp only
  rw [hl']
  exact hall

theorem forall2_mem_right {α β : Type} {R : α → β → Prop} {l : List α} {l' : List β}
    (h : List.Forall₂ R l l') : ∀ y ∈ l', ∃ x ∈ l, R x y := by
  induction h with
  | nil => intro y hy; simp at hy
  | cons hxy _ ih =>
    intro y hy
    rcases List.mem_cons.mp hy with h1 | h1
    · subst h1
      exact ⟨_, List.mem_cons_self _ _, hxy⟩
    · obtain ⟨x, hx, hr⟩ := ih y h1
      exact ⟨x, List.mem_cons_of_mem _ hx, hr⟩

theorem find_forall2 {R : ManagedNeighbor → ManagedNeighbor → Prop}
    {l l' : List (SaiNeighborTraits.NeighborEntry × ManagedNeighbor)}
    (h : List.Forall₂ (fun kv kv' => kv'.1 = kv.1 ∧ R kv.2 kv'.2) l l')
    (key : SaiNeighborTraits.NeighborEntry) :
    (∀ n, ManagedNeighborMap.find key l = some n →
        ∃ n', ManagedNeighborMap.find key l' = some n' ∧ R n n') ∧
      (ManagedNeighborMap.find key l = none → ManagedNeighborMap.find key l' = none) := by
  induction l generalizing l' with
  | nil =>
    cases h
    simp [ManagedNeighborMap.find]
  | cons x xs ih =>
    cases h with
    | cons hxy hrest =>
      rename_i y ys
      obtain ⟨k, v⟩ := x
      obtain ⟨k', v'⟩ := y
      obtain ⟨hk, hr⟩ := hxy
      simp only at hk hr
      subst hk
      by_cases hkey : k' = key
      · simp only [ManagedNeighborMap.find, hkey, if_true, Option.some.injEq]
        refine ⟨?_, by simp⟩
        intro n hn
        subst hn
        exact ⟨v', rfl, hr⟩
      · simp only [ManagedNeighborMap.find, hkey, if_false]
        exact ih hrest

theorem afterCreate_tables (acc : SaiNeighborManager × ManagedNeighbor)
    (published : InterfaceID × SaiRouterInterface) :
    (afterCreateRouterInterface acc published).1.managerTable_ = acc.1.managerTable_ ∧
      (afterCreateRouterInterface acc published).1.publisher = acc.1.publisher :=
  ⟨(afterCreateRouterInterface_frame acc published).table,
    (afterCreateRouterInterface_frame acc published).publisher⟩

theorem afterCreateFdb_tables (acc : SaiNeighborManager × ManagedNeighbor)
    (published : (InterfaceID × MacAddress) × SaiFdbEntry) :
    (afterCreateFdb acc published).1.managerTable_ = acc.1.managerTable_ ∧
      (afterCreateFdb acc published).1.publisher = acc.1.publisher :=
  ⟨(afterCreateFdb_frame acc published).table, (afterCreateFdb_frame acc published).publisher⟩

theorem beforeRemoveRouterInterface_tables (intf : InterfaceID)
    (acc : SaiNeighborManager × ManagedNeighbor) :
    (beforeRemoveRouterInterface intf acc).1.managerTable_ = acc.1.managerTable_ ∧
      (beforeRemoveRouterInterface intf acc).1.publisher = acc.1.publisher := by
  unfold beforeRemoveRouterInterface
  split <;> exact ⟨rfl, rfl⟩

theorem beforeRemoveFdb_tables (key : InterfaceID × MacAddress)
    (acc : SaiNeighborManager × ManagedNeighbor) :
    (beforeRemoveFdb key acc).1.managerTable_ = acc.1.managerTable_ ∧
      (beforeRemoveFdb key acc).1.publisher = acc.1.publisher := by
  unfold beforeRemoveFdb
  split <;> exact ⟨rfl, rfl⟩

theorem any_filter_ne {α β : Type} [DecidableEq α] (l : List (α × β)) (gone key : α) :
    (l.filter (fun kv => decide (kv.1 ≠ gone))).any (fun kv => decide (kv.1 = key)) =
      (l.any (fun kv => decide (kv.1 = key)) && !decide (gone = key)) := by
  rw [Bool.eq_iff_iff]
  simp only [List.any_eq_true, List.mem_filter, Bool.and_eq_true, decide_eq_true_eq,
    Bool.not_eq_true', decide_eq_false_iff_not]
  constructor
  · rintro ⟨x, ⟨hx, hne⟩, hk⟩
    exact ⟨⟨x, hx, hk⟩, fun h => hne (hk.trans h.symm)⟩
  · rintro ⟨⟨x, hx, hk⟩, hne⟩
    exact ⟨x, ⟨hx, fun h => hne (h.symm.trans hk)⟩, hk⟩

theorem inStep_routerInterfaceCreated (p : SaiObjectEventPublisher) (intf : InterfaceID)
    (object : SaiRouterInterface) (n n' : ManagedNeighbor) (h : n.InStep p)
    (hr : RouterInterfaceArrived (decide (intf = n.interfaceId)) n n') :
    n'.InStep { p with routerInterfaces := p.routerInterfaces ++ [(intf, object)] } := by
  obtain ⟨h1, h2, h3, h4⟩ := h
  obtain ⟨a1, a2, a3, a4, a5, a6⟩ := hr
  refine ⟨?_, ?_, a5 h3, a6 h4⟩
  · rw [a4, h1, a1]
    simp [SaiObjectEventPublisher.hasRouterInterface, List.any_append]
  · rw [a3, h2, a1, a2]
    rfl

theorem inStep_fdbEntryCreated (p : SaiObjectEventPublisher) (key : InterfaceID × MacAddress)
    (object : SaiFdbEntry) (n n' : ManagedNeighbor) (h : n.InStep p)
    (hr : FdbArrived (decide (key = (n.interfaceId, n.mac))) n n') :
    n'.InStep { p with fdbEntries := p.fdbEntries ++ [(key, object)] } := by
  obtain ⟨h1, h2, h3, h4⟩ := h
  obtain ⟨a1, a2, a3, a4, a5, a6⟩ := hr
  refine ⟨?_, ?_, a5 h3, a6 h4⟩
  · rw [a3, h1, a1]
    rfl
  · rw [a4, h2, a1, a2]
    simp [SaiObjectEventPublisher.hasFdbEntry, List.any_append]

theorem inStep_routerInterfaceRemoved (p : SaiObjectEventPublisher) (intf : InterfaceID)
    (n n' : ManagedNeighbor) (h : n.InStep p)
    (hr : RouterInterfaceLeft (decide (intf = n.interfaceId)) n n') :
    n'.InStep { p with routerInterfaces :=
      p.routerInterfaces.filter (fun kv => decide (kv.1 ≠ intf)) } := by
  obtain ⟨h1, h2, h3, h4⟩ := h
  obtain ⟨a1, a2, a3, a4, a5, a6⟩ := hr
  refine ⟨?_, ?_, a5 h3, a6 h4⟩
  · rw [a4, h1, a1]
    simp only [SaiObjectEventPublisher.hasRouterInterface]
    rw [any_filter_ne]
  · rw [a3, h2, a1, a2]
    rfl

theorem inStep_fdbEntryRemoved (p : SaiObjectEventPublisher) (key : InterfaceID × MacAddress)
    (n n' : ManagedNeighbor) (h : n.InStep p)
    (hr : FdbLeft (decide (key = (n.interfaceId, n.mac))) n n') :
    n'.InStep { p with fdbEntries := p.fdbEntries.filter (fun kv => decide (kv.1 ≠ key)) } := by
  obtain ⟨h1, h2, h3, h4⟩ := h
  obtain ⟨a1, a2, a3, a4, a5, a6⟩ := hr
  refine ⟨?_, ?_, a5 h3, a6 h4⟩
  · rw [a3, h1, a1]
    rfl
  · rw [a4, h2, a1, a2]
    simp only [SaiObjectEventPublisher.hasFdbEntry]
    rw [any_filter_ne]

theorem routerInterfaceCreated_allInStep (intf : InterfaceID) (object : SaiRouterInterface)
    (m : SaiNeighborManager) (h : AllInStep m) :
    AllInStep (routerInterfaceCreated intf object m) := by
  unfold routerInterfaceCreated
  obtain ⟨_, hp, hall⟩ := deliverToAll_forall2
    (fun acc => afterCreateRouterInterface acc (intf, object))
    (fun acc => afterCreate_tables acc (intf, object))
    { m with publisher :=
      { m.publisher with routerInterfaces := m.publisher.routerInterfaces ++ [(intf, object)] } }
  intro kv' hkv'
  rw [hp]
  obtain ⟨kv, hkv, _, b, _, _, hb⟩ := forall2_mem_right hall kv' hkv'
  have hr := afterCreateRouterInterface_arrived (b, kv.2) (intf, object)
  rw [← hb] at hr
  exact inStep_routerInterfaceCreated m.publisher intf object kv.2 kv'.2 (h kv hkv) hr

theorem fdbEntryCreated_allInStep (key : InterfaceID × MacAddress) (object : SaiFdbEntry)
    (m : SaiNeighborManager) (h : AllInStep m) :
    AllInStep (fdbEntryCreated key object m) := by
  unfold fdbEntryCreated
  obtain ⟨_, hp, hall⟩ := deliverToAll_forall2
    (fun acc => afterCreateFdb acc (key, object))
    (fun acc => afterCreateFdb_tables acc (key, object))
    { m with publisher :=
      { m.publisher with fdbEntries := m.publisher.fdbEntries ++ [(key, object)] } }
  intro kv' hkv'
  rw [hp]
  obtain ⟨kv, hkv, _, b, _, _, hb⟩ := forall2_mem_right hall kv' hkv'
  have hr := afterCreateFdb_arrived (b, kv.2) (key, object)
  rw [← hb] at hr
  exact inStep_fdbEntryCreated m.publisher key object kv.2 kv'.2 (h kv hkv) hr

theorem routerInterfaceRemoved_allInStep (intf : InterfaceID)
    (m : SaiNeighborManager) (h : AllInStep m) :
    AllInStep (routerInterfaceRemoved intf m) := by
  unfold routerInterfaceRemoved
  obtain ⟨_, hp, hall⟩ := deliverToAll_forall2 (beforeRemoveRouterInterface intf)
    (beforeRemoveRouterInterface_tables intf) m
  intro kv' hkv'
  simp only at hkv' ⊢
  rw [hp]
  obtain ⟨kv, hkv, _, b, _, _, hb⟩ := forall2_mem_right hall kv' hkv'
  have hr := beforeRemoveRouterInterface_left intf (b, kv.2)
  rw [← hb] at hr
  exact inStep_routerInterfaceRemoved m.publisher intf kv.2 kv'.2 (h kv hkv) hr

theorem fdbEntryRemoved_allInStep (key : InterfaceID × MacAddress)
    (m : SaiNeighborManager) (h : AllInStep m) :
    AllInStep (fdbEntryRemoved key m) := by
  unfold fdbEntryRemoved
  obtain ⟨_, hp, hall⟩ := deliverToAll_forall2 (beforeRemoveFdb key)
    (beforeRemoveFdb_tables key) m
  intro kv' hkv'
  simp only at hkv' ⊢
  rw [hp]
  obtain ⟨kv, hkv, _, b, _, _, hb⟩ := forall2_mem_right hall kv' hkv'
  have hr := beforeRemoveFdb_left key (b, kv.2)
  rw [← hb] at hr
  exact inStep_fdbEntryRemoved m.publisher key kv.2 kv'.2 (h kv hkv) hr

theorem addNeighbor_shape (e : NeighborEntryT) (m : SaiNeighborManager) :
    (addNeighbor e m).state.publisher = m.publisher ∧
      (addNeighbor e m).state.managerTable_ = m.managerTable_ ∧
      ∀ kv ∈ (addNeighbor e m).state.managedNeighbors_,
        kv ∈ m.managedNeighbors_ ∨ kv.2 = subscribedNeighbor e m := by
  cases hpen : e.isPending with
  | true =>
    rw [addNeighbor_pending e m hpen]
    exact ⟨rfl, rfl, fun kv h => Or.inl h⟩
  | false =>
    cases hll : isV6LinkLocal e.getIP with
    | true =>
      rw [addNeighbor_linkLocal e m hpen hll]
      exact ⟨rfl, rfl, fun kv h => Or.inl h⟩
    | false =>
      cases hk : (saiEntryFromSwEntry e m).1 with
      | error err =>
        rw [addNeighbor_noRouterInterface e m err hpen hll hk]
        exact ⟨rfl, rfl, fun kv h => Or.inl h⟩
      | ok key =>
        cases hf : ManagedNeighborMap.find key m.managedNeighbors_ with
        | some managed =>
          rw [addNeighbor_present e m key managed hpen hll hk hf]
          exact ⟨rfl, rfl, fun kv h => Or.inl h⟩
        | none =>
          obtain ⟨t, ht, _⟩ := addNeighbor_fresh e m key hpen hll hk hf
          rw [ht]
          refine ⟨rfl, rfl, ?_⟩
          intro kv hkv
          simp only [Outcome.ok, List.mem_append, List.mem_singleton] at hkv
          rcases hkv with h | h
          · exact Or.inl h
          · exact Or.inr (by rw [h])

theorem removeNeighbor_shape (e : NeighborEntryT) (m : SaiNeighborManager) :
    (removeNeighbor e m).state.publisher = m.publisher ∧
      (removeNeighbor e m).state.managerTable_ = m.managerTable_ ∧
      ∀ kv ∈ (removeNeighbor e m).state.managedNeighbors_, kv ∈ m.managedNeighbors_ := by
  cases hll : isV6LinkLocal e.getIP with
  | true =>
    rw [removeNeighbor_linkLocal e m hll]
    exact ⟨rfl, rfl, fun kv h => h⟩
  | false =>
    cases hpen : e.isPending with
    | true =>
      rw [removeNeighbor_pending e m hll hpen]
      exact ⟨rfl, rfl, fun kv h => h⟩
    | false =>
      cases hk : (saiEntryFromSwEntry e m).1 with
      | error err =>
        rw [removeNeighbor_noRouterInterface e m err hpen hll hk]
        exact ⟨rfl, rfl, fun kv h => h⟩
      | ok key =>
        cases hf : ManagedNeighborMap.find key m.managedNeighbors_ with
        | some managed =>
          rw [removeNeighbor_present e m key managed hpen hll hk hf]
          exact ⟨rfl, rfl, fun kv h => mem_erase kv key _ h⟩
        | none =>
          rw [removeNeighbor_absent e m key hpen hll hk hf]
          exact ⟨rfl, rfl, fun kv h => h⟩

theorem addNeighbor_allInStep (e : NeighborEntryT) (m : SaiNeighborManager)
    (h : AllInStep m) : AllInStep (addNeighbor e m).state := by
  obtain ⟨hp, _, hmem⟩ := addNeighbor_shape e m
  intro kv hkv
  rw [hp]
  rcases hmem kv hkv with h1 | h1
  · exact h kv h1
  · rw [h1]
    exact subscribedNeighbor_inStep e m

theorem removeNeighbor_allInStep (e : NeighborEntryT) (m : SaiNeighborManager)
    (h : AllInStep m) : AllInStep (removeNeighbor e m).state := by
  obtain ⟨hp, _, hmem⟩ := removeNeighbor_shape e m
  intro kv hkv
  rw [hp]
  exact h kv (hmem kv hkv)

theorem andThen_preserves (P : SaiNeighborManager → Prop) (r : Outcome)
    (f : SaiNeighborManager → Outcome)
    (hr : P r.state) (hf : ∀ st, P st → P (f st).state) : P (r.andThen f).state := by
  unfold Outcome.andThen
  cases r.error with
  | none => exact hf _ hr
  | some err => exact hr

theorem changeNeighbor_allInStep (old new : NeighborEntryT) (m : SaiNeighborManager)
    (h : AllInStep m) : AllInStep (changeNeighbor old new m).state := by
  rw [changeNeighbor_eq_dispatch]
  unfold changeNeighborDispatch
  cases old.isPending <;> cases new.isPending
  · by_cases heq : old = new
    · simp only [heq, if_true]
      exact h
    · simp only [heq, if_false]
      exact andThen_preserves AllInStep _ _ (removeNeighbor_allInStep old m h)
        (fun st hst => addNeighbor_allInStep new st hst)
  · exact removeNeighbor_allInStep old m h
  · exact addNeighbor_allInStep new m h
  · exact h

theorem step_allInStep (step : ManagerStep) (m : SaiNeighborManager) (h : AllInStep m) :
    AllInStep (step.apply m) := by
  cases step with
  | call op =>
    cases op with
    | add e => exact addNeighbor_allInStep e m h
    | remove e => exact removeNeighbor_allInStep e m h
    | change old new => exact changeNeighbor_allInStep old new m h
  | routerInterfaceCreated intf object => exact routerInterfaceCreated_allInStep intf object m h
  | routerInterfaceRemoved intf => exact routerInterfaceRemoved_allInStep intf m h
  | fdbEntryCreated key object => exact fdbEntryCreated_allInStep key object m h
  | fdbEntryRemoved key => exact fdbEntryRemoved_allInStep key m h
  | tableChanged table => exact h

theorem runSteps_allInStep (steps : List ManagerStep) (m : SaiNeighborManager)
    (h : AllInStep m) : AllInStep (runSteps steps m) := by
  unfold runSteps
  induction steps generalizing m with
  | nil => exact h
  | cons step rest ih =>
    simp only [List.foldl_cons]
    exact ih _ (step_allInStep step m h)

theorem inStep_object_iff (p : SaiObjectEventPublisher) (n : ManagedNeighbor)
    (h : n.InStep p) :
    n.object.isSome = true ↔
      (p.hasRouterInterface n.interfaceId = true ∧ p.hasFdbEntry n.interfaceId n.mac = true) := by
  obtain ⟨h1, h2, h3, _⟩ := h
  unfold ManagedNeighbor.ObjectIffDependencies at h3
  rw [h3, h1, h2]
  simp

/-! ## Lemmas on sequences of adds and removes -/

theorem runAddRemove_append (ops : List AddRemoveOp) (op : AddRemoveOp)
    (m : SaiNeighborManager) :
    runAddRemove (ops ++ [op]) m = (op.apply (runAddRemove ops m)).state := by
  unfold runAddRemove
  rw [List.foldl_append]
  rfl

theorem allSucceed_append (ops : List AddRemoveOp) (op : AddRemoveOp)
    (m : SaiNeighborManager) :
    allSucceed (ops ++ [op]) m =
      (allSucceed ops m && (op.apply (runAddRemove ops m)).error.isNone) := by
  induction ops generalizing m with
  | nil => simp [allSucceed, runAddRemove]
  | cons x xs ih =>
    have hrun : runAddRemove (x :: xs) m = runAddRemove xs (x.apply m).state := rfl
    rw [List.cons_append, allSucceed, allSucceed, ih, hrun, Bool.and_assoc]

theorem addedAndNotRemoved_append (ops : List AddRemoveOp) (op : AddRemoveOp)
    (e : NeighborEntryT) :
    addedAndNotRemoved (ops ++ [op]) e =
      if op.entry = e then op.isAdd else addedAndNotRemoved ops e := by
  unfold addedAndNotRemoved
  rw [List.foldl_append]
  rfl

theorem addedAndNotRemoved_mem (ops : List AddRemoveOp) (e : NeighborEntryT)
    (h : addedAndNotRemoved ops e = true) : ∃ op ∈ ops, op.entry = e := by
  induction ops using List.reverseRecOn with
  | nil => simp [addedAndNotRemoved] at h
  | append_singleton l a ih =>
    rw [addedAndNotRemoved_append] at h
    by_cases ha : a.entry = e
    · exact ⟨a, by simp, ha⟩
    · simp only [ha, if_false] at h
      obtain ⟨op, hop, he⟩ := ih h
      exact ⟨op, List.mem_append_left _ hop, he⟩

theorem keyOf_eq_some (e : NeighborEntryT) (m : SaiNeighborManager)
    (key : SaiNeighborTraits.NeighborEntry) :
    keyOf e m = some key ↔ (saiEntryFromSwEntry e m).1 = Except.ok key := by
  unfold keyOf
  cases h : (saiEntryFromSwEntry e m).1 with
  | error err => simp
  | ok k => simp

theorem isManageable_iff (e : NeighborEntryT) :
    e.isManageable = true ↔ (e.isPending = false ∧ isV6LinkLocal e.getIP = false) := by
  unfold NeighborEntryT.isManageable
  simp

theorem addNeighbor_skip_map (e : NeighborEntryT) (m : SaiNeighborManager)
    (h : ¬ e.isManageable = true) :
    (addNeighbor e m).state.managedNeighbors_ = m.managedNeighbors_ := by
  rw [isManageable_iff] at h
  cases hpen : e.isPending with
  | true => rw [addNeighbor_pending e m hpen]; rfl
  | false =>
    cases hll : isV6LinkLocal e.getIP with
    | true => rw [addNeighbor_linkLocal e m hpen hll]; rfl
    | false => exact absurd ⟨hpen, hll⟩ h

theorem removeNeighbor_skip_map (e : NeighborEntryT) (m : SaiNeighborManager)
    (h : ¬ e.isManageable = true) :
    (removeNeighbor e m).state.managedNeighbors_ = m.managedNeighbors_ := by
  rw [isManageable_iff] at h
  cases hll : isV6LinkLocal e.getIP with
  | true => rw [removeNeighbor_linkLocal e m hll]; rfl
  | false =>
    cases hpen : e.isPending with
    | true => rw [removeNeighbor_pending e m hll hpen]; rfl
    | false => exact absurd ⟨hpen, hll⟩ h

theorem removeNeighbor_ok_find (e : NeighborEntryT) (m : SaiNeighborManager)
    (hres : e.isPending = false) (hll : isV6LinkLocal e.getIP = false)
    (hok : (removeNeighbor e m).error = none) :
    ∃ key, (saiEntryFromSwEntry e m).1 = Except.ok key ∧
      (removeNeighbor e m).state.managedNeighbors_ =
        ManagedNeighborMap.erase key m.managedNeighbors_ := by
  cases hk : (saiEntryFromSwEntry e m).1 with
  | error err =>
    rw [removeNeighbor_noRouterInterface e m err hres hll hk] at hok
    simp at hok
  | ok key =>
    cases hf : ManagedNeighborMap.find key m.managedNeighbors_ with
    | some managed =>
      rw [removeNeighbor_present e m key managed hres hll hk hf]
      exact ⟨key, rfl, rfl⟩
    | none =>
      rw [removeNeighbor_absent e m key hres hll hk hf] at hok
      simp at hok

theorem addRemove_map (table : SaiManagerTable) (publisher : SaiObjectEventPublisher)
    (ops : List AddRemoveOp)
    (hs : allSucceed ops ⟨table, publisher, [], []⟩ = true)
    (hd : DistinctKeys ops ⟨table, publisher, [], []⟩) :
    (runAddRemove ops ⟨table, publisher, [], []⟩).managerTable_ = table ∧
      (runAddRemove ops ⟨table, publisher, [], []⟩).publisher = publisher ∧
      ∀ key n,
        ManagedNeighborMap.find key
            (runAddRemove ops ⟨table, publisher, [], []⟩).managedNeighbors_ = some n ↔
          ∃ e : NeighborEntryT, e.isManageable = true ∧ addedAndNotRemoved ops e = true ∧
            (saiEntryFromSwEntry e ⟨table, publisher, [], []⟩).1 = Except.ok key ∧
            n = subscribedNeighbor e ⟨table, publisher, [], []⟩ := by
  induction ops using List.reverseRecOn with
  | nil =>
    refine ⟨rfl, rfl, ?_⟩
    intro key n
    simp [runAddRemove, ManagedNeighborMap.find, addedAndNotRemoved]
  | append_singleton ops op ih =>
    rw [allSucceed_append, Bool.and_eq_true] at hs
    obtain ⟨hs1, hs2⟩ := hs
    have hd1 : DistinctKeys ops ⟨table, publisher, [], []⟩ := fun a ha b hb =>
      hd a (List.mem_append_left _ ha) b (List.mem_append_left _ hb)
    obtain ⟨ht, hp, hmap⟩ := ih hs1 hd1
    rw [runAddRemove_append]
    have hok : (op.apply (runAddRemove ops ⟨table, publisher, [], []⟩)).error = none := by
      cases h : (op.apply (runAddRemove ops ⟨table, publisher, [], []⟩)).error with
      | none => rfl
      | some err => rw [h] at hs2; simp at hs2
    generalize runAddRemove ops ⟨table, publisher, [], []⟩ = st at ht hp hmap hok ⊢
    cases op with
    | add e =>
      simp only [AddRemoveOp.apply] at hok ⊢
      obtain ⟨hpub, htab, _⟩ := addNeighbor_shape e st
      refine ⟨htab.trans ht, hpub.trans hp, ?_⟩
      intro key n
      by_cases hman : e.isManageable = true
      · obtain ⟨hres, hll⟩ := (isManageable_iff e).mp hman
        obtain ⟨k, hk, hfree, _, _, hgrow⟩ := addNeighbor_ok_find e st hres hll hok
        have hk0 : (saiEntryFromSwEntry e ⟨table, publisher, [], []⟩).1 = Except.ok k :=
          (saiEntryFromSwEntry_fst_congr e e ⟨table, publisher, [], []⟩ st ht.symm rfl
            rfl).trans hk
        have hsn : subscribedNeighbor e st = subscribedNeighbor e ⟨table, publisher, [], []⟩ :=
          subscribedNeighbor_congr e st _ ht hp
        rw [hgrow, find_append_single, hsn]
        constructor
        · intro hfind
          cases hf : ManagedNeighborMap.find key st.managedNeighbors_ with
          | some x =>
            rw [hf] at hfind
            simp only [Option.some.injEq] at hfind
            subst hfind
            obtain ⟨e', h1, h2, h3, h4⟩ := (hmap key x).mp hf
            refine ⟨e', h1, ?_, h3, h4⟩
            rw [addedAndNotRemoved_append]
            by_cases he : e = e'
            · simp [AddRemoveOp.entry, AddRemoveOp.isAdd, he]
            · simp [AddRemoveOp.entry, he, h2]
          | none =>
            rw [hf] at hfind
            by_cases hkk : k = key
            · simp only [hkk, if_true, Option.some.injEq] at hfind
              refine ⟨e, hman, ?_, hkk ▸ hk0, hfind.symm⟩
              rw [addedAndNotRemoved_append]
              simp [AddRemoveOp.entry, AddRemoveOp.isAdd]
            · simp [hkk] at hfind
        · rintro ⟨e', h1, h2, h3, h4⟩
          rw [addedAndNotRemoved_append] at h2
          by_cases he : e = e'
          · subst he
            have hkk : k = key := by
              rw [hk0] at h3
              injection h3
            subst hkk
            rw [hfree, h4]
            simp
          · simp only [AddRemoveOp.entry, he, if_false] at h2
            have hf := (hmap key n).mpr ⟨e', h1, h2, h3, h4⟩
            rw [hf]
      · rw [addNeighbor_skip_map e st hman]
        rw [hmap key n]
        constructor
        · rintro ⟨e', h1, h2, h3, h4⟩
          refine ⟨e', h1, ?_, h3, h4⟩
          rw [addedAndNotRemoved_append]
          have he : ¬ e = e' := fun h => hman (h ▸ h1)
          simp [AddRemoveOp.entry, he, h2]
        · rintro ⟨e', h1, h2, h3, h4⟩
          rw [addedAndNotRemoved_append] at h2
          have he : ¬ e = e' := fun h => hman (h ▸ h1)
          simp only [AddRemoveOp.entry, he, if_false] at h2
          exact ⟨e', h1, h2, h3, h4⟩
    | remove e =>
      simp only [AddRemoveOp.apply] at hok ⊢
      obtain ⟨hpub, htab, _⟩ := removeNeighbor_shape e st
      refine ⟨htab.trans ht, hpub.trans hp, ?_⟩
      intro key n
      by_cases hman : e.isManageable = true
      · obtain ⟨hres, hll⟩ := (isManageable_iff e).mp hman
        obtain ⟨k, hk, herase⟩ := removeNeighbor_ok_find e st hres hll hok
        have hk0 : (saiEntryFromSwEntry e ⟨table, publisher, [], []⟩).1 = Except.ok k :=
          (saiEntryFromSwEntry_fst_congr e e ⟨table, publisher, [], []⟩ st ht.symm rfl
            rfl).trans hk
        rw [herase, find_erase]
        constructor
        · intro hfind
          by_cases hkk : key = k
          · simp [hkk] at hfind
          · simp only [hkk, if_false] at hfind
            obtain ⟨e', h1, h2, h3, h4⟩ := (hmap key n).mp hfind
            refine ⟨e', h1, ?_, h3, h4⟩
            rw [addedAndNotRemoved_append]
            have he : ¬ e = e' := by
              intro h
              subst h
              rw [hk0] at h3
              injection h3 with h3
              exact hkk h3.symm
            simp [AddRemoveOp.entry, he, h2]
        · rintro ⟨e', h1, h2, h3, h4⟩
          rw [addedAndNotRemoved_append] at h2
          by_cases he : e = e'
          · simp [AddRemoveOp.entry, AddRemoveOp.isAdd, he] at h2
          · simp only [AddRemoveOp.entry, he, if_false] at h2
            have hkk : ¬ key = k := by
              intro h
              subst h
              obtain ⟨op', hop', hentry⟩ := addedAndNotRemoved_mem ops e' h2
              have := hd op' (List.mem_append_left _ hop') (AddRemoveOp.remove e)
                (by simp) (by rw [hentry]; exact h1) hman
                (by rw [hentry]
                    rw [(keyOf_eq_some e' _ key).mpr h3]
                    exact ((keyOf_eq_some e _ key).mpr hk0).symm)
              rw [hentry] at this
              exact he this.symm
            simp only [hkk, if_false]
            exact (hmap key n).mpr ⟨e', h1, h2, h3, h4⟩
      · rw [removeNeighbor_skip_map e st hman]
        rw [hmap key n]
        constructor
        · rintro ⟨e', h1, h2, h3, h4⟩
          refine ⟨e', h1, ?_, h3, h4⟩
          rw [addedAndNotRemoved_append]
          have he : ¬ e = e' := fun h => hman (h ▸ h1)
          simp [AddRemoveOp.entry, he, h2]
        · rintro ⟨e', h1, h2, h3, h4⟩
          rw [addedAndNotRemoved_append] at h2
          have he : ¬ e = e' := fun h => hman (h ▸ h1)
          simp only [AddRemoveOp.entry, he, if_false] at h2
          exact ⟨e', h1, h2, h3, h4⟩

theorem replayLive_foldl {σ α : Type} (deliver : σ → α → σ) (live : List α) (s : σ)
    (seen : List α) :
    live.foldl (fun (acc : σ × List α) object => (deliver acc.1 object, acc.2 ++ [object]))
        (s, seen) = (live.foldl deliver s, seen ++ live) := by
  induction live generalizing s seen with
  | nil => simp
  | cons x xs ih =>
    simp only [List.foldl_cons]
    rw [ih]
    simp

theorem subscribe_chain_calls (m : SaiNeighborManager) (s : ManagedNeighbor) :
    ∃ t1 t2,
      (subscribeFdb (subscribeRouterInterface m s).1 (subscribeRouterInterface m s).2).1.trace =
        m.trace ++ (Call.subscribeRouterInterface s :: t1 ++
          Call.subscribeFdb (subscribeRouterInterface m s).2 :: t2) ∧
      (∀ c ∈ t1, c.isSetObject = true) ∧ (∀ c ∈ t2, c.isSetObject = true) := by
  have f1 := subscribeRouterInterface_frame m s
  have f2 := subscribeFdb_frame (subscribeRouterInterface m s).1 (subscribeRouterInterface m s).2
  obtain ⟨t1, ht1, hc1⟩ := f1.trace
  obtain ⟨t2, ht2, hc2⟩ := f2.trace
  simp only [record_trace] at ht1 ht2
  refine ⟨t1, t2, ?_, ?_, ?_⟩
  · rw [ht2, ht1]
    simp
  · intro c hc
    obtain ⟨k, attrs, n, hk, _⟩ := hc1 c hc
    rw [hk]
    rfl
  · intro c hc
    obtain ⟨k, attrs, n, hk, _⟩ := hc2 c hc
    rw [hk]
    rfl

theorem addNeighbor_fresh_calls (e : NeighborEntryT) (m : SaiNeighborManager)
    (key : SaiNeighborTraits.NeighborEntry)
    (hres : e.isPending = false) (hll : isV6LinkLocal e.getIP = false)
    (hkey : (saiEntryFromSwEntry e m).1 = Except.ok key)
    (hnone : ManagedNeighborMap.find key m.managedNeighbors_ = none) :
    ∃ afterRouterInterface t1 t2,
      newCalls m (addNeighbor e m).state =
        Call.xlog (LogLine.addNeighbor e.getIP) ::
          Call.getRouterInterfaceHandle e.getIntfID ::
          Call.subscribeRouterInterface (newSubscriber e) :: t1 ++
            Call.subscribeFdb afterRouterInterface :: t2 ∧
      (∀ c ∈ t1, c.isSetObject = true) ∧ (∀ c ∈ t2, c.isSetObject = true) := by
  have hk1 : (saiEntryFromSwEntry e (m.record (Call.xlog (LogLine.addNeighbor e.getIP)))).1
      = Except.ok key :=
    (saiEntryFromSwEntry_fst_congr e e (m.record _) m rfl rfl rfl).trans hkey
  obtain ⟨t1, t2, ht, h1, h2⟩ := subscribe_chain_calls
    ((m.record (Call.xlog (LogLine.addNeighbor e.getIP))).record
      (Call.getRouterInterfaceHandle e.getIntfID)) (newSubscriber e)
  refine ⟨(subscribeRouterInterface
    ((m.record (Call.xlog (LogLine.addNeighbor e.getIP))).record
      (Call.getRouterInterfaceHandle e.getIntfID)) (newSubscriber e)).2, t1, t2, ?_, h1, h2⟩
  apply newCalls_append
  simp only [addNeighbor, hres, hll, hk1, saiEntryFromSwEntry_snd, record_managedNeighbors,
    hnone, Option.isSome_none, Bool.false_eq_true, if_false]
  simp only [Outcome.ok]
  have ht' := ht
  simp only [record_trace, newSubscriber] at ht'
  rw [ht']
  simp [newSubscriber]

/-! ## The claims -/

/-- C1: for a resolved, non-link-local entry whose key (switch id,
router-interface handle of its interface, its IP) already has a
`ManagedNeighbor`, `addNeighbor` fails with the duplicate-neighbor error; in
particular, after a successful `addNeighbor`, a second `addNeighbor` for the
same interface and IP fails with that error, whatever MAC, port and class tag
the second entry carries. -/
theorem addNeighbor_duplicate_fails (e : NeighborEntryT) (m : SaiNeighborManager)
    (hres : e.isResolved) (hll : isV6LinkLocal e.getIP = false) :
    (∀ key managed, (saiEntryFromSwEntry e m).1 = Except.ok key →
        ManagedNeighborMap.find key m.managedNeighbors_ = some managed →
        (addNeighbor e m).error = some (FbossError.duplicateNeighbor e.getIP)) ∧
    (∀ e2 : NeighborEntryT, e2.isResolved →
        e2.getIntfID = e.getIntfID → e2.getIP = e.getIP →
        (addNeighbor e m).error = none →
        (addNeighbor e2 (addNeighbor e m).state).error =
          some (FbossError.duplicateNeighbor e2.getIP)) := by
  refine ⟨?_, ?_⟩
  · intro key managed hkey hsome
    rw [addNeighbor_present e m key managed hres hll hkey hsome]
  · intro e2 hres2 hintf hip hok
    obtain ⟨key, hkey, hnone, htab, _, hmap⟩ := addNeighbor_ok_find e m hres hll hok
    have hkey2 : (saiEntryFromSwEntry e2 (addNeighbor e m).state).1 = Except.ok key :=
      (saiEntryFromSwEntry_fst_congr e2 e _ m htab hintf hip).trans hkey
    have hfind : ManagedNeighborMap.find key (addNeighbor e m).state.managedNeighbors_ =
        some (subscribedNeighbor e m) := by
      rw [hmap, find_append_single, hnone]
      simp
    have hll2 : isV6LinkLocal e2.getIP = false := by rw [hip]; exact hll
    rw [addNeighbor_present e2 _ key _ hres2 hll2 hkey2 hfind]

/-- Witness for C1: in the example manager that already manages 10.0.0.5 on
interface 10, adding that entry again fails with the duplicate error, and so
does adding the moved entry (other MAC, aggregate port, no class tag) right
after the first add. -/
theorem addNeighbor_duplicate_fails_witness :
    arpEntry.isResolved ∧ isV6LinkLocal arpEntry.getIP = false ∧
      (addNeighbor arpEntry managerWithArp).error =
        some (FbossError.duplicateNeighbor (IPAddress.v4 0x0A000005)) ∧
      (addNeighbor arpEntryMoved (addNeighbor arpEntry emptyManager).state).error =
        some (FbossError.duplicateNeighbor (IPAddress.v4 0x0A000005)) :=
  ⟨by decide, by decide,
    (addNeighbor_duplicate_fails arpEntry managerWithArp (by decide) (by decide)).1
      arpKey (subscribedNeighbor arpEntry emptyManager) (by rfl) (by rfl),
    (addNeighbor_duplicate_fails arpEntry emptyManager (by decide) (by decide)).2
      arpEntryMoved (by decide) (by decide) (by decide) (by rfl)⟩

/-- C2: for a resolved, non-link-local entry whose key has no `ManagedNeighbor`
in the manager, `removeNeighbor` fails with the non-existent-neighbor
error. -/
theorem removeNeighbor_missing_fails (e : NeighborEntryT) (m : SaiNeighborManager)
    (key : SaiNeighborTraits.NeighborEntry)
    (hres : e.isResolved) (hll : isV6LinkLocal e.getIP = false)
    (hkey : (saiEntryFromSwEntry e m).1 = Except.ok key)
    (hnone : ManagedNeighborMap.find key m.managedNeighbors_ = none) :
    (removeNeighbor e m).error = some (FbossError.nonExistentNeighbor e.getIP) := by
  rw [removeNeighbor_absent e m key hres hll hkey hnone]

/-- Witness for C2: removing 10.0.0.5 from the empty example manager fails with
the non-existent-neighbor error. -/
theorem removeNeighbor_missing_fails_witness :
    arpEntry.isResolved ∧ isV6LinkLocal arpEntry.getIP = false ∧
      (saiEntryFromSwEntry arpEntry emptyManager).1 = Except.ok arpKey ∧
      ManagedNeighborMap.find arpKey emptyManager.managedNeighbors_ = none ∧
      (removeNeighbor arpEntry emptyManager).error =
        some (FbossError.nonExistentNeighbor (IPAddress.v4 0x0A000005)) :=
  ⟨by decide, by decide, by rfl, by rfl,
    removeNeighbor_missing_fails arpEntry emptyManager arpKey (by decide) (by decide)
      (by rfl) (by rfl)⟩

/-- C3: `changeNeighbor(old, new)` has exactly the effect, in resulting state and
error, of the four-way dispatch on `(old.isPending, new.isPending)`: nothing
when both are pending, `addNeighbor(new)` when only old is pending,
`removeNeighbor(old)` when only new is pending, and `removeNeighbor(old)`
followed by `addNeighbor(new)` when both are resolved and differ in content;
exactly one of the four guards holds for each pair. -/
theorem changeNeighbor_refines_dispatch (old new : NeighborEntryT) (m : SaiNeighborManager) :
    changeNeighbor old new m = changeNeighborDispatch old new m ∧
      (changeNeighborGuards old new).count true = 1 := by
  refine ⟨changeNeighbor_eq_dispatch old new m, ?_⟩
  unfold changeNeighborGuards
  cases old.isPending <;> cases new.isPending <;> decide

/-- C4: for resolved entries old and new of equal content, `changeNeighbor` is a
no-op in every manager state (also one with no `ManagedNeighbor` for their
key): it returns normally, leaves the whole state (the map included) as it
was, and makes no call at all; since every `addNeighbor` and every
`removeNeighbor` call logs a line first, neither was performed. -/
theorem changeNeighbor_equal_noop (old new : NeighborEntryT) (m : SaiNeighborManager)
    (hold : old.isResolved) (hnew : new.isResolved) (heq : old = new) :
    changeNeighbor old new m = Outcome.ok m ∧
      (changeNeighbor old new m).error = none ∧
      (changeNeighbor old new m).state.managedNeighbors_ = m.managedNeighbors_ ∧
      newCalls m (changeNeighbor old new m).state = [] ∧
      (∀ e st, newCalls st (addNeighbor e st).state ≠ []) ∧
      (∀ e st, newCalls st (removeNeighbor e st).state ≠ []) := by
  have h : changeNeighbor old new m = Outcome.ok m := by
    rw [changeNeighbor_eq_dispatch]
    unfold NeighborEntryT.isResolved at hold hnew
    unfold changeNeighborDispatch
    rw [hold, hnew]
    simp [heq]
  rw [h]
  refine ⟨rfl, rfl, rfl, ?_, ?_, ?_⟩
  · simp [newCalls, Outcome.ok]
  · intro e st
    obtain ⟨line, t, ht⟩ := addNeighbor_logs e st
    rw [ht]
    exact List.cons_ne_nil _ _
  · intro e st
    obtain ⟨line, t, ht⟩ := removeNeighbor_logs e st
    rw [ht]
    exact List.cons_ne_nil _ _

/-- Witness for C4: changing 10.0.0.5 to itself in the empty example manager,
where no `ManagedNeighbor` exists for it, does nothing and raises no error. -/
theorem changeNeighbor_equal_noop_witness :
    arpEntry.isResolved ∧
      ManagedNeighborMap.find arpKey emptyManager.managedNeighbors_ = none ∧
      changeNeighbor arpEntry arpEntry emptyManager = Outcome.ok emptyManager :=
  ⟨by decide, by rfl,
    (changeNeighbor_equal_noop arpEntry arpEntry emptyManager (by decide) (by decide) rfl).1⟩

/-- C5: for resolved, non-link-local entries old and new with the same interface
and IP but a different MAC, port or class tag, if a `ManagedNeighbor` exists
for old's key, then `changeNeighbor(old, new)` is `removeNeighbor(old)`
followed by `addNeighbor(new)`, it returns normally, the set of managed keys
is unchanged, and the key now holds the `ManagedNeighbor` that `addNeighbor`
constructs and subscribes for new (a function of new, the manager table and
the publisher only, not of the `ManagedNeighbor` stored before), which carries
new's port descriptor, interface, IP, MAC and class-tag metadata. -/
theorem changeNeighbor_recreates (old new : NeighborEntryT) (m : SaiNeighborManager)
    (key : SaiNeighborTraits.NeighborEntry) (managed : ManagedNeighbor)
    (hold : old.isResolved) (hnew : new.isResolved)
    (hll : isV6LinkLocal old.getIP = false)
    (hintf : new.getIntfID = old.getIntfID) (hip : new.getIP = old.getIP)
    (hdiff : new.getMac ≠ old.getMac ∨ new.getPort ≠ old.getPort ∨
      new.getClassID ≠ old.getClassID)
    (hkey : (saiEntryFromSwEntry old m).1 = Except.ok key)
    (hsome : ManagedNeighborMap.find key m.managedNeighbors_ = some managed) :
    changeNeighbor old new m = (removeNeighbor old m).andThen (addNeighbor new) ∧
      (changeNeighbor old new m).error = none ∧
      (∀ k, (ManagedNeighborMap.find k (changeNeighbor old new m).state.managedNeighbors_).isSome
        = (ManagedNeighborMap.find k m.managedNeighbors_).isSome) ∧
      ManagedNeighborMap.find key (changeNeighbor old new m).state.managedNeighbors_ =
        some (subscribedNeighbor new ⟨m.managerTable_, m.publisher, [], []⟩) ∧
      (subscribedNeighbor new ⟨m.managerTable_, m.publisher, [], []⟩).port_ =
        (match new.getPort with
          | PortDescriptor.physical phyPortID => SaiPortDescriptor.physical phyPortID
          | PortDescriptor.aggregate aggPortID => SaiPortDescriptor.aggregate aggPortID) ∧
      (subscribedNeighbor new ⟨m.managerTable_, m.publisher, [], []⟩).interfaceId =
        new.getIntfID ∧
      (subscribedNeighbor new ⟨m.managerTable_, m.publisher, [], []⟩).ip_ = new.getIP ∧
      (subscribedNeighbor new ⟨m.managerTable_, m.publisher, [], []⟩).mac = new.getMac ∧
      (subscribedNeighbor new ⟨m.managerTable_, m.publisher, [], []⟩).metadata_ =
        (match new.getClassID with
          | some classID => some (classID % 2 ^ 32)
          | none => none) := by
  have hne : old ≠ new := by
    intro h
    subst h
    simp at hdiff
  have hchange : changeNeighbor old new m = (removeNeighbor old m).andThen (addNeighbor new) := by
    rw [changeNeighbor_eq_dispatch]
    unfold NeighborEntryT.isResolved at hold hnew
    unfold changeNeighborDispatch
    rw [hold, hnew]
    simp [hne]
  have hrem := removeNeighbor_present old m key managed hold hll hkey hsome
  have hll2 : isV6LinkLocal new.getIP = false := by rw [hip]; exact hll
  have hkey2 : ∀ st : SaiNeighborManager, st.managerTable_ = m.managerTable_ →
      (saiEntryFromSwEntry new st).1 = Except.ok key := fun st hst =>
    (saiEntryFromSwEntry_fst_congr new old st m hst hintf hip).trans hkey
  obtain ⟨t, hadd, _⟩ := addNeighbor_fresh new
    { m with
      managedNeighbors_ := ManagedNeighborMap.erase key m.managedNeighbors_,
      trace := m.trace ++ [Call.xlog (LogLine.removeNeighbor old.getIP),
          Call.getRouterInterfaceHandle old.getIntfID] }
    key hnew hll2 (hkey2 _ rfl) (by rw [find_erase]; simp)
  have hres : changeNeighbor old new m = Outcome.ok
      { m with
        managedNeighbors_ := ManagedNeighborMap.erase key m.managedNeighbors_ ++
          [(key, subscribedNeighbor new ⟨m.managerTable_, m.publisher, [], []⟩)],
        trace := (m.trace ++ [Call.xlog (LogLine.removeNeighbor old.getIP),
          Call.getRouterInterfaceHandle old.getIntfID]) ++
            (Call.xlog (LogLine.addNeighbor new.getIP) ::
              Call.getRouterInterfaceHandle new.getIntfID :: t) } := by
    have hcongr : subscribedNeighbor new
        { m with
          managedNeighbors_ := ManagedNeighborMap.erase key m.managedNeighbors_,
          trace := m.trace ++ [Call.xlog (LogLine.removeNeighbor old.getIP),
            Call.getRouterInterfaceHandle old.getIntfID] } =
        subscribedNeighbor new ⟨m.managerTable_, m.publisher, [], []⟩ :=
      subscribedNeighbor_congr new _ _ rfl rfl
    rw [hchange, hrem, ok_andThen, hadd, hcongr]
  have hf := subscribedNeighbor_fields new ⟨m.managerTable_, m.publisher, [], []⟩
  refine ⟨hchange, ?_, ?_, ?_, hf.1, hf.2.1, hf.2.2.1, hf.2.2.2.1, hf.2.2.2.2.1⟩
  · rw [hres]; rfl
  · intro k
    rw [hres]
    simp only [Outcome.ok]
    rw [find_append_single, find_erase]
    by_cases hk : k = key
    · subst hk
      simp [hsome]
    · have hk2 : ¬ key = k := fun h => hk h.symm
      simp only [hk, hk2, if_false]
      cases ManagedNeighborMap.find k m.managedNeighbors_ <;> rfl
  · rw [hres]
    simp only [Outcome.ok]
    rw [find_append_single, find_erase]
    simp

/-- Witness for C5: in the example manager that manages 10.0.0.5, changing the
entry to the moved one (other MAC, aggregate port, no class tag) succeeds and
leaves a `ManagedNeighbor` for the aggregate port and the new MAC under the
same key. -/
theorem changeNeighbor_recreates_witness :
    (changeNeighbor arpEntry arpEntryMoved managerWithArp).error = none ∧
      ManagedNeighborMap.find arpKey
          (changeNeighbor arpEntry arpEntryMoved managerWithArp).state.managedNeighbors_ =
        some (subscribedNeighbor arpEntryMoved
          ⟨managerWithArp.managerTable_, managerWithArp.publisher, [], []⟩) ∧
      (subscribedNeighbor arpEntryMoved
          ⟨managerWithArp.managerTable_, managerWithArp.publisher, [], []⟩).port_ =
        SaiPortDescriptor.aggregate 2 ∧
      (subscribedNeighbor arpEntryMoved
          ⟨managerWithArp.managerTable_, managerWithArp.publisher, [], []⟩).mac = 0xAACC :=
  have h := changeNeighbor_recreates arpEntry arpEntryMoved managerWithArp arpKey
    (subscribedNeighbor arpEntry emptyManager) (by decide) (by decide) (by decide)
    (by decide) (by decide) (Or.inl (by decide)) (by rfl) (by rfl)
  ⟨h.2.1, h.2.2.2.1, h.2.2.2.2.1, h.2.2.2.2.2.2.2.1⟩

/-- C6: for a pending entry, in every manager state (also one that already
manages the entry's key, or has no router interface for it), `addNeighbor`
returns normally, leaves the managed-neighbor map, the manager table and the
publisher unchanged, and its only call is the log line "skip adding unresolved
neighbor": nothing is subscribed, no `setObject` is issued and no `ManagedNeighbor`
is created. -/
theorem addNeighbor_pending_noop (e : NeighborEntryT) (m : SaiNeighborManager)
    (hpen : e.isPending = true) :
    (addNeighbor e m).error = none ∧
      (addNeighbor e m).state.managedNeighbors_ = m.managedNeighbors_ ∧
      (addNeighbor e m).state.managerTable_ = m.managerTable_ ∧
      (addNeighbor e m).state.publisher = m.publisher ∧
      newCalls m (addNeighbor e m).state =
        [Call.xlog (LogLine.skipAddingUnresolvedNeighbor e.getIP)] ∧
      ∀ c ∈ newCalls m (addNeighbor e m).state,
        c.isSubscribe = false ∧ c.isSetObject = false ∧ c.isRouterInterfaceLookup = false := by
  rw [addNeighbor_pending e m hpen]
  have hcalls : newCalls m (Outcome.ok (m.record
      (Call.xlog (LogLine.skipAddingUnresolvedNeighbor e.getIP)))).state =
      [Call.xlog (LogLine.skipAddingUnresolvedNeighbor e.getIP)] :=
    newCalls_append m _ _ rfl
  refine ⟨rfl, rfl, rfl, rfl, hcalls, ?_⟩
  intro c hc
  rw [hcalls, List.mem_singleton] at hc
  subst hc
  exact ⟨rfl, rfl, rfl⟩

/-- Witness for C6: adding the pending entry for 10.0.0.5 to the example manager
that already manages 10.0.0.5 raises no error and leaves the map as it was;
so does adding a pending entry whose interface has no router interface. -/
theorem addNeighbor_pending_noop_witness :
    arpEntryPending.isPending = true ∧
      (addNeighbor arpEntryPending managerWithArp).error = none ∧
      (addNeighbor arpEntryPending managerWithArp).state.managedNeighbors_ =
        managerWithArp.managedNeighbors_ ∧
      (addNeighbor { arpEntryOtherInterface with state := NeighborState.pending }
        emptyManager).error = none :=
  ⟨by decide, (addNeighbor_pending_noop arpEntryPending managerWithArp (by decide)).1,
    (addNeighbor_pending_noop arpEntryPending managerWithArp (by decide)).2.1,
    (addNeighbor_pending_noop { arpEntryOtherInterface with state := NeighborState.pending }
      emptyManager (by decide)).1⟩

/-- C7: starting from an empty manager (empty map, empty trace, any manager table
and publisher), after every finite sequence of `addNeighbor`, `removeNeighbor`
and `changeNeighbor` calls, each continuing from the state the previous one
left whether it succeeded or failed, no entry of the managed-neighbor map is
keyed by or made from an IPv6 link-local address or owns a hardware object for
one, and no subscription or `setObject` call was ever made for such an
address. -/
theorem linkLocal_never_managed (table : SaiManagerTable) (publisher : SaiObjectEventPublisher)
    (ops : List NeighborOp) :
    (∀ kv ∈ (runOps ops ⟨table, publisher, [], []⟩).managedNeighbors_,
        isV6LinkLocal kv.1.ip = false ∧ isV6LinkLocal kv.2.ip_ = false ∧
        ∀ o, kv.2.object = some o → isV6LinkLocal o.adapterHostKey.ip = false) ∧
      ∀ c ∈ (runOps ops ⟨table, publisher, [], []⟩).trace,
        ∀ ip, c.programmedIP = some ip → isV6LinkLocal ip = false := by
  have h0 : NoLinkLocal ⟨table, publisher, [], []⟩ := by
    refine ⟨?_, ?_⟩
    · intro kv hkv
      simp at hkv
    · intro c hc
      simp at hc
  exact runOps_noLinkLocal ops _ h0

/-- Witness for C7: from the empty example manager, adding the link-local entry
fe80::1, adding 10.0.0.5, and changing the pending entry into the link-local
one leaves exactly one managed neighbor, the one for 10.0.0.5, and nothing
link-local. -/
theorem linkLocal_never_managed_witness :
    isV6LinkLocal ndpLinkLocalEntry.getIP = true ∧
      (runOps [NeighborOp.add ndpLinkLocalEntry, NeighborOp.add arpEntry,
          NeighborOp.change arpEntryPending ndpLinkLocalEntry]
        emptyManager).managedNeighbors_.map (fun kv => kv.1) = [arpKey] ∧
      ∀ kv ∈ (runOps [NeighborOp.add ndpLinkLocalEntry, NeighborOp.add arpEntry,
          NeighborOp.change arpEntryPending ndpLinkLocalEntry]
        emptyManager).managedNeighbors_,
        isV6LinkLocal kv.1.ip = false ∧ isV6LinkLocal kv.2.ip_ = false ∧
        ∀ o, kv.2.object = some o → isV6LinkLocal o.adapterHostKey.ip = false :=
  ⟨by decide, by rfl,
    (linkLocal_never_managed exampleTable examplePublisher
      [NeighborOp.add ndpLinkLocalEntry, NeighborOp.add arpEntry,
        NeighborOp.change arpEntryPending ndpLinkLocalEntry]).1⟩

/-- C8: `removeNeighbor` skips exactly the entries `addNeighbor` skips: each of
the two is a silent no-op (no error, manager table, publisher and map
unchanged, no router-interface lookup) if and only if the entry is pending or
its IP is an IPv6 link-local address; for such an entry both return normally
having done nothing but log one line, so the different order of the two tests
in the two functions shows in nothing but the wording of that line; and for
any other entry each of the two either throws or changes the map. -/
theorem removeNeighbor_skips_as_addNeighbor (e : NeighborEntryT) (m : SaiNeighborManager) :
    (SilentNoOp m (removeNeighbor e m) ↔
        (e.isPending = true ∨ isV6LinkLocal e.getIP = true)) ∧
      (SilentNoOp m (addNeighbor e m) ↔
        (e.isPending = true ∨ isV6LinkLocal e.getIP = true)) ∧
      ((e.isPending = true ∨ isV6LinkLocal e.getIP = true) →
        ∃ removeLine addLine,
          removeNeighbor e m = Outcome.ok (m.record (Call.xlog removeLine)) ∧
          addNeighbor e m = Outcome.ok (m.record (Call.xlog addLine))) ∧
      (¬ (e.isPending = true ∨ isV6LinkLocal e.getIP = true) →
        ((removeNeighbor e m).error ≠ none ∨
          (removeNeighbor e m).state.managedNeighbors_ ≠ m.managedNeighbors_) ∧
        ((addNeighbor e m).error ≠ none ∨
          (addNeighbor e m).state.managedNeighbors_ ≠ m.managedNeighbors_)) := by
  have hskip : (e.isPending = true ∨ isV6LinkLocal e.getIP = true) →
      ∃ removeLine addLine,
        removeNeighbor e m = Outcome.ok (m.record (Call.xlog removeLine)) ∧
        addNeighbor e m = Outcome.ok (m.record (Call.xlog addLine)) := by
    intro _
    cases hpen : e.isPending <;> cases hll : isV6LinkLocal e.getIP
    · simp_all
    · exact ⟨_, _, removeNeighbor_linkLocal e m hll, addNeighbor_linkLocal e m hpen hll⟩
    · exact ⟨_, _, removeNeighbor_pending e m hll hpen, addNeighbor_pending e m hpen⟩
    · exact ⟨_, _, removeNeighbor_linkLocal e m hll, addNeighbor_pending e m hpen⟩
  have hchanged : ¬ (e.isPending = true ∨ isV6LinkLocal e.getIP = true) →
      ((removeNeighbor e m).error ≠ none ∨
        (removeNeighbor e m).state.managedNeighbors_ ≠ m.managedNeighbors_) ∧
      ((addNeighbor e m).error ≠ none ∨
        (addNeighbor e m).state.managedNeighbors_ ≠ m.managedNeighbors_) := by
    intro hn
    refine ⟨?_, ?_⟩
    · by_contra hc
      simp only [not_or, not_not] at hc
      exact hn (removeNeighbor_unchanged_skips e m hc.1 hc.2)
    · by_contra hc
      simp only [not_or, not_not] at hc
      exact hn (addNeighbor_unchanged_skips e m hc.1 hc.2)
  refine ⟨⟨?_, ?_⟩, ⟨?_, ?_⟩, hskip, hchanged⟩
  · intro hs
    by_contra hn
    simp only [not_or, Bool.not_eq_true] at hn
    have hl := removeNeighbor_lookup e m hn.1 hn.2
    have := hs.2.2.2.2 _ hl
    simp [Call.isRouterInterfaceLookup] at this
  · intro h
    obtain ⟨l1, _, h1, _⟩ := hskip h
    rw [h1]
    exact silentNoOp_log m l1
  · intro hs
    by_contra hn
    simp only [not_or, Bool.not_eq_true] at hn
    have hl := addNeighbor_lookup e m hn.1 hn.2
    have := hs.2.2.2.2 _ hl
    simp [Call.isRouterInterfaceLookup] at this
  · intro h
    obtain ⟨_, l2, _, h2⟩ := hskip h
    rw [h2]
    exact silentNoOp_log m l2

/-- Witness for C8: the resolved link-local entry fe80::1 is skipped silently by
both functions in the empty example manager, and the resolved entry 10.0.0.5
by neither. -/
theorem removeNeighbor_skips_as_addNeighbor_witness :
    SilentNoOp emptyManager (removeNeighbor ndpLinkLocalEntry emptyManager) ∧
      SilentNoOp emptyManager (addNeighbor ndpLinkLocalEntry emptyManager) ∧
      ¬ SilentNoOp emptyManager (removeNeighbor arpEntry emptyManager) ∧
      ¬ SilentNoOp emptyManager (addNeighbor arpEntry emptyManager) :=
  ⟨(removeNeighbor_skips_as_addNeighbor ndpLinkLocalEntry emptyManager).1.mpr
      (Or.inr (by decide)),
    (removeNeighbor_skips_as_addNeighbor ndpLinkLocalEntry emptyManager).2.1.mpr
      (Or.inr (by decide)),
    fun h => absurd ((removeNeighbor_skips_as_addNeighbor arpEntry emptyManager).1.mp h)
      (by decide),
    fun h => absurd ((removeNeighbor_skips_as_addNeighbor arpEntry emptyManager).2.1.mp h)
      (by decide)⟩

/-- C9: for a resolved, non-link-local entry whose key has a `ManagedNeighbor`,
`removeNeighbor` returns normally and drops it: afterwards `getNeighborHandle`
on that key is null, `getNeighborHandle` being null exactly for the keys
absent from the map, and the `ManagedNeighbor` stored under every other key is
the one stored before the call. -/
theorem removeNeighbor_drops_entry (e : NeighborEntryT) (m : SaiNeighborManager)
    (key : SaiNeighborTraits.NeighborEntry) (managed : ManagedNeighbor)
    (hres : e.isResolved) (hll : isV6LinkLocal e.getIP = false)
    (hkey : (saiEntryFromSwEntry e m).1 = Except.ok key)
    (hsome : ManagedNeighborMap.find key m.managedNeighbors_ = some managed) :
    (removeNeighbor e m).error = none ∧
      getNeighborHandle (removeNeighbor e m).state key = none ∧
      (∀ (st : SaiNeighborManager) (k : SaiNeighborTraits.NeighborEntry),
        getNeighborHandle st k = none ↔ ManagedNeighborMap.find k st.managedNeighbors_ = none) ∧
      ∀ k, k ≠ key →
        ManagedNeighborMap.find k (removeNeighbor e m).state.managedNeighbors_ =
          ManagedNeighborMap.find k m.managedNeighbors_ := by
  rw [removeNeighbor_present e m key managed hres hll hkey hsome]
  refine ⟨rfl, ?_, ?_, ?_⟩
  · simp only [getNeighborHandle, getNeighborHandleImpl, Outcome.ok]
    rw [find_erase]
    simp
  · intro st k
    simp only [getNeighborHandle, getNeighborHandleImpl]
    cases ManagedNeighborMap.find k st.managedNeighbors_ <;> simp
  · intro k hk
    simp only [Outcome.ok]
    rw [find_erase]
    simp [hk]

/-- Witness for C9: removing 10.0.0.5 from the example manager that manages it
succeeds and leaves a null handle for its key. -/
theorem removeNeighbor_drops_entry_witness :
    arpEntry.isResolved ∧ isV6LinkLocal arpEntry.getIP = false ∧
      (ManagedNeighborMap.find arpKey managerWithArp.managedNeighbors_).isSome = true ∧
      (removeNeighbor arpEntry managerWithArp).error = none ∧
      getNeighborHandle (removeNeighbor arpEntry managerWithArp).state arpKey = none :=
  have h := removeNeighbor_drops_entry arpEntry managerWithArp arpKey
    (subscribedNeighbor arpEntry emptyManager) (by decide) (by decide) (by rfl) (by rfl)
  ⟨by decide, by decide, by rfl, h.1, h.2.1⟩

/-- Counterexample for C10: the resolved, non-link-local entry 10.0.1.5 on
interface 11, which has no router interface in the example manager, cannot
even be added: the first step of the sequence fails with the
missing-router-interface error. -/
theorem addRemoveAdd_counterexample :
    arpEntryOtherInterface.isResolved ∧
      isV6LinkLocal arpEntryOtherInterface.getIP = false ∧
      (addRemoveAdd arpEntryOtherInterface emptyManager).1.error =
        some (FbossError.noSaiRouterInterface 11) :=
  ⟨by decide, by decide, by rfl⟩

/-- C10, amended: for a resolved, non-link-local entry whose interface has a
router-interface handle and whose key is not yet managed, with the manager
table and publisher left alone, the sequence `addNeighbor(e)`;
`removeNeighbor(e)`; `addNeighbor(e)` returns normally at every step; the key
computed for the second add is the key of the first, the key is absent in
between, and the second add stores under it the very `ManagedNeighbor` the
first add stored, so the same port descriptor, MAC and metadata. -/
theorem addRemoveAdd_reproduces (e : NeighborEntryT) (m : SaiNeighborManager)
    (key : SaiNeighborTraits.NeighborEntry)
    (hres : e.isResolved) (hll : isV6LinkLocal e.getIP = false)
    (hkey : (saiEntryFromSwEntry e m).1 = Except.ok key)
    (hnone : ManagedNeighborMap.find key m.managedNeighbors_ = none) :
    (addRemoveAdd e m).1.error = none ∧
      (addRemoveAdd e m).2.1.error = none ∧
      (addRemoveAdd e m).2.2.error = none ∧
      (saiEntryFromSwEntry e (addRemoveAdd e m).2.1.state).1 = Except.ok key ∧
      ManagedNeighborMap.find key (addRemoveAdd e m).1.state.managedNeighbors_ =
        some (subscribedNeighbor e m) ∧
      ManagedNeighborMap.find key (addRemoveAdd e m).2.1.state.managedNeighbors_ = none ∧
      ManagedNeighborMap.find key (addRemoveAdd e m).2.2.state.managedNeighbors_ =
        some (subscribedNeighbor e m) ∧
      (subscribedNeighbor e m).port_ =
        (match e.getPort with
          | PortDescriptor.physical phyPortID => SaiPortDescriptor.physical phyPortID
          | PortDescriptor.aggregate aggPortID => SaiPortDescriptor.aggregate aggPortID) ∧
      (subscribedNeighbor e m).mac = e.getMac ∧
      (subscribedNeighbor e m).metadata_ =
        (match e.getClassID with
          | some classID => some (classID % 2 ^ 32)
          | none => none) := by
  obtain ⟨t1, h1, _⟩ := addNeighbor_fresh e m key hres hll hkey hnone
  have hf1 : ManagedNeighborMap.find key (addNeighbor e m).state.managedNeighbors_ =
      some (subscribedNeighbor e m) := by
    rw [h1]
    simp only [Outcome.ok]
    rw [find_append_single, hnone]
    simp
  have hk1 : (saiEntryFromSwEntry e (addNeighbor e m).state).1 = Except.ok key :=
    (saiEntryFromSwEntry_fst_congr e e _ m (by rw [h1]; rfl) rfl rfl).trans hkey
  have h2 := removeNeighbor_present e (addNeighbor e m).state key _ hres hll hk1 hf1
  have ht2 : (removeNeighbor e (addNeighbor e m).state).state.managerTable_ = m.managerTable_ := by
    rw [h2, h1]; rfl
  have hp2 : (removeNeighbor e (addNeighbor e m).state).state.publisher = m.publisher := by
    rw [h2, h1]; rfl
  have hf2 : ManagedNeighborMap.find key
      (removeNeighbor e (addNeighbor e m).state).state.managedNeighbors_ = none := by
    rw [h2]
    simp only [Outcome.ok]
    rw [find_erase]
    simp
  have hk2 : (saiEntryFromSwEntry e (removeNeighbor e (addNeighbor e m).state).state).1 =
      Except.ok key :=
    (saiEntryFromSwEntry_fst_congr e e _ m ht2 rfl rfl).trans hkey
  obtain ⟨t3, h3, _⟩ := addNeighbor_fresh e _ key hres hll hk2 hf2
  have hs3 : subscribedNeighbor e (removeNeighbor e (addNeighbor e m).state).state =
      subscribedNeighbor e m := subscribedNeighbor_congr e _ m ht2 hp2
  have hfields := subscribedNeighbor_fields e m
  refine ⟨?_, ?_, ?_, hk2, hf1, hf2, ?_, hfields.1, hfields.2.2.2.1, hfields.2.2.2.2.1⟩
  · show (addNeighbor e m).error = none
    rw [h1]; rfl
  · show (removeNeighbor e (addNeighbor e m).state).error = none
    rw [h2]; rfl
  · show (addNeighbor e (removeNeighbor e (addNeighbor e m).state).state).error = none
    rw [h3]; rfl
  · show ManagedNeighborMap.find key
      (addNeighbor e (removeNeighbor e (addNeighbor e m).state).state).state.managedNeighbors_ =
        some (subscribedNeighbor e m)
    rw [h3]
    simp only [Outcome.ok]
    rw [find_append_single, hf2, hs3]
    simp

/-- Witness for C10, amended: 10.0.0.5 on interface 10 in the empty example
manager: all three steps succeed and the key holds the same `ManagedNeighbor`
after the first and after the second add. -/
theorem addRemoveAdd_reproduces_witness :
    arpEntry.isResolved ∧ isV6LinkLocal arpEntry.getIP = false ∧
      (saiEntryFromSwEntry arpEntry emptyManager).1 = Except.ok arpKey ∧
      ManagedNeighborMap.find arpKey emptyManager.managedNeighbors_ = none ∧
      (addRemoveAdd arpEntry emptyManager).1.error = none ∧
      (addRemoveAdd arpEntry emptyManager).2.1.error = none ∧
      (addRemoveAdd arpEntry emptyManager).2.2.error = none ∧
      ManagedNeighborMap.find arpKey
          (addRemoveAdd arpEntry emptyManager).2.2.state.managedNeighbors_ =
        ManagedNeighborMap.find arpKey
          (addRemoveAdd arpEntry emptyManager).1.state.managedNeighbors_ :=
  have h := addRemoveAdd_reproduces arpEntry emptyManager arpKey (by decide) (by decide)
    (by rfl) (by rfl)
  ⟨by decide, by decide, by rfl, by rfl, h.1, h.2.1, h.2.2.1,
    h.2.2.2.2.2.2.1.trans h.2.2.2.2.1.symm⟩

/-- C13: `createObject` calls the store's `setObject` exactly once: the calls it
makes are that single `setObject`, for the key built from the FDB entry's
switch ID, the router interface's adapter key and its own IP, and its notify
argument is `isLinkUp` of the subscriber's own port in the state it runs in,
so `true` exactly when the link is eligible; the object it then owns is the
one that call returned. -/
theorem createObject_calls_setObject_once (m : SaiNeighborManager) (self : ManagedNeighbor)
    (interface : SaiRouterInterface) (fdbEntry : SaiFdbEntry) :
    newCalls m (createObject m self interface fdbEntry).1 =
        [Call.setObject ⟨fdbEntry.adapterHostKey.switchId, interface.adapterKey, self.ip_⟩
          ⟨fdbEntry.adapterHostKey.mac, self.metadata_⟩ (isLinkUp m self.port_)] ∧
      ((newCalls m (createObject m self interface fdbEntry).1).filter Call.isSetObject).length
        = 1 ∧
      (∀ key attributes notify,
        Call.setObject key attributes notify ∈
            newCalls m (createObject m self interface fdbEntry).1 →
          notify = isLinkUp m self.port_) ∧
      (createObject m self interface fdbEntry).2.object =
        some ⟨⟨fdbEntry.adapterHostKey.switchId, interface.adapterKey, self.ip_⟩,
          ⟨fdbEntry.adapterHostKey.mac, self.metadata_⟩, isLinkUp m self.port_⟩ := by
  have h : newCalls m (createObject m self interface fdbEntry).1 =
      [Call.setObject ⟨fdbEntry.adapterHostKey.switchId, interface.adapterKey, self.ip_⟩
        ⟨fdbEntry.adapterHostKey.mac, self.metadata_⟩ (isLinkUp m self.port_)] :=
    newCalls_append m _ _ rfl
  refine ⟨h, ?_, ?_, rfl⟩
  · rw [h]
    rfl
  · intro key attributes notify hmem
    rw [h, List.mem_singleton] at hmem
    injection hmem with _ _ hn

/-- Witness for C13: with every port down, `createObject` for the example
subscriber makes the one call `setObject` with notify false; with every port
up, the one call `setObject` with notify true. -/
theorem createObject_calls_setObject_once_witness :
    newCalls emptyManagerDown (createObject emptyManagerDown exampleSubscriber
        exampleRouterInterface exampleFdbEntry).1 =
        [Call.setObject ⟨1, 100, IPAddress.v4 0x0A000005⟩ ⟨0xAABB, some 7⟩ false] ∧
      newCalls emptyManager (createObject emptyManager exampleSubscriber
        exampleRouterInterface exampleFdbEntry).1 =
        [Call.setObject ⟨1, 100, IPAddress.v4 0x0A000005⟩ ⟨0xAABB, some 7⟩ true] :=
  ⟨(createObject_calls_setObject_once emptyManagerDown exampleSubscriber
      exampleRouterInterface exampleFdbEntry).1,
    (createObject_calls_setObject_once emptyManager exampleSubscriber
      exampleRouterInterface exampleFdbEntry).1⟩

/-- C14: `isLinkUp` answers, for a physical port, `true` exactly when the port's
operational status is UP, and for an aggregate port, exactly the LAG
manager's `isMinimumLinkMet`; it is a query: it returns a truth value and no
state, and its answer depends on the manager table alone, not on the
managed-neighbor map or on any `ManagedNeighbor`; where `createObject` calls
it, the map, the manager table and the subscriber's port are as before. -/
theorem isLinkUp_query (m : SaiNeighborManager) :
    (∀ phyPortID, isLinkUp m (SaiPortDescriptor.physical phyPortID) = true ↔
        m.managerTable_.portOperStatus phyPortID = SaiPortOperStatus.up) ∧
      (∀ aggPortID, isLinkUp m (SaiPortDescriptor.aggregate aggPortID) =
        m.managerTable_.isMinimumLinkMet aggPortID) ∧
      (∀ (m2 : SaiNeighborManager) port, m2.managerTable_ = m.managerTable_ →
        isLinkUp m2 port = isLinkUp m port) ∧
      (∀ (self : ManagedNeighbor) (interface : SaiRouterInterface) (fdbEntry : SaiFdbEntry),
        (createObject m self interface fdbEntry).1.managedNeighbors_ = m.managedNeighbors_ ∧
        (createObject m self interface fdbEntry).1.managerTable_ = m.managerTable_ ∧
        (createObject m self interface fdbEntry).2.port_ = self.port_) := by
  refine ⟨?_, ?_, ?_, fun _ _ _ => ⟨rfl, rfl, rfl⟩⟩
  · intro phyPortID
    simp [isLinkUp]
  · intro aggPortID
    rfl
  · intro m2 port h
    unfold isLinkUp
    rw [h]

/-- Witness for C14: in the example manager, whose ports are all up, `isLinkUp`
is true for physical port 1 and for aggregate port 2; in the example manager
whose ports are all down, it is false for both. -/
theorem isLinkUp_query_witness :
    isLinkUp emptyManager (SaiPortDescriptor.physical 1) = true ∧
      isLinkUp emptyManager (SaiPortDescriptor.aggregate 2) = true ∧
      isLinkUp emptyManagerDown (SaiPortDescriptor.physical 1) = false ∧
      isLinkUp emptyManagerDown (SaiPortDescriptor.aggregate 2) = false :=
  ⟨((isLinkUp_query emptyManager).1 1).mpr (by rfl),
    ((isLinkUp_query emptyManager).2.1 2).trans (by rfl),
    by
      cases h : isLinkUp emptyManagerDown (SaiPortDescriptor.physical 1) with
      | false => rfl
      | true => exact absurd (((isLinkUp_query emptyManagerDown).1 1).mp h) (by decide),
    ((isLinkUp_query emptyManagerDown).2.1 2).trans (by rfl)⟩

/-- C16: a failing `addNeighbor` or `removeNeighbor` leaves the managed-neighbor
map as it was: `addNeighbor` fails only with the duplicate error or the
missing-router-interface error, `removeNeighbor` only with the not-found error
or the missing-router-interface error, and in each case the map after the
call is the map before it; in particular the `ManagedNeighbor` that made an
add a duplicate is still the one stored under the key. -/
theorem failing_call_keeps_map (e : NeighborEntryT) (m : SaiNeighborManager) :
    ((addNeighbor e m).error ≠ none →
        (addNeighbor e m).state.managedNeighbors_ = m.managedNeighbors_ ∧
        ((addNeighbor e m).error = some (FbossError.duplicateNeighbor e.getIP) ∨
          (addNeighbor e m).error = some (FbossError.noSaiRouterInterface e.getIntfID))) ∧
      ((removeNeighbor e m).error ≠ none →
        (removeNeighbor e m).state.managedNeighbors_ = m.managedNeighbors_ ∧
        ((removeNeighbor e m).error = some (FbossError.nonExistentNeighbor e.getIP) ∨
          (removeNeighbor e m).error = some (FbossError.noSaiRouterInterface e.getIntfID))) ∧
      (∀ key managed, e.isResolved → isV6LinkLocal e.getIP = false →
        (saiEntryFromSwEntry e m).1 = Except.ok key →
        ManagedNeighborMap.find key m.managedNeighbors_ = some managed →
        (addNeighbor e m).error = some (FbossError.duplicateNeighbor e.getIP) ∧
        ManagedNeighborMap.find key (addNeighbor e m).state.managedNeighbors_ =
          some managed) := by
  refine ⟨addNeighbor_error_map e m, removeNeighbor_error_map e m, ?_⟩
  intro key managed hres hll hkey hsome
  rw [addNeighbor_present e m key managed hres hll hkey hsome]
  exact ⟨rfl, hsome⟩

/-- Witness for C16: adding 10.0.0.5 to the example manager that manages it
fails and leaves the map as it was; so does removing it from the empty example
manager, and removing the entry on interface 11, which has no router
interface. -/
theorem failing_call_keeps_map_witness :
    (addNeighbor arpEntryMoved managerWithArp).error ≠ none ∧
      (addNeighbor arpEntryMoved managerWithArp).state.managedNeighbors_ =
        managerWithArp.managedNeighbors_ ∧
      (removeNeighbor arpEntry emptyManager).error ≠ none ∧
      (removeNeighbor arpEntry emptyManager).state.managedNeighbors_ =
        emptyManager.managedNeighbors_ ∧
      (removeNeighbor arpEntryOtherInterface managerWithArp).error ≠ none ∧
      (removeNeighbor arpEntryOtherInterface managerWithArp).state.managedNeighbors_ =
        managerWithArp.managedNeighbors_ :=
  ⟨by decide,
    ((failing_call_keeps_map arpEntryMoved managerWithArp).1 (by decide)).1,
    by decide,
    ((failing_call_keeps_map arpEntry emptyManager).2.1 (by decide)).1,
    by decide,
    ((failing_call_keeps_map arpEntryOtherInterface managerWithArp).2.1 (by decide)).1⟩

/-- C20: `saiEntryFromSwEntry` fails if and only if the router-interface manager
has no handle for the entry's interface ID; otherwise it returns the key made
of the switch manager's switch ID, the adapter key of that router interface
and the entry's IP; its result depends on the entry's interface ID and IP
only, not on its MAC, port, class tag or pending state. -/
theorem saiEntryFromSwEntry_fails_iff_no_handle (e : NeighborEntryT)
    (m : SaiNeighborManager) :
    ((∃ err, (saiEntryFromSwEntry e m).1 = Except.error err) ↔
        getRouterInterfaceHandle m.managerTable_ e.getIntfID = none) ∧
      (∀ handle, getRouterInterfaceHandle m.managerTable_ e.getIntfID = some handle →
        (saiEntryFromSwEntry e m).1 =
          Except.ok ⟨m.managerTable_.switchSaiId, handle.routerInterface.adapterKey,
            e.getIP⟩) ∧
      (∀ e2 : NeighborEntryT, e2.getIntfID = e.getIntfID → e2.getIP = e.getIP →
        (saiEntryFromSwEntry e2 m).1 = (saiEntryFromSwEntry e m).1) := by
  refine ⟨⟨?_, ?_⟩, saiEntryFromSwEntry_of_handle e m, ?_⟩
  · rintro ⟨err, herr⟩
    exact (saiEntryFromSwEntry_error e m err herr).2
  · intro h
    exact ⟨_, saiEntryFromSwEntry_of_none e m h⟩
  · intro e2 hintf hip
    exact saiEntryFromSwEntry_fst_congr e2 e m m rfl hintf hip

/-- Witness for C20: in the example manager the entry on interface 11 has no
router-interface handle and the key computation fails; for 10.0.0.5 on
interface 10 it returns the key (1, 100, 10.0.0.5), and the moved entry, which
differs in MAC, port and class tag, gets the same key. -/
theorem saiEntryFromSwEntry_fails_iff_no_handle_witness :
    (∃ err, (saiEntryFromSwEntry arpEntryOtherInterface emptyManager).1 = Except.error err) ∧
      (saiEntryFromSwEntry arpEntry emptyManager).1 =
        Except.ok ⟨1, 100, IPAddress.v4 0x0A000005⟩ ∧
      (saiEntryFromSwEntry arpEntryMoved emptyManager).1 =
        (saiEntryFromSwEntry arpEntry emptyManager).1 :=
  ⟨(saiEntryFromSwEntry_fails_iff_no_handle arpEntryOtherInterface emptyManager).1.mpr
      (by rfl),
    (saiEntryFromSwEntry_fails_iff_no_handle arpEntry emptyManager).2.1 ⟨⟨100⟩⟩ (by rfl),
    (saiEntryFromSwEntry_fails_iff_no_handle arpEntry emptyManager).2.2 arpEntryMoved
      (by decide) (by decide)⟩

/-- Counterexample for C11: the resolved, non-link-local entry on interface 11,
for which the router-interface manager of the example has no handle, is not
accepted: `addNeighbor` throws the missing-router-interface error and the
entry is not managed. -/
theorem addNeighbor_without_handle_counterexample :
    arpEntryOtherInterface.isResolved ∧
      isV6LinkLocal arpEntryOtherInterface.getIP = false ∧
      getRouterInterfaceHandle emptyManager.managerTable_ arpEntryOtherInterface.getIntfID
        = none ∧
      (addNeighbor arpEntryOtherInterface emptyManager).error =
        some (FbossError.noSaiRouterInterface 11) ∧
      (addNeighbor arpEntryOtherInterface emptyManager).state.managedNeighbors_ = [] :=
  ⟨by decide, by decide, by rfl, by rfl, by rfl⟩

/-- C11, amended: for a resolved, non-link-local entry whose interface has no
handle in the router-interface manager, `addNeighbor` fails with the
missing-router-interface error: the map is unchanged, so the entry is not
managed, and after the log line and the lookup no call is made, so nothing is
subscribed and no hardware object is created. When the handle exists and the
key is free, but the router-interface object or the FDB entry is not live at
the publisher, the entry is accepted: it is managed and owns no hardware
object. -/
theorem addNeighbor_needs_handle (e : NeighborEntryT) (m : SaiNeighborManager)
    (hres : e.isResolved) (hll : isV6LinkLocal e.getIP = false) :
    (getRouterInterfaceHandle m.managerTable_ e.getIntfID = none →
        (addNeighbor e m).error = some (FbossError.noSaiRouterInterface e.getIntfID) ∧
        (addNeighbor e m).state.managedNeighbors_ = m.managedNeighbors_ ∧
        newCalls m (addNeighbor e m).state =
          [Call.xlog (LogLine.addNeighbor e.getIP),
            Call.getRouterInterfaceHandle e.getIntfID]) ∧
      (∀ key, (saiEntryFromSwEntry e m).1 = Except.ok key →
        ManagedNeighborMap.find key m.managedNeighbors_ = none →
        (m.publisher.hasRouterInterface e.getIntfID = false ∨
          m.publisher.hasFdbEntry e.getIntfID e.getMac = false) →
        (addNeighbor e m).error = none ∧
        ManagedNeighborMap.find key (addNeighbor e m).state.managedNeighbors_ =
          some (subscribedNeighbor e m) ∧
        (subscribedNeighbor e m).object = none ∧
        (subscribedNeighbor e m).handle_.neighbor = none) := by
  refine ⟨?_, ?_⟩
  · intro hnone
    have hk := saiEntryFromSwEntry_of_none e m hnone
    rw [addNeighbor_noRouterInterface e m _ hres hll hk]
    exact ⟨rfl, rfl, newCalls_append m _ _ rfl⟩
  · intro key hkey hfree hdep
    obtain ⟨t, ht, _⟩ := addNeighbor_fresh e m key hres hll hkey hfree
    have hstep := subscribedNeighbor_inStep e m
    have hfields := subscribedNeighbor_fields e m
    obtain ⟨h1, h2, h3, h4⟩ := hstep
    rw [hfields.2.1] at h1 h2
    rw [hfields.2.2.2.1] at h2
    have hobj : (subscribedNeighbor e m).object = none := by
      unfold ManagedNeighbor.ObjectIffDependencies at h3
      rw [h1, h2] at h3
      rcases hdep with hd | hd <;> rw [hd] at h3 <;> simpa using h3
    refine ⟨?_, ?_, hobj, h4.trans hobj⟩
    · rw [ht]; rfl
    · rw [ht]
      simp only [Outcome.ok]
      rw [find_append_single, hfree]
      simp

/-- Witness for C11, amended: in the empty example manager the entry on
interface 11 (no handle) is rejected and nothing is managed; the moved entry
on interface 10, whose FDB entry is not live, is accepted and owns no hardware
object. -/
theorem addNeighbor_needs_handle_witness :
    (addNeighbor arpEntryOtherInterface emptyManager).error =
        some (FbossError.noSaiRouterInterface 11) ∧
      (addNeighbor arpEntryOtherInterface emptyManager).state.managedNeighbors_ =
        emptyManager.managedNeighbors_ ∧
      (addNeighbor arpEntryMoved emptyManager).error = none ∧
      (subscribedNeighbor arpEntryMoved emptyManager).object = none :=
  have h1 := (addNeighbor_needs_handle arpEntryOtherInterface emptyManager
    (by decide) (by decide)).1 (by rfl)
  have h2 := (addNeighbor_needs_handle arpEntryMoved emptyManager
    (by decide) (by decide)).2 arpKey (by rfl) (by rfl) (Or.inr (by decide))
  ⟨h1.1, h1.2.1, h2.1, h2.2.2.1⟩

/-- Counterexample for C15: in the example manager that manages 10.0.0.5 on
interface 10, changing that entry into the resolved entry for the same
address on interface 11, which has no router interface, fails in
`addNeighbor` after `removeNeighbor` has run: the call returns the
missing-router-interface error and the `ManagedNeighbor` of the old entry is
gone from the map. -/
theorem changeNeighbor_partial_counterexample :
    (changeNeighbor arpEntry arpEntryRehomed managerWithArp).error =
        some (FbossError.noSaiRouterInterface 11) ∧
      (ManagedNeighborMap.find arpKey managerWithArp.managedNeighbors_).isSome = true ∧
      ManagedNeighborMap.find arpKey
        (changeNeighbor arpEntry arpEntryRehomed managerWithArp).state.managedNeighbors_
          = none ∧
      (changeNeighbor arpEntry arpEntryRehomed managerWithArp).state.managedNeighbors_ ≠
        managerWithArp.managedNeighbors_ :=
  ⟨by rfl, by rfl, by rfl, by decide⟩

/-- C15, amended: `changeNeighbor` has no rollback. If it fails, then either the
managed-neighbor map is the map before the call (this is so whenever an entry
is pending or `removeNeighbor(old)` is what failed), or both entries are
resolved and unequal, `removeNeighbor(old)` succeeded and `addNeighbor(new)`
failed, and the map is the one `removeNeighbor(old)` left: for a
non-link-local old entry its key is then absent. -/
theorem changeNeighbor_failure_map (old new : NeighborEntryT) (m : SaiNeighborManager)
    (hfail : (changeNeighbor old new m).error ≠ none) :
    (changeNeighbor old new m).state.managedNeighbors_ = m.managedNeighbors_ ∨
      (old.isResolved ∧ new.isResolved ∧ old ≠ new ∧
        (removeNeighbor old m).error = none ∧
        (addNeighbor new (removeNeighbor old m).state).error ≠ none ∧
        (changeNeighbor old new m).state.managedNeighbors_ =
          (removeNeighbor old m).state.managedNeighbors_ ∧
        ∀ key, isV6LinkLocal old.getIP = false →
          (saiEntryFromSwEntry old m).1 = Except.ok key →
          ManagedNeighborMap.find key (changeNeighbor old new m).state.managedNeighbors_
            = none) := by
  rw [changeNeighbor_eq_dispatch] at hfail ⊢
  unfold changeNeighborDispatch at hfail ⊢
  cases ho : old.isPending <;> cases hn : new.isPending <;> simp only [ho, hn] at hfail ⊢
  · by_cases heq : old = new
    · simp only [heq, if_true] at hfail
      exact absurd rfl hfail
    · simp only [heq, if_false] at hfail ⊢
      cases hr : (removeNeighbor old m).error with
      | some err =>
        have hres : (removeNeighbor old m).andThen (addNeighbor new) = removeNeighbor old m := by
          unfold Outcome.andThen
          rw [hr]
        rw [hres]
        exact Or.inl (removeNeighbor_error_map old m (by rw [hr]; simp)).1
      | none =>
        have hres : (removeNeighbor old m).andThen (addNeighbor new) =
            addNeighbor new (removeNeighbor old m).state := by
          unfold Outcome.andThen
          rw [hr]
        rw [hres] at hfail ⊢
        have hmap := (addNeighbor_error_map new _ hfail).1
        refine Or.inr ⟨ho, hn, heq, rfl, hfail, hmap, ?_⟩
        intro key hll hkey
        rw [hmap]
        cases hf : ManagedNeighborMap.find key m.managedNeighbors_ with
        | some managed =>
          rw [removeNeighbor_present old m key managed ho hll hkey hf]
          simp only [Outcome.ok]
          rw [find_erase]
          simp
        | none =>
          rw [removeNeighbor_absent old m key ho hll hkey hf] at hr
          simp at hr
  · exact Or.inl (removeNeighbor_error_map old m hfail).1
  · exact Or.inl (addNeighbor_error_map new m hfail).1
  · exact absurd rfl hfail

/-- Witness for C15, amended: the failing change of 10.0.0.5 from interface 10
to interface 11 leaves the map `removeNeighbor` left, without the old key;
the failing change of a pending entry into the entry on interface 11 leaves
the map as it was. -/
theorem changeNeighbor_failure_map_witness :
    (changeNeighbor arpEntry arpEntryRehomed managerWithArp).error ≠ none ∧
      ((changeNeighbor arpEntry arpEntryRehomed managerWithArp).state.managedNeighbors_ =
          managerWithArp.managedNeighbors_ ∨
        (changeNeighbor arpEntry arpEntryRehomed managerWithArp).state.managedNeighbors_ =
          (removeNeighbor arpEntry managerWithArp).state.managedNeighbors_) ∧
      (changeNeighbor arpEntryPending arpEntryRehomed managerWithArp).error ≠ none ∧
      (changeNeighbor arpEntryPending arpEntryRehomed managerWithArp).state.managedNeighbors_ =
        managerWithArp.managedNeighbors_ :=
  ⟨by decide,
    (changeNeighbor_failure_map arpEntry arpEntryRehomed managerWithArp (by decide)).imp
      id (fun h => h.2.2.2.2.2.1),
    by decide,
    (changeNeighbor_failure_map arpEntryPending arpEntryRehomed managerWithArp
      (by decide)).elim id (fun h => absurd h.1 (by decide))⟩

/-- Counterexample for C12: with every port down, so that `isLinkUp` is false
for the subscriber's port, `createObject` called with both dependencies
leaves the subscriber with a hardware object (created with notify false), and
the `ManagedNeighbor` stored by `addNeighbor` in that manager owns one too:
the object exists although the port is not link-eligible. -/
theorem createObject_linkDown_counterexample :
    isLinkUp emptyManagerDown exampleSubscriber.port_ = false ∧
      (createObject emptyManagerDown exampleSubscriber exampleRouterInterface
        exampleFdbEntry).2.object =
        some ⟨⟨1, 100, IPAddress.v4 0x0A000005⟩, ⟨0xAABB, some 7⟩, false⟩ ∧
      ((ManagedNeighborMap.find arpKey
        (addNeighbor arpEntry emptyManagerDown).state.managedNeighbors_).bind
          (fun n => n.object)).isSome = true :=
  ⟨by decide, by rfl, by rfl⟩

/-- C12, amended: in every state reached from an empty manager by calls on the
manager, lifecycle events of router interfaces and FDB entries, and changes
of the manager table (link state included), every stored `ManagedNeighbor`
owns a hardware object if and only if both of its dependencies are live at
the publisher: a router interface under its interface ID and an FDB entry
under its interface ID and MAC. Link eligibility is no condition: whenever
`createObject` runs it leaves the subscriber with an object, and `isLinkUp` of
its port only sets that object's notify flag, which is false when the port is
down. -/
theorem object_iff_dependencies (table : SaiManagerTable) (publisher : SaiObjectEventPublisher)
    (steps : List ManagerStep) :
    (∀ kv ∈ (runSteps steps ⟨table, publisher, [], []⟩).managedNeighbors_,
        (kv.2.object.isSome = true ↔
          ((runSteps steps ⟨table, publisher, [], []⟩).publisher.hasRouterInterface
              kv.2.interfaceId = true ∧
            (runSteps steps ⟨table, publisher, [], []⟩).publisher.hasFdbEntry
              kv.2.interfaceId kv.2.mac = true))) ∧
      (∀ (m : SaiNeighborManager) (self : ManagedNeighbor) (interface : SaiRouterInterface)
          (fdbEntry : SaiFdbEntry),
        (createObject m self interface fdbEntry).2.object =
          some ⟨⟨fdbEntry.adapterHostKey.switchId, interface.adapterKey, self.ip_⟩,
            ⟨fdbEntry.adapterHostKey.mac, self.metadata_⟩, isLinkUp m self.port_⟩) := by
  refine ⟨?_, fun _ _ _ _ => rfl⟩
  have h0 : AllInStep ⟨table, publisher, [], []⟩ := by
    intro kv hkv
    simp at hkv
  intro kv hkv
  exact inStep_object_iff _ kv.2 (runSteps_allInStep steps _ h0 kv hkv)

/-- Witness for C12, amended: with every port down, the moved entry (whose FDB
entry is not live) is added and owns no object; once its FDB entry is
created it owns one, link down or not; once the router interface is removed
it owns none again. -/
theorem object_iff_dependencies_witness :
    ((runSteps [ManagerStep.call (NeighborOp.add arpEntryMoved)]
          emptyManagerDown).managedNeighbors_.map (fun kv => kv.2.object.isSome) = [false]) ∧
      ((runSteps [ManagerStep.call (NeighborOp.add arpEntryMoved),
          ManagerStep.fdbEntryCreated (10, 0xAACC) ⟨⟨1, 5, 0xAACC⟩⟩]
          emptyManagerDown).managedNeighbors_.map (fun kv => kv.2.object.isSome) = [true]) ∧
      ((runSteps [ManagerStep.call (NeighborOp.add arpEntryMoved),
          ManagerStep.fdbEntryCreated (10, 0xAACC) ⟨⟨1, 5, 0xAACC⟩⟩,
          ManagerStep.routerInterfaceRemoved 10]
          emptyManagerDown).managedNeighbors_.map (fun kv => kv.2.object.isSome) = [false]) ∧
      ∀ kv ∈ (runSteps [ManagerStep.call (NeighborOp.add arpEntryMoved),
          ManagerStep.fdbEntryCreated (10, 0xAACC) ⟨⟨1, 5, 0xAACC⟩⟩]
          emptyManagerDown).managedNeighbors_,
        (kv.2.object.isSome = true ↔
          ((runSteps [ManagerStep.call (NeighborOp.add arpEntryMoved),
              ManagerStep.fdbEntryCreated (10, 0xAACC) ⟨⟨1, 5, 0xAACC⟩⟩]
              emptyManagerDown).publisher.hasRouterInterface kv.2.interfaceId = true ∧
            (runSteps [ManagerStep.call (NeighborOp.add arpEntryMoved),
              ManagerStep.fdbEntryCreated (10, 0xAACC) ⟨⟨1, 5, 0xAACC⟩⟩]
              emptyManagerDown).publisher.hasFdbEntry kv.2.interfaceId kv.2.mac = true)) :=
  ⟨by rfl, by rfl, by rfl,
    (object_iff_dependencies exampleTableDown examplePublisher
      [ManagerStep.call (NeighborOp.add arpEntryMoved),
        ManagerStep.fdbEntryCreated (10, 0xAACC) ⟨⟨1, 5, 0xAACC⟩⟩]).1⟩

/-- C19: `removeObject`, whatever index and dependency tuple it is called with,
leaves the subscriber without its hardware object and with both handle fields
null, and touches nothing else; so when a stored `ManagedNeighbor` loses the
router interface or the FDB entry it refers to, the handle `getNeighborHandle`
returns for its key has a null neighbor and a null fdbEntry. -/
theorem removeObject_clears_handle (self : ManagedNeighbor) (index : Nat)
    (objects : Option SaiRouterInterface × Option SaiFdbEntry) :
    (removeObject self index objects).object = none ∧
      (removeObject self index objects).handle_.neighbor = none ∧
      (removeObject self index objects).handle_.fdbEntry = none ∧
      removeObject self index objects =
        { self with object := none, handle_ := ⟨none, none⟩ } ∧
      (∀ (m : SaiNeighborManager) key,
        ManagedNeighborMap.find key m.managedNeighbors_ =
            some (removeObject self index objects) →
          getNeighborHandle m key = some ⟨none, none⟩) ∧
      (∀ (m : SaiNeighborManager) key,
        ManagedNeighborMap.find key m.managedNeighbors_ = some self →
          self.routerInterface.isSome = true →
          getNeighborHandle (routerInterfaceRemoved self.interfaceId m) key =
            some ⟨none, none⟩) ∧
      (∀ (m : SaiNeighborManager) key,
        ManagedNeighborMap.find key m.managedNeighbors_ = some self →
          self.fdbEntry.isSome = true →
          getNeighborHandle (fdbEntryRemoved (self.interfaceId, self.mac) m) key =
            some ⟨none, none⟩) := by
  refine ⟨rfl, rfl, rfl, rfl, ?_, ?_, ?_⟩
  · intro m key hfind
    simp only [getNeighborHandle, getNeighborHandleImpl, hfind]
    rfl
  · intro m key hfind hsome
    obtain ⟨_, _, hall⟩ := deliverToAll_forall2 (beforeRemoveRouterInterface self.interfaceId)
      (beforeRemoveRouterInterface_tables self.interfaceId) m
    obtain ⟨n', hn', b, _, _, hb⟩ := (find_forall2
      (R := fun n n' => ∃ b : SaiNeighborManager, b.managerTable_ = m.managerTable_ ∧
        b.publisher = m.publisher ∧
        n' = (beforeRemoveRouterInterface self.interfaceId (b, n)).2) hall key).1 self hfind
    have hfind' : ManagedNeighborMap.find key
        (routerInterfaceRemoved self.interfaceId m).managedNeighbors_ = some n' := hn'
    simp only [getNeighborHandle, getNeighborHandleImpl, hfind']
    rw [hb]
    simp [beforeRemoveRouterInterface, hsome, removeObject, ManagedNeighbor.getHandle]
  · intro m key hfind hsome
    obtain ⟨_, _, hall⟩ := deliverToAll_forall2 (beforeRemoveFdb (self.interfaceId, self.mac))
      (beforeRemoveFdb_tables (self.interfaceId, self.mac)) m
    obtain ⟨n', hn', b, _, _, hb⟩ := (find_forall2
      (R := fun n n' => ∃ b : SaiNeighborManager, b.managerTable_ = m.managerTable_ ∧
        b.publisher = m.publisher ∧
        n' = (beforeRemoveFdb (self.interfaceId, self.mac) (b, n)).2) hall key).1 self hfind
    have hfind' : ManagedNeighborMap.find key
        (fdbEntryRemoved (self.interfaceId, self.mac) m).managedNeighbors_ = some n' := hn'
    simp only [getNeighborHandle, getNeighborHandleImpl, hfind']
    rw [hb]
    simp [beforeRemoveFdb, hsome, removeObject, ManagedNeighbor.getHandle]

/-- Witness for C19: in the example manager that manages 10.0.0.5, whose handle
holds the neighbor object and the FDB entry, the handle has both fields null
after the FDB entry is removed, and after the router interface is removed. -/
theorem removeObject_clears_handle_witness :
    (getNeighborHandle managerWithArp arpKey).map (fun h => h.neighbor.isSome && h.fdbEntry.isSome)
        = some true ∧
      getNeighborHandle (fdbEntryRemoved (10, 0xAABB) managerWithArp) arpKey =
        some ⟨none, none⟩ ∧
      getNeighborHandle (routerInterfaceRemoved 10 managerWithArp) arpKey =
        some ⟨none, none⟩ :=
  ⟨by rfl,
    (removeObject_clears_handle (subscribedNeighbor arpEntry emptyManager) 1 (none, none)).2.2.2.2.2.2
      managerWithArp arpKey (by rfl) (by rfl),
    (removeObject_clears_handle (subscribedNeighbor arpEntry emptyManager) 0 (none, none)).2.2.2.2.2.1
      managerWithArp arpKey (by rfl) (by rfl)⟩

/-- Counterexample for C17: with every port down, the one-call sequence that adds
10.0.0.5 succeeds; the entry is added and not removed, non-pending, not
link-local, and both its dependencies are live, but its port is not
link-eligible; all the same the `ManagedNeighbor` stored under its key owns a
hardware object. -/
theorem addRemove_linkDown_counterexample :
    allSucceed [AddRemoveOp.add arpEntry] emptyManagerDown = true ∧
      isLinkUp emptyManagerDown (SaiPortDescriptor.physical 1) = false ∧
      emptyManagerDown.publisher.hasRouterInterface arpEntry.getIntfID = true ∧
      emptyManagerDown.publisher.hasFdbEntry arpEntry.getIntfID arpEntry.getMac = true ∧
      ((ManagedNeighborMap.find arpKey
        (runAddRemove [AddRemoveOp.add arpEntry] emptyManagerDown).managedNeighbors_).bind
          (fun n => n.object)) =
        some ⟨⟨1, 100, IPAddress.v4 0x0A000005⟩, ⟨0xAABB, some 7⟩, false⟩ :=
  ⟨by rfl, by decide, by decide, by decide, by rfl⟩

/-- C17, amended: for every sequence of successful `addNeighbor` and
`removeNeighbor` calls on pairwise distinct keys starting from an empty
manager, the managed-neighbor map holds exactly the keys of the entries that
were added and not removed and are non-pending and not link-local, each with
the `ManagedNeighbor` made for that entry; and a key has a hardware neighbor
object exactly when such an entry has both dependencies (router interface, FDB
entry) live at the publisher. The link eligibility of the port is no
condition. -/
theorem addRemove_final_objects (table : SaiManagerTable) (publisher : SaiObjectEventPublisher)
    (ops : List AddRemoveOp)
    (hs : allSucceed ops ⟨table, publisher, [], []⟩ = true)
    (hd : DistinctKeys ops ⟨table, publisher, [], []⟩) :
    (∀ key n,
        ManagedNeighborMap.find key
            (runAddRemove ops ⟨table, publisher, [], []⟩).managedNeighbors_ = some n ↔
          ∃ e : NeighborEntryT, e.isManageable = true ∧ addedAndNotRemoved ops e = true ∧
            (saiEntryFromSwEntry e ⟨table, publisher, [], []⟩).1 = Except.ok key ∧
            n = subscribedNeighbor e ⟨table, publisher, [], []⟩) ∧
      (∀ key,
        (ManagedNeighborMap.find key
            (runAddRemove ops ⟨table, publisher, [], []⟩).managedNeighbors_).isSome = true ↔
          ∃ e : NeighborEntryT, e.isManageable = true ∧ addedAndNotRemoved ops e = true ∧
            (saiEntryFromSwEntry e ⟨table, publisher, [], []⟩).1 = Except.ok key) ∧
      (∀ key,
        ((ManagedNeighborMap.find key
            (runAddRemove ops ⟨table, publisher, [], []⟩).managedNeighbors_).bind
              (fun n => n.object)).isSome = true ↔
          ∃ e : NeighborEntryT, e.isManageable = true ∧ addedAndNotRemoved ops e = true ∧
            (saiEntryFromSwEntry e ⟨table, publisher, [], []⟩).1 = Except.ok key ∧
            publisher.hasRouterInterface e.getIntfID = true ∧
            publisher.hasFdbEntry e.getIntfID e.getMac = true) := by
  obtain ⟨_, _, hmap⟩ := addRemove_map table publisher ops hs hd
  have hobj : ∀ e : NeighborEntryT,
      (subscribedNeighbor e ⟨table, publisher, [], []⟩).object.isSome = true ↔
        (publisher.hasRouterInterface e.getIntfID = true ∧
          publisher.hasFdbEntry e.getIntfID e.getMac = true) := by
    intro e
    have h := inStep_object_iff publisher _
      (subscribedNeighbor_inStep e ⟨table, publisher, [], []⟩)
    have hf := subscribedNeighbor_fields e ⟨table, publisher, [], []⟩
    rw [hf.2.1, hf.2.2.2.1] at h
    exact h
  refine ⟨hmap, ?_, ?_⟩
  · intro key
    constructor
    · intro h
      cases hf : ManagedNeighborMap.find key
          (runAddRemove ops ⟨table, publisher, [], []⟩).managedNeighbors_ with
      | none => rw [hf] at h; simp at h
      | some n =>
        obtain ⟨e, h1, h2, h3, _⟩ := (hmap key n).mp hf
        exact ⟨e, h1, h2, h3⟩
    · rintro ⟨e, h1, h2, h3⟩
      rw [(hmap key _).mpr ⟨e, h1, h2, h3, rfl⟩]
      rfl
  · intro key
    constructor
    · intro h
      cases hf : ManagedNeighborMap.find key
          (runAddRemove ops ⟨table, publisher, [], []⟩).managedNeighbors_ with
      | none => rw [hf] at h; simp at h
      | some n =>
        rw [hf] at h
        obtain ⟨e, h1, h2, h3, h4⟩ := (hmap key n).mp hf
        subst h4
        have hdeps := (hobj e).mp h
        exact ⟨e, h1, h2, h3, hdeps.1, hdeps.2⟩
    · rintro ⟨e, h1, h2, h3, h4, h5⟩
      rw [(hmap key _).mpr ⟨e, h1, h2, h3, rfl⟩]
      exact (hobj e).mpr ⟨h4, h5⟩

/-- Witness for C17, amended: with every port down, after adding the link-local
entry fe80::1 and then adding, removing and adding again 10.0.0.5, the key of
10.0.0.5 is managed and has a hardware object. -/
theorem addRemove_final_objects_witness :
    allSucceed [AddRemoveOp.add ndpLinkLocalEntry, AddRemoveOp.add arpEntry,
        AddRemoveOp.remove arpEntry, AddRemoveOp.add arpEntry] emptyManagerDown = true ∧
      DistinctKeys [AddRemoveOp.add ndpLinkLocalEntry, AddRemoveOp.add arpEntry,
        AddRemoveOp.remove arpEntry, AddRemoveOp.add arpEntry] emptyManagerDown ∧
      ((ManagedNeighborMap.find arpKey
        (runAddRemove [AddRemoveOp.add ndpLinkLocalEntry, AddRemoveOp.add arpEntry,
          AddRemoveOp.remove arpEntry, AddRemoveOp.add arpEntry]
          emptyManagerDown).managedNeighbors_).bind (fun n => n.object)).isSome = true :=
  ⟨by rfl, by decide,
    ((addRemove_final_objects exampleTableDown examplePublisher
      [AddRemoveOp.add ndpLinkLocalEntry, AddRemoveOp.add arpEntry,
        AddRemoveOp.remove arpEntry, AddRemoveOp.add arpEntry] (by rfl) (by decide)).2.2
      arpKey).mpr ⟨arpEntry, by decide, by decide, by rfl, by decide, by decide⟩⟩

/-- C18: subscribing to a publisher of any object type when N objects of that
type are live delivers to the new subscriber exactly those N objects as
"created" events, one each, in creation order, and returns the subscriber as
it is after these deliveries, so that any later event reaches it after all
of them; the two subscriptions of `addNeighbor` are such replays, and
`addNeighbor` subscribes the new `ManagedNeighbor` first to the
router-interface publisher, then to the FDB publisher, and stores it
afterwards. -/
theorem subscribe_replays_live_objects :
    (∀ (σ α : Type) (deliver : σ → α → σ) (live : List α) (subscriber : σ),
        (replayLive deliver live subscriber).2 = live ∧
        (replayLive deliver live subscriber).2.length = live.length ∧
        (replayLive deliver live subscriber).1 = live.foldl deliver subscriber ∧
        ∀ later : α, deliver (replayLive deliver live subscriber).1 later =
          (replayLive deliver (live ++ [later]) subscriber).1) ∧
      (∀ (m : SaiNeighborManager) (s : ManagedNeighbor),
        subscribeRouterInterface m s =
          (replayLive afterCreateRouterInterface m.publisher.routerInterfaces
            (m.record (Call.subscribeRouterInterface s), s)).1) ∧
      (∀ (m : SaiNeighborManager) (s : ManagedNeighbor),
        subscribeFdb m s =
          (replayLive afterCreateFdb m.publisher.fdbEntries
            (m.record (Call.subscribeFdb s), s)).1) ∧
      (∀ (e : NeighborEntryT) (m : SaiNeighborManager) key,
        e.isResolved → isV6LinkLocal e.getIP = false →
        (saiEntryFromSwEntry e m).1 = Except.ok key →
        ManagedNeighborMap.find key m.managedNeighbors_ = none →
        (∃ afterRouterInterface t1 t2,
          newCalls m (addNeighbor e m).state =
            Call.xlog (LogLine.addNeighbor e.getIP) ::
              Call.getRouterInterfaceHandle e.getIntfID ::
              Call.subscribeRouterInterface (newSubscriber e) :: t1 ++
                Call.subscribeFdb afterRouterInterface :: t2 ∧
          (∀ c ∈ t1, c.isSetObject = true) ∧ (∀ c ∈ t2, c.isSetObject = true)) ∧
        ManagedNeighborMap.find key (addNeighbor e m).state.managedNeighbors_ =
          some (subscribeFdb (subscribeRouterInterface m (newSubscriber e)).1
            (subscribeRouterInterface m (newSubscriber e)).2).2) := by
  have hreplay : ∀ (σ α : Type) (deliver : σ → α → σ) (live : List α) (subscriber : σ),
      replayLive deliver live subscriber = (live.foldl deliver subscriber, live) := by
    intro σ α deliver live subscriber
    unfold replayLive
    rw [replayLive_foldl]
    simp
  refine ⟨?_, ?_, ?_, ?_⟩
  · intro σ α deliver live subscriber
    refine ⟨?_, ?_, ?_, ?_⟩
    · rw [hreplay]
    · rw [hreplay]
    · rw [hreplay]
    · intro later
      rw [hreplay, hreplay, List.foldl_append]
      rfl
  · intro m s
    rw [hreplay]
    rfl
  · intro m s
    rw [hreplay]
    rfl
  · intro e m key hres hll hkey hfree
    refine ⟨addNeighbor_fresh_calls e m key hres hll hkey hfree, ?_⟩
    obtain ⟨t, ht, _⟩ := addNeighbor_fresh e m key hres hll hkey hfree
    rw [ht]
    simp only [Outcome.ok]
    rw [find_append_single, hfree]
    simp only [if_true]
    rfl

/-- Witness for C18: the example publisher has one live router interface and one
live FDB entry; subscribing the subscriber of 10.0.0.5 to each delivers
exactly that one object, and `addNeighbor` of 10.0.0.5 in the empty example
manager logs, looks the router interface up, subscribes to the
router-interface publisher, subscribes to the FDB publisher and thereby
calls `setObject`, in this order. -/
theorem subscribe_replays_live_objects_witness :
    (replayLive afterCreateRouterInterface emptyManager.publisher.routerInterfaces
        (emptyManager, exampleSubscriber)).2 = [(10, ⟨100⟩)] ∧
      (replayLive afterCreateFdb emptyManager.publisher.fdbEntries
        (emptyManager, exampleSubscriber)).2.length = 1 ∧
      (newCalls emptyManager (addNeighbor arpEntry emptyManager).state).map
          (fun c => (c.isLog, c.isRouterInterfaceLookup, c.isSubscribe, c.isSetObject)) =
        [(true, false, false, false), (false, true, false, false),
          (false, false, true, false), (false, false, true, false),
          (false, false, false, true)] :=
  ⟨(subscribe_replays_live_objects.1 _ _ afterCreateRouterInterface
      emptyManager.publisher.routerInterfaces (emptyManager, exampleSubscriber)).1,
    (subscribe_replays_live_objects.1 _ _ afterCreateFdb
      emptyManager.publisher.fdbEntries (emptyManager, exampleSubscriber)).2.1,
    by rfl⟩


/-- C24: `createObject` makes exactly one `setObject` call, with the key (switch
ID of the FDB entry's key, adapter key of the router interface, the
subscriber's own IP) and the create attributes (MAC of the FDB entry's key,
the subscriber's metadata); the call and the created object are the same for
every subscriber with that IP, metadata and port, whatever MAC it captured.
After the call both handle fields are set: `neighbor` to the created object
and `fdbEntry` to that FDB entry. The subscriber `addNeighbor` constructs for
a software entry carries the entry's IP, and metadata exactly when the entry
has a class ID, equal to the class ID's value (a 32-bit value); subscribing
changes neither. -/
theorem createObject_key_attributes_handle (m : SaiNeighborManager) (self : ManagedNeighbor)
    (interface : SaiRouterInterface) (fdbEntry : SaiFdbEntry) (e : NeighborEntryT) :
    (newCalls m (createObject m self interface fdbEntry).1 =
        [Call.setObject ⟨fdbEntry.adapterHostKey.switchId, interface.adapterKey, self.ip_⟩
          ⟨fdbEntry.adapterHostKey.mac, self.metadata_⟩ (isLinkUp m self.port_)] ∧
      (createObject m self interface fdbEntry).2.object =
        some ⟨⟨fdbEntry.adapterHostKey.switchId, interface.adapterKey, self.ip_⟩,
          ⟨fdbEntry.adapterHostKey.mac, self.metadata_⟩, isLinkUp m self.port_⟩ ∧
      (createObject m self interface fdbEntry).2.handle_.neighbor =
        (createObject m self interface fdbEntry).2.object ∧
      (createObject m self interface fdbEntry).2.handle_.fdbEntry = some fdbEntry) ∧
    (∀ other : ManagedNeighbor, other.ip_ = self.ip_ → other.metadata_ = self.metadata_ →
      other.port_ = self.port_ →
        newCalls m (createObject m other interface fdbEntry).1 =
            newCalls m (createObject m self interface fdbEntry).1 ∧
          (createObject m other interface fdbEntry).2.object =
            (createObject m self interface fdbEntry).2.object) ∧
    ((newSubscriber e).ip_ = e.getIP ∧ (newSubscriber e).mac = e.getMac ∧
      (newSubscriber e).metadata_.isSome = e.getClassID.isSome ∧
      (∀ classID, e.getClassID = some classID → classID < 2 ^ 32 →
        (newSubscriber e).metadata_ = some classID) ∧
      (subscribedNeighbor e m).ip_ = (newSubscriber e).ip_ ∧
      (subscribedNeighbor e m).metadata_ = (newSubscriber e).metadata_) := by
  have hcalls : ∀ s : ManagedNeighbor, newCalls m (createObject m s interface fdbEntry).1 =
      [Call.setObject ⟨fdbEntry.adapterHostKey.switchId, interface.adapterKey, s.ip_⟩
        ⟨fdbEntry.adapterHostKey.mac, s.metadata_⟩ (isLinkUp m s.port_)] := by
    intro s
    simp [newCalls, createObject, createSaiObject, SaiNeighborManager.record]
  refine ⟨⟨hcalls self, rfl, rfl, rfl⟩, ?_, ?_⟩
  · intro other hip hmeta hport
    refine ⟨?_, ?_⟩
    · rw [hcalls, hcalls, hip, hmeta, hport]
    · simp only [createObject, createSaiObject, hip, hmeta, hport]
  · obtain ⟨_, _, hip, _, hmeta, _⟩ := subscribedNeighbor_fields e m
    refine ⟨rfl, rfl, ?_, ?_, hip, hmeta⟩
    · cases h : e.getClassID <;> simp [newSubscriber, ManagedNeighbor.new, h]
    · intro classID h hlt
      simp only [newSubscriber, ManagedNeighbor.new, h, Nat.mod_eq_of_lt hlt]

/-- Witness for C24: the subscriber of 10.0.0.5 captured the MAC 0xAABB and the
class ID 7; with the router interface of adapter key 100 and an FDB entry of
switch 1 whose key has the MAC 0xAACC, `createObject` programs the key
(1, 100, 10.0.0.5) with the attributes (0xAACC, 7), and the handle refers to
the created object and to that FDB entry. -/
theorem createObject_key_attributes_handle_witness :
    (newSubscriber arpEntry).mac = 0xAABB ∧
      newCalls emptyManager
          (createObject emptyManager (newSubscriber arpEntry) ⟨100⟩ ⟨⟨1, 5, 0xAACC⟩⟩).1 =
        [Call.setObject ⟨1, 100, IPAddress.v4 0x0A000005⟩ ⟨0xAACC, some 7⟩ true] ∧
      (createObject emptyManager (newSubscriber arpEntry) ⟨100⟩ ⟨⟨1, 5, 0xAACC⟩⟩).2.handle_ =
        ⟨some ⟨⟨1, 100, IPAddress.v4 0x0A000005⟩, ⟨0xAACC, some 7⟩, true⟩,
          some ⟨⟨1, 5, 0xAACC⟩⟩⟩ ∧
      (newSubscriber arpEntry).metadata_ = some 7 ∧
      (newSubscriber arpEntryMoved).metadata_.isSome = false :=
  ⟨by rfl,
    (createObject_key_attributes_handle emptyManager (newSubscriber arpEntry) ⟨100⟩
      ⟨⟨1, 5, 0xAACC⟩⟩ arpEntry).1.1,
    by rfl,
    (createObject_key_attributes_handle emptyManager (newSubscriber arpEntry) ⟨100⟩
      ⟨⟨1, 5, 0xAACC⟩⟩ arpEntry).2.2.2.2.2.1 7 (by rfl) (by decide),
    (createObject_key_attributes_handle emptyManager (newSubscriber arpEntry) ⟨100⟩
      ⟨⟨1, 5, 0xAACC⟩⟩ arpEntryMoved).2.2.2.2.1⟩

/-- C25: `portChanged` reprograms nothing (it makes no `programOnePort` and no
`setPortPrbs` call, only writes one log line, leaves `xphyConfig_` and the port
statistics as they were and throws nothing) whenever `newPort` is disabled,
whatever its profile, and also whenever `newPort` is enabled with a
non-default profile while `oldPort` exists, is enabled and has the same
profile ID, the same system-side PRBS state and the same line-side PRBS
state. When `newPort` is enabled with the default profile, `portChanged`
throws before making any call and leaves the state untouched. -/
theorem portChanged_skips_or_fails (self : ExternalPhyPort) (conversions : PhyConversions)
    (oldPort : Option Port) (newPort : Port) (platPort : WedgePort) :
    (newPort.isEnabled = false →
      (self.portChanged conversions oldPort newPort platPort).error = none ∧
        newPhyCalls self (self.portChanged conversions oldPort newPort platPort).state =
          [PhyCall.xlog (PhyLogLine.skipReprogrammingDisabledPort newPort.getName)] ∧
        (∀ c ∈ newPhyCalls self (self.portChanged conversions oldPort newPort platPort).state,
          c.isProgramming = false) ∧
        (self.portChanged conversions oldPort newPort platPort).state.xphyConfig_ =
          self.xphyConfig_ ∧
        (self.portChanged conversions oldPort newPort platPort).state.portStats_ =
          self.portStats_) ∧
    (∀ old : Port, oldPort = some old → newPort.isEnabled = true →
      newPort.getProfileID ≠ PortProfileID.PROFILE_DEFAULT → old.isEnabled = true →
      old.getProfileID = newPort.getProfileID →
      old.getGbSystemPrbs = newPort.getGbSystemPrbs →
      old.getGbLinePrbs = newPort.getGbLinePrbs →
      (self.portChanged conversions oldPort newPort platPort).error = none ∧
        newPhyCalls self (self.portChanged conversions oldPort newPort platPort).state =
          [PhyCall.xlog (PhyLogLine.noNeedToReprogram newPort.getName)] ∧
        (∀ c ∈ newPhyCalls self (self.portChanged conversions oldPort newPort platPort).state,
          c.isProgramming = false) ∧
        (self.portChanged conversions oldPort newPort platPort).state.xphyConfig_ =
          self.xphyConfig_ ∧
        (self.portChanged conversions oldPort newPort platPort).state.portStats_ =
          self.portStats_) ∧
    (newPort.isEnabled = true → newPort.getProfileID = PortProfileID.PROFILE_DEFAULT →
      (self.portChanged conversions oldPort newPort platPort).error =
          some (PortChangedError.foundDefaultProfile newPort.getName) ∧
        (self.portChanged conversions oldPort newPort platPort).state = self ∧
        newPhyCalls self (self.portChanged conversions oldPort newPort platPort).state = []) := by
  have hlog : ∀ line : PhyLogLine,
      newPhyCalls self (self.record (PhyCall.xlog line)) = [PhyCall.xlog line] ∧
        ∀ c ∈ newPhyCalls self (self.record (PhyCall.xlog line)), c.isProgramming = false := by
    intro line
    have h : newPhyCalls self (self.record (PhyCall.xlog line)) = [PhyCall.xlog line] := by
      simp [newPhyCalls, ExternalPhyPort.record]
    refine ⟨h, ?_⟩
    intro c hc
    rw [h, List.mem_singleton] at hc
    rw [hc]
    rfl
  refine ⟨?_, ?_, ?_⟩
  · intro hdis
    have hr : self.portChanged conversions oldPort newPort platPort =
        ⟨none, self.record
          (PhyCall.xlog (PhyLogLine.skipReprogrammingDisabledPort newPort.getName))⟩ := by
      simp [ExternalPhyPort.portChanged, hdis]
    rw [hr]
    exact ⟨rfl, (hlog _).1, (hlog _).2, rfl, rfl⟩
  · intro old hold hen hprof holdEn hsame hsys hline
    have hr : self.portChanged conversions oldPort newPort platPort =
        ⟨none, self.record (PhyCall.xlog (PhyLogLine.noNeedToReprogram newPort.getName))⟩ := by
      simp [ExternalPhyPort.portChanged, hold, hen, hprof, holdEn, hsame, hsys, hline]
    rw [hr]
    exact ⟨rfl, (hlog _).1, (hlog _).2, rfl, rfl⟩
  · intro hen hprof
    have hr : self.portChanged conversions oldPort newPort platPort =
        ⟨some (PortChangedError.foundDefaultProfile newPort.getName), self⟩ := by
      simp [ExternalPhyPort.portChanged, hen, hprof]
    rw [hr]
    exact ⟨rfl, rfl, by simp [newPhyCalls]⟩

/-- Witness for C25: on the example port with PRBS off, a disabled new port
(even one with the default profile) and an unchanged enabled port each leave
an unprogrammed external phy port unprogrammed, and an enabled new port with
the default profile makes `portChanged` throw; whereas the same port appearing
for the first time is programmed, and `xphyConfig_` is set. -/
theorem portChanged_skips_or_fails_witness :
    (examplePhyPort.portChanged exampleConversions (some examplePort)
        { examplePort with isEnabled := false, getProfileID := PortProfileID.PROFILE_DEFAULT }
        exampleWedgePort).state.xphyConfig_ = none ∧
      (examplePhyPort.portChanged exampleConversions (some examplePort) examplePort
        exampleWedgePort).state.xphyConfig_ = none ∧
      (examplePhyPort.portChanged exampleConversions (some examplePort)
        { examplePort with getProfileID := PortProfileID.PROFILE_DEFAULT }
        exampleWedgePort).error = some (PortChangedError.foundDefaultProfile "eth1/1/1") ∧
      (examplePhyPort.portChanged exampleConversions none examplePort exampleWedgePort) =
        ⟨none, ⟨2, some ⟨11, 5⟩, none, [PhyCall.programOnePort 2 ⟨11, 5⟩]⟩⟩ :=
  ⟨(portChanged_skips_or_fails examplePhyPort exampleConversions (some examplePort)
      { examplePort with isEnabled := false, getProfileID := PortProfileID.PROFILE_DEFAULT }
      exampleWedgePort).1 rfl |>.2.2.2.1,
    (portChanged_skips_or_fails examplePhyPort exampleConversions (some examplePort) examplePort
      exampleWedgePort).2.1 examplePort rfl rfl (by decide) rfl rfl rfl rfl |>.2.2.2.1,
    (portChanged_skips_or_fails examplePhyPort exampleConversions (some examplePort)
      { examplePort with getProfileID := PortProfileID.PROFILE_DEFAULT }
      exampleWedgePort).2.2 rfl rfl |>.1,
    by rfl⟩
end Fboss
